import Mathlib

/-!
Breakout: the simulation core of `src/Breakout_/main.cpp`.

A shallow embedding of `GameUpdate` (the once-per-tick update of the game and menu state
machines together with the entity physics of the PLAY phase), of the event handling of
the game loop in `main`, and of the box resolver `CollisionDetection`.

Conventions of the embedding.

* `float` values are exact rationals (`ℚ`): every arithmetic operation of the source is the
  exact operation, literals such as `0.7f` are the decimal fractions they spell, and there
  is no NaN or infinity.  Comparisons and the control flow they drive are those of the source.
  The one step whose branch is decided by a rounding, the dead zone of the paddle bounce, is
  given in binary32 as well (`round32`, `ballVsPaddle32`).
* `int` values are `Int`; signed overflow is undefined behaviour in C++ and is not modelled.
* The process-wide globals of the source are the fields of one record, `Game`.  The heap array
  `blocks` and its length `numberOfBlocks` are one `List Block`.
* Calls into SDL that only draw, load textures or play sounds are left out; `SDL_GetMouseState`
  and `rand` are inputs of the tick (`Input`).  The four `InRange` calls that seed a debris
  particle are taken in the order they are written.
* Division by zero is `0` in `ℚ`, where the source produces an infinity or a NaN; the only
  division by a variable is the one by `paddle.size.x` in `ballVsPaddle`.
* Macros are expanded textually, as the preprocessor does, before the expression is read:
  `ABS(X) < ABS(Y)` is modelled by what the expanded text means in C++ (`ABS_lt_ABS`).

The file has four parts: the embedding of the source; auxiliary definitions used to state the
properties, with the concrete states of the examples; lemmas on the steps of `GameUpdate`; and
the properties of the specification themselves, each named after its identifier (C1, C2, ...).
Theorems about a tick that starts in PLAY or GAME_OVER, or with a new game pending, state what
they assume of that state (for instance that no new game is pending in PLAY);
`reachable_tick_start` and `reachable_newGame_start` show that the game loop of `main` only
ever calls `GameUpdate` on states that meet these assumptions; `reachable_grid`,
`reachable_explodingDestroyed`, `reachable_lastLowest` and `reachable_blocks_high` are further
invariants of the states it reaches.
-/

namespace Breakout

/-! ## Constants (`#define`s of the source) -/

/-- The macro `TIME_STEP`, `((1.0f / 60.0f) * 1000.f)`. -/
def TIME_STEP : ℚ := (1 / 60) * 1000

def WINDOW_HEIGHT : ℚ := 720
def WINDOW_WIDTH : ℚ := 1080
def MENU_OFFSET_Y : ℚ := 40
def MENU_BACKGROUND_PIXELS_PER_FRAME : ℚ := 1
def MENU_BACKGROUND_TIME_BETWEEN_FRAMES : ℚ := TIME_STEP * 2
def MENU_BACKGROUND_WIDTH : ℚ := 1920
def MENU_BACKGROUND_HEIGHT : ℚ := 1080
def PADDLE_FRAME_SIZE : ℚ := 16
def PADDLE_START_WIDTH : ℚ := PADDLE_FRAME_SIZE * 3
def PADDLE_START_HEIGHT : ℚ := PADDLE_FRAME_SIZE
def GRAVITY : ℚ := 98 / 10
def EXPLOSION_WIDTH : ℚ := 128
def EXPLOSION_HEIGHT : ℚ := 128
def EXPLOSION_MAX_FRAME_X : ℚ := 3
def EXPLOSION_MAX_FRAME_Y : ℚ := 5
def EXPLOSION_TIME_BETWEEN_FRAMES : ℚ := TIME_STEP * 3
def BLOCK_WIDTH : ℚ := 32
def BLOCK_HEIGHT : ℚ := 16
def MAX_NUMBER_OF_SPLITTER : Nat := 12
def BALL_WIDTH : ℚ := 8
def BALL_HEIGHT : ℚ := 8
def TIME_BETWEEN_LOWERING_BLOCKS : ℚ := 2000
def TIME_TO_SHOW_GAME_OVER : ℚ := 4000
def TIME_TO_SHOW_NEXT_LEVEL : ℚ := 2000
def TIME_TO_SHOW_COMPLETED_GAME : ℚ := 4000
def COOLDOWNTIME : ℚ := TIME_STEP * 10

/-! ## Data model -/

/-- The `struct Vec2` of `Vector.h`. -/
structure Vec2 where
  x : ℚ
  y : ℚ
deriving DecidableEq

/-- The operator `Vec2::operator+=`, seen as a function. -/
def Vec2.add (a v : Vec2) : Vec2 := ⟨a.x + v.x, a.y + v.y⟩

/-- The `struct Color`. -/
structure Color where
  r : ℚ
  g : ℚ
  b : ℚ
  a : ℚ
deriving DecidableEq

/-- The `enum GameState`. -/
inductive GameState where
  | GAMESTATE_NONE
  | GAMESTATE_MENU
  | GAMESTATE_PLAY
  | GAMESTATE_GAME_OVER
  | GAMESTATE_NEXT_LEVEL
  | GAMESTATE_COMPLETED_GAME
deriving DecidableEq

/-- The `enum MenuState`. -/
inductive MenuState where
  | MENUSTATE_NONE
  | MENUSTATE_NEW_GAME
  | MENUSTATE_CONTINUE
  | MENUSTATE_INSTRUCTION
  | MENUSTATE_INSTRUCTIONS
  | MENUSTATE_BACK
  | MENUSTATE_EXIT
deriving DecidableEq

open GameState MenuState

/-- The `struct Menu::Items` without its texture handles. -/
structure Items where
  size : Vec2
  pos : Vec2
  isHoovering : Bool
deriving DecidableEq

/-- The `struct Menu::Background` without its texture handle. -/
structure Background where
  frame : Vec2
  timeToNextFrame : ℚ
deriving DecidableEq

/-- The `struct Menu`; the array `instructions[5]` is the five fields `instructions0` .. `instructions4`. -/
structure Menu where
  title : Items
  newGame : Items
  continueGame : Items
  exitGame : Items
  instruction : Items
  instructions0 : Items
  instructions1 : Items
  instructions2 : Items
  instructions3 : Items
  instructions4 : Items
  background : Background
deriving DecidableEq

/-- The `struct paddle`. -/
structure Paddle where
  pos : Vec2
  size : Vec2
  maxWidth : ℚ
  vel : ℚ
  maxVel : ℚ
  angle : ℚ
  dir : Int
deriving DecidableEq

/-- The `struct Splitter`. -/
structure Splitter where
  pos : Vec2
  size : Vec2
  acc : Vec2
  vel : Vec2
  color : Color
deriving DecidableEq

/-- The `struct Explosion`. -/
structure Explosion where
  pos : Vec2
  frame : Vec2
  timeToNextFrame : ℚ
deriving DecidableEq

/-- The `struct Block`. -/
structure Block where
  pos : Vec2
  health : Int
  type : Int
  blockSplitter : List Splitter
  isSplitterActive : Bool
  explosion : Explosion
  isExplosinActive : Bool
deriving DecidableEq

/-- The `struct Ball`. -/
structure Ball where
  pos : Vec2
  vel : Vec2
  maxVel : Vec2
deriving DecidableEq

/-- The `struct Score`. -/
structure Score where
  level : Int
  points : Int
  accumulator : ℚ
deriving DecidableEq

/-- The globals read or written by `GameUpdate` and by the event loop of `main`.  Of `gameOver`,
`nextLevel` and `completedGame` only the `accumulator` is kept. -/
structure Game where
  currentGameState : GameState
  currentMenuState : MenuState
  gameIsStarted : Bool
  menu : Menu
  requestToMovePaddle : Bool
  isLeftMouseBtnClicked : Bool
  paddle : Paddle
  blocks : List Block
  blockMaxColumns : Int
  blockMaxRows : Int
  blockOffsetX : Int
  blockOffsetY : Int
  numberOfActiveBLocks : Int
  ball : Ball
  score : Score
  timeSinceABlockWasHited : ℚ
  gameOverAccumulator : ℚ
  nextLevelAccumulator : ℚ
  completedGameAccumulator : ℚ
  clickingCoolDownTimer : ℚ
deriving DecidableEq

/-- The global `numberOfBlocks`: the length of the `blocks` array. -/
def Game.numberOfBlocks (g : Game) : Int := g.blocks.length

/-- What one call of `GameUpdate` takes from outside its argument and the globals: the pointer
position returned by `SDL_GetMouseState`, the successive results of `rand()`, and the block an
out-of-bounds read `blocks[numberOfBlocks - 1]` yields when the array is empty. -/
structure Input where
  mouseX : Int
  mouseY : Int
  rand : Nat → Nat
  strayBlock : Block

/-! ## The box resolver `CollisionDetection` (lines 132-249) -/

/-- The constant `FLT_MAX` of `<cfloat>`: the largest finite binary32 value. -/
def FLT_MAX : ℚ := (2 - 1 / 2 ^ 23) * 2 ^ 127

/-- The constant `FLT_MIN` of `<cfloat>`: the smallest positive normal binary32 value (it is not
the most negative value). -/
def FLT_MIN : ℚ := 1 / 2 ^ 126

/-- The method `Vec2::DotProduct` of `Vector.h`. -/
def Vec2.DotProduct (a v : Vec2) : ℚ := a.x * v.x + a.y * v.y

/-- The struct `AxisBox`. -/
structure AxisBox where
  pos : Vec2
  size : Vec2
deriving DecidableEq

/-- The struct `CollisionResult`. -/
structure CollisionResult where
  intersects : Bool
  normal : Vec2
  length : ℚ
deriving DecidableEq

/-- The macro `MIN(X, Y)`, `(X < Y) ? X : Y`. -/
def MIN (x y : ℚ) : ℚ := if x < y then x else y

/-- The macro `MAX(X, Y)`, `(X > Y) ? X : Y`. -/
def MAX (x y : ℚ) : ℚ := if x > y then x else y

/-- The condition `ABS(X) < ABS(Y)` of lines 217, 226 and 235.  The macro
`ABS(X)` is `X > 0 ? X : X *= -1` without parentheses, so the condition expands to
`X > 0 ? X : X *= -1 < Y > 0 ? Y : Y *= -1`, which C++ reads as
`(X > 0) ? X : (X *= (((-1 < Y) > 0) ? Y : (Y *= -1)))`; its value as a condition is
"the resulting X is not zero".  Returns that truth value with the values of `X` and `Y` after
the evaluation, which assigns to both. -/
def ABS_lt_ABS (x y : ℚ) : Bool × ℚ × ℚ :=
  if x > 0 then (decide (x ≠ 0), x, y)
  else
    let y1 : ℚ := if -1 < y then y else y * -1
    let x1 : ℚ := x * y1
    (decide (x1 ≠ 0), x1, y1)

/-- The running extremes of the projections of one box, `aMinX` .. `aMaxY`. -/
structure Extent where
  minX : ℚ
  maxX : ℚ
  minY : ℚ
  maxY : ℚ
deriving DecidableEq

/-- Lines 183-197: one pass of the loop body for one box and its corner point `p`. -/
def project (xAxis yAxis : Vec2) (e : Extent) (p : Vec2) : Extent :=
  let x : ℚ := p.DotProduct xAxis
  let y : ℚ := p.DotProduct yAxis
  { minX := MIN x e.minX, maxX := MAX x e.maxX, minY := MIN y e.minY, maxY := MAX y e.maxY }

/-- Lines 156-249, `CollisionDetection`.  The local `result` is declared without an
initialiser; its indeterminate start value is the argument `result`, of which `normal` and
`length` survive when the boxes are reported apart.  The points of `boxBPoints` are written
with `boxA`, as in the source, and the corner points use half the size.  The loop updates the
extremes of the two point arrays independently of each other. -/
def CollisionDetection (result : CollisionResult) (boxA boxB : AxisBox) : CollisionResult :=
  let xAxis : Vec2 := ⟨1, 0⟩
  let yAxis : Vec2 := ⟨0, 1⟩
  let boxAPoints : List Vec2 :=
    [boxA.pos,
     ⟨boxA.pos.x + boxA.size.x / 2, boxA.pos.y⟩,
     ⟨boxA.pos.x + boxA.size.x / 2, boxA.pos.y + boxA.size.y / 2⟩,
     ⟨boxA.pos.x, boxA.pos.y + boxA.size.y / 2⟩]
  let boxBPoints : List Vec2 :=
    [boxA.pos,
     ⟨boxA.pos.x + boxA.size.x / 2, boxA.pos.y⟩,
     ⟨boxA.pos.x + boxA.size.x / 2, boxA.pos.y + boxA.size.y / 2⟩,
     ⟨boxA.pos.x, boxA.pos.y + boxA.size.y / 2⟩]
  let a : Extent := boxAPoints.foldl (project xAxis yAxis) ⟨FLT_MAX, FLT_MIN, FLT_MAX, FLT_MIN⟩
  let b : Extent := boxBPoints.foldl (project xAxis yAxis) ⟨FLT_MAX, FLT_MIN, FLT_MAX, FLT_MIN⟩
  if a.maxX < b.minX ∨ a.minX > b.maxX ∨ a.maxY < b.minY ∨ a.minY > b.maxY then
    { result with intersects := false }
  else
    let x0 : ℚ := b.maxX - a.minX
    let x1 : ℚ := b.minX - a.maxX
    let y0 : ℚ := b.maxY - a.minY
    let y1 : ℚ := b.minY - a.maxY
    let cx := ABS_lt_ABS x0 x1
    let minXPen : ℚ := if cx.1 then cx.2.1 else cx.2.2
    let cy := ABS_lt_ABS y0 y1
    let minYPen : ℚ := if cy.1 then cy.2.1 else cy.2.2
    let c := ABS_lt_ABS minXPen minYPen
    if c.1 then { intersects := true, normal := xAxis, length := c.2.1 }
    else { intersects := true, normal := yAxis, length := c.2.2 }

/-! ## `UpdateMenuBackground` -/

/-- The function `UpdateMenuBackground(delta)`: the scrolling menu background. -/
def UpdateMenuBackground (delta : ℚ) (g : Game) : Game :=
  let t := g.menu.background.timeToNextFrame - delta
  let f := g.menu.background.frame
  if t ≤ 0 then
    let f' : Vec2 :=
      if f.y * MENU_BACKGROUND_PIXELS_PER_FRAME > (MENU_BACKGROUND_HEIGHT - WINDOW_HEIGHT) ∧ f.x ≠ 0 then
        { f with x := f.x - 1 }
      else if f.x * MENU_BACKGROUND_PIXELS_PER_FRAME > (MENU_BACKGROUND_WIDTH - WINDOW_WIDTH) then
        { f with y := f.y + 1 }
      else if f.y = 0 then
        { f with x := f.x + 1 }
      else if f.x = 0 then
        { f with y := f.y - 1 }
      else f
    { g with menu := { g.menu with
        background := { frame := f', timeToNextFrame := MENU_BACKGROUND_TIME_BETWEEN_FRAMES } } }
  else
    { g with menu := { g.menu with background := { g.menu.background with timeToNextFrame := t } } }

/-! ## The PLAY phase of `GameUpdate` (lines 621-929), section by section -/

/-- Lines 623-631, "paddle: Movement." -/
def paddleMovement (g : Game) : Game :=
  if g.requestToMovePaddle then
    if g.paddle.vel < g.paddle.maxVel then
      { g with paddle := { g.paddle with vel := g.paddle.vel + 7 / 10 } }
    else g
  else
    if g.paddle.vel > 0 then
      { g with paddle := { g.paddle with vel := g.paddle.vel - 9 / 10 } }
    else
      { g with paddle := { g.paddle with vel := 0 } }

/-- Lines 633-647, "Collisiondetection Paddle vs Window." -/
def paddleVsWindow (g : Game) : Game :=
  if g.paddle.pos.x < 0 then
    { g with paddle := { g.paddle with pos := { g.paddle.pos with x := 0 }, vel := 0 } }
  else if g.paddle.pos.x + g.paddle.size.x > WINDOW_WIDTH then
    { g with paddle := { g.paddle with
        pos := { g.paddle.pos with x := WINDOW_WIDTH - g.paddle.size.x }, vel := 0 } }
  else
    { g with paddle := { g.paddle with
        pos := { g.paddle.pos with x := g.paddle.pos.x + g.paddle.vel * g.paddle.dir } } }

/-- Lines 649-659, "Ball: Movement."  `BALL_WIDTH / 2` is the integer division `8 / 2`. -/
def ballMovement (g : Game) : Game :=
  if g.ball.vel.y = 0 ∧ g.ball.vel.x = 0 then
    { g with ball := { g.ball with
        pos := ⟨g.paddle.pos.x + (g.paddle.size.x / 2 - (BALL_WIDTH / 2)), g.paddle.pos.y - BALL_HEIGHT⟩ } }
  else
    { g with ball := { g.ball with pos := g.ball.pos.add g.ball.vel } }

/-- Lines 668-675, the condition commented "Collision: bottom of block." -/
def hitsBottom (ball : Ball) (b : Block) : Prop :=
  (ball.pos.x < b.pos.x + BLOCK_WIDTH ∧ ball.pos.x > b.pos.x) ∧
    (ball.pos.y < b.pos.y + BLOCK_HEIGHT ∧ ball.pos.y > b.pos.y)

/-- Line 677, the condition commented "Collision: Up side of block." -/
def hitsTop (ball : Ball) (b : Block) : Prop :=
  (ball.pos.y + BALL_HEIGHT > b.pos.y ∧ ball.pos.y < b.pos.y + BLOCK_HEIGHT) ∧
    (ball.pos.x < b.pos.x + BLOCK_WIDTH ∧ ball.pos.x > b.pos.x)

/-- Line 685, the condition commented "Collision: Left side of block". -/
def hitsLeft (ball : Ball) (b : Block) : Prop :=
  (ball.pos.x + BALL_WIDTH > b.pos.x ∧ ball.pos.x < b.pos.x + BLOCK_WIDTH) ∧
    (ball.pos.y > b.pos.y ∧ ball.pos.y < b.pos.y + BLOCK_HEIGHT)

/-- Line 693, the condition commented "Collision: Right side of block". -/
def hitsRight (ball : Ball) (b : Block) : Prop :=
  (ball.pos.x < b.pos.x + BLOCK_WIDTH ∧ ball.pos.x > b.pos.x) ∧
    (ball.pos.y > b.pos.y ∧ ball.pos.y < b.pos.y + BLOCK_HEIGHT)

instance (ball : Ball) (b : Block) : Decidable (hitsBottom ball b) := by
  unfold hitsBottom; infer_instance

instance (ball : Ball) (b : Block) : Decidable (hitsTop ball b) := by
  unfold hitsTop; infer_instance

instance (ball : Ball) (b : Block) : Decidable (hitsLeft ball b) := by
  unfold hitsLeft; infer_instance

instance (ball : Ball) (b : Block) : Decidable (hitsRight ball b) := by
  unfold hitsRight; infer_instance

/-- Lines 664-699: the four-way face test of one loop iteration.  Returns the ball after the
snap of the first matching face and the local flag `intersect`. -/
def faceTest (ball : Ball) (b : Block) : Ball × Bool :=
  if hitsBottom ball b then
    ({ ball with pos := { ball.pos with y := b.pos.y + BLOCK_HEIGHT },
                 vel := { ball.vel with y := ball.maxVel.y } }, true)
  else if hitsTop ball b then
    ({ ball with pos := { ball.pos with y := b.pos.y - BALL_HEIGHT },
                 vel := { ball.vel with y := -ball.maxVel.y } }, true)
  else if hitsLeft ball b then
    ({ ball with pos := { ball.pos with x := b.pos.x - BALL_WIDTH },
                 vel := { ball.vel with x := -ball.maxVel.x } }, true)
  else if hitsRight ball b then
    ({ ball with pos := { ball.pos with x := b.pos.x + BLOCK_WIDTH },
                 vel := { ball.vel with x := ball.maxVel.x } }, true)
  else (ball, false)

/-- Line 704, `b->health == 1 ? b->health = 0 : b->health = 1`. -/
def toggleHealth (h : Int) : Int := if h = 1 then 0 else 1

/-- Lines 706-737: the block's health has just become 0.  `PADDLE_FRAME_SIZE / 2` is the
integer division `16 / 2`. -/
def blockDestroyed (g : Game) : Game :=
  let g1 : Game :=
    if g.paddle.size.x ≤ g.paddle.maxWidth then
      { g with paddle := { g.paddle with
          size := { g.paddle.size with x := g.paddle.size.x + PADDLE_FRAME_SIZE },
          pos := { g.paddle.pos with x := g.paddle.pos.x - PADDLE_FRAME_SIZE / 2 } } }
    else g
  let g2 : Game := { g1 with score := { g1.score with points := g1.score.points + 1 } }
  let g3 : Game := { g2 with numberOfActiveBLocks := g2.numberOfActiveBLocks - 1 }
  let g4 : Game :=
    if g3.numberOfActiveBLocks = 0 then
      { g3 with currentGameState :=
          if g3.score.level = 3 then GAMESTATE_COMPLETED_GAME else GAMESTATE_NEXT_LEVEL }
    else g3
  if g4.score.level = 3 then { g4 with timeSinceABlockWasHited := 0 } else g4

/-- Lines 745-749: a block of `type == 0` gives the ball extra energy,
`ball.vel.x > 0 ? ball.vel.x *= 2 : ball.vel.y *= 2`. -/
def extraEnergy (ball : Ball) (b : Block) : Ball :=
  if b.type = 0 then
    if ball.vel.x > 0 then { ball with vel := { ball.vel with x := ball.vel.x * 2 } }
    else { ball with vel := { ball.vel with y := ball.vel.y * 2 } }
  else ball

/-- Lines 701-752, "Eval result" when `intersect` is true: the globals and the block `*b` after
the hit.  The ball of `g` is the ball after the face snap. -/
def evalResult (g : Game) (b : Block) : Game × Block :=
  let b1 : Block := { b with health := toggleHealth b.health }
  let r : Game × Block :=
    if b1.health = 0 then
      (blockDestroyed g, { b1 with isExplosinActive := true })
    else if b1.health = 1 ∧ ¬ b1.isSplitterActive then
      (g, { b1 with isSplitterActive := true })
    else (g, b1)
  ({ r.1 with ball := extraEnergy r.1.ball r.2 }, r.2)

/-- Lines 662-754: the loop "Collisiondetection: Ball vs Blocks" over the blocks not yet
visited; it stops (`break`) at the first block that is hit.  Returns the globals and the
visited part of the array. -/
def ballVsBlocksLoop (g : Game) : List Block → Game × List Block
  | [] => (g, [])
  | b :: rest =>
    if b.health ≠ 0 then
      let t := faceTest g.ball b
      if t.2 then
        let r := evalResult { g with ball := t.1 } b
        (r.1, r.2 :: rest)
      else
        let r := ballVsBlocksLoop g rest
        (r.1, b :: r.2)
    else
      let r := ballVsBlocksLoop g rest
      (r.1, b :: r.2)

/-- Lines 661-754, "Collisiondetection: Ball vs Blocks". -/
def ballVsBlocks (g : Game) : Game :=
  let r := ballVsBlocksLoop g g.blocks
  { r.1 with blocks := r.2 }

/-- Lines 756-774, "Collisiondetection: Ball vs paddle".  `BALL_WIDTH / 2` is `8 / 2`.
Arithmetic is exact here, as everywhere in the embedding of `GameUpdate`; where the rounding of
`w / paddle.size.x - 0.5f` moves the value across `0.1f` or `-0.1f`, the compiled code takes
another arm of the dead-zone test than this definition: `ballVsPaddle32` below is the step as
the compiled code performs it. -/
def ballVsPaddle (g : Game) : Game :=
  if g.ball.pos.y + BALL_HEIGHT > g.paddle.pos.y ∧ g.paddle.pos.x < g.ball.pos.x + BALL_WIDTH ∧
      g.paddle.pos.x + g.paddle.size.x > g.ball.pos.x then
    let w : ℚ := g.paddle.pos.x + g.paddle.size.x - (g.ball.pos.x + (BALL_WIDTH / 2))
    let a0 : ℚ := w / g.paddle.size.x - 1 / 2
    let a : ℚ :=
      if a0 < 1 / 10 ∧ a0 > -(1 / 10) then 0
      else if a0 > 1 / 10 then a0 - 1 else a0 + 1
    { g with paddle := { g.paddle with angle := a },
             ball := { g.ball with vel := ⟨g.ball.maxVel.x * a, -g.ball.maxVel.y⟩ } }
  else g

/-! ### The ball-vs-paddle step in binary32

The type `float` of the source is IEEE 754 binary32: every operation yields the binary32 value
nearest to its exact result, a tie going to the value whose last significand bit is 0.  Results
beyond `FLT_MAX`, which the hardware turns into infinities, are left as finite values here. -/

/-- The power `2 ^ e` as a rational. -/
def pow2 (e : Int) : ℚ := if 0 ≤ e then 2 ^ e.toNat else 1 / 2 ^ (-e).toNat

/-- The position of the leading binary digit of `n`, counted by halving: `k` with
`2 ^ k ≤ n < 2 ^ (k + 1)` when `1 ≤ n ≤ fuel`. -/
def leadingBit : Nat → Nat → Nat
  | 0, _ => 0
  | fuel + 1, n => if n < 2 then 0 else leadingBit fuel (n / 2) + 1

/-- The position of the leading binary digit of a rational `x ≠ 0`: the `e` with
`2 ^ e ≤ |x| < 2 ^ (e + 1)`. -/
def binaryExponent (x : ℚ) : Int :=
  if x.den ≤ x.num.natAbs then
    (leadingBit (x.num.natAbs / x.den) (x.num.natAbs / x.den) : Int)
  else if x.den ≤ x.num.natAbs *
      2 ^ leadingBit (x.den / x.num.natAbs) (x.den / x.num.natAbs) then
    -(leadingBit (x.den / x.num.natAbs) (x.den / x.num.natAbs) : Int)
  else -(leadingBit (x.den / x.num.natAbs) (x.den / x.num.natAbs) : Int) - 1

/-- Rounding to the nearest integer, a tie going to the even neighbour. -/
def roundHalfEven (x : ℚ) : Int :=
  if x - ⌊x⌋ < 1 / 2 then ⌊x⌋
  else if x - ⌊x⌋ > 1 / 2 then ⌊x⌋ + 1
  else if ⌊x⌋ % 2 = 0 then ⌊x⌋ else ⌊x⌋ + 1

/-- The binary32 value nearest to `x`: 24 significant bits above the exponent -126, multiples of
`2 ^ -149` below. -/
def round32 (x : ℚ) : ℚ :=
  if x = 0 then 0
  else (roundHalfEven (x / pow2 (max (binaryExponent x) (-126) - 23)) : ℚ) *
    pow2 (max (binaryExponent x) (-126) - 23)

/-- Lines 756-767 as the compiled code performs them: every arithmetic operation on `float`s
gives the binary32 value nearest to its exact result, `0.1f` is the binary32 value nearest to
1/10, and `paddle.angle -= 1.0` (a subtraction in `double`, exact for a `float` operand of
this size, stored back into a `float`) rounds once.  `ballVsPaddle` is the same step in exact
arithmetic. -/
def ballVsPaddle32 (g : Game) : Game :=
  if round32 (g.ball.pos.y + BALL_HEIGHT) > g.paddle.pos.y ∧
      g.paddle.pos.x < round32 (g.ball.pos.x + BALL_WIDTH) ∧
      round32 (g.paddle.pos.x + g.paddle.size.x) > g.ball.pos.x then
    let w : ℚ := round32 (round32 (g.paddle.pos.x + g.paddle.size.x) -
      round32 (g.ball.pos.x + (BALL_WIDTH / 2)))
    let a0 : ℚ := round32 (round32 (w / g.paddle.size.x) - 1 / 2)
    let a : ℚ :=
      if a0 < round32 (1 / 10) ∧ a0 > -round32 (1 / 10) then 0
      else if a0 > round32 (1 / 10) then round32 (a0 - 1) else round32 (a0 + 1)
    { g with paddle := { g.paddle with angle := a },
             ball := { g.ball with vel := ⟨round32 (g.ball.maxVel.x * a), -g.ball.maxVel.y⟩ } }
  else g

/-- Lines 776-799, "Collisiondetection: Ball vs window sides". -/
def ballVsWindow (g : Game) : Game :=
  if g.ball.pos.y + BALL_HEIGHT > WINDOW_HEIGHT then
    { g with currentGameState := GAMESTATE_GAME_OVER }
  else if g.ball.pos.y < 0 then
    { g with ball := { g.ball with vel := { g.ball.vel with y := g.ball.maxVel.y },
                                   pos := { g.ball.pos with y := 0 } } }
  else if g.ball.pos.x + BALL_WIDTH > WINDOW_WIDTH then
    { g with ball := { g.ball with vel := { g.ball.vel with x := -g.ball.maxVel.x * g.paddle.angle },
                                   pos := { g.ball.pos with x := WINDOW_WIDTH - BALL_WIDTH } } }
  else if g.ball.pos.x < 0 then
    { g with ball := { g.ball with vel := { g.ball.vel with x := g.ball.maxVel.x * -g.paddle.angle },
                                   pos := { g.ball.pos with x := 0 } } }
  else g

/-- Lines 809-820: one particle of a block's debris.  It is moved only while it is inside the
window. -/
def updateSplitter (delta : ℚ) (s : Splitter) : Splitter :=
  if (s.pos.x + s.size.x) < WINDOW_WIDTH ∧ s.pos.x > 0 ∧
      (s.pos.y + s.size.y) < WINDOW_HEIGHT ∧ s.pos.y > 0 then
    let deltaVel : ℚ := delta * GRAVITY / 1000
    { s with
      pos := ⟨s.pos.x + (s.vel.x + (deltaVel / 2) * delta * s.acc.x),
              s.pos.y + (s.vel.y + (deltaVel / 2) * delta * s.acc.y)⟩,
      vel := { s.vel with y := s.vel.y + deltaVel } }
  else s

/-- Lines 827-835: one step of an active explosion animation; returns the explosion and the
block's `isExplosinActive` flag. -/
def updateExplosion (delta : ℚ) (e : Explosion) : Explosion × Bool :=
  let t := e.timeToNextFrame - delta
  if t ≤ 0 then
    let f : Vec2 :=
      if e.frame.x = EXPLOSION_MAX_FRAME_X then ⟨0, e.frame.y + 1⟩ else ⟨e.frame.x + 1, e.frame.y⟩
    ({ e with timeToNextFrame := EXPLOSION_TIME_BETWEEN_FRAMES, frame := f },
      if f.y = EXPLOSION_MAX_FRAME_Y then false else true)
  else ({ e with timeToNextFrame := t }, true)

/-- Lines 804-836: the body of the loop "Things attached to a Block (Splitter, Explosion)" for
one block.  The inner loop visits the `MAX_NUMBER_OF_SPLITTER` entries of `blockSplitter`. -/
def updateAttached (delta : ℚ) (b : Block) : Block :=
  let b1 : Block :=
    if b.isSplitterActive then
      { b with blockSplitter := b.blockSplitter.map (updateSplitter delta) }
    else b
  if b1.isExplosinActive then
    let r := updateExplosion delta b1.explosion
    { b1 with explosion := r.1, isExplosinActive := r.2 }
  else b1

/-- Lines 801-837, "Things attached to a Block (Splitter, Explosion)." -/
def blockAttachments (delta : ℚ) (g : Game) : Game :=
  { g with blocks := g.blocks.map (updateAttached delta) }

/-- Lines 881-897 (level 2) and 903-919 (level 3): "Lower blocks".  The block read as
`blocks[numberOfBlocks - 1]` is the last one; on an empty array the read is out of bounds and
yields `stray`. -/
def lowerBlocks (delta : ℚ) (stray : Block) (g : Game) : Game :=
  let acc := g.score.accumulator + delta
  if acc > TIME_BETWEEN_LOWERING_BLOCKS then
    let g1 : Game := { g with score := { g.score with accumulator := 0 } }
    if (g1.blocks.getLastD stray).pos.y > g1.paddle.pos.y - (g1.paddle.size.y * 6) then
      { g1 with currentGameState := GAMESTATE_GAME_OVER }
    else
      { g1 with blocks := g1.blocks.map (fun b => { b with pos := { b.pos with y := b.pos.y + 10 } }) }
  else
    { g with score := { g.score with accumulator := acc } }

/-- Lines 870-927, the rules "Level: 1", "Level: 2", "Level: 3". -/
def levelRules (delta : ℚ) (stray : Block) (g : Game) : Game :=
  if g.score.level = 1 then g
  else if g.score.level = 2 then lowerBlocks delta stray g
  else if g.score.level = 3 then
    let g1 := lowerBlocks delta stray g
    let g2 : Game := { g1 with timeSinceABlockWasHited := g1.timeSinceABlockWasHited + delta }
    if g2.timeSinceABlockWasHited > (TIME_BETWEEN_LOWERING_BLOCKS * 2) then
      { g2 with score := { g2.score with accumulator := g2.score.accumulator + delta } }
    else g2
  else g

/-- Lines 621-929: the body of `if (currentGameState == GAMESTATE_PLAY)`. -/
def playPhase (delta : ℚ) (inp : Input) (g : Game) : Game :=
  levelRules delta inp.strayBlock
    (blockAttachments delta
      (ballVsWindow (ballVsPaddle (ballVsBlocks (ballMovement (paddleVsWindow (paddleMovement g)))))))

/-! ## The other phases of `GameUpdate` -/

/-- Lines 933-943: the body of `if (currentGameState == GAMESTATE_NEXT_LEVEL)`. -/
def nextLevelPhase (delta : ℚ) (g : Game) : Game :=
  let g1 : Game := { g with nextLevelAccumulator := g.nextLevelAccumulator + delta }
  if g1.nextLevelAccumulator > TIME_TO_SHOW_NEXT_LEVEL then
    { g1 with score := { g1.score with level := g1.score.level + 1 },
              currentGameState := GAMESTATE_NONE,
              currentMenuState := MENUSTATE_NEW_GAME }
  else g1

/-- Lines 952-963 and 974-985: back to the root menu after GAME_OVER or COMPLETED_GAME. -/
def backToMenu (g : Game) : Game :=
  let exitPos : Vec2 :=
    ⟨WINDOW_WIDTH / 2 - g.menu.exitGame.size.x / 2,
     g.menu.newGame.pos.y + g.menu.newGame.size.y + MENU_OFFSET_Y⟩
  let instructionPos : Vec2 :=
    ⟨WINDOW_WIDTH / 2 - g.menu.instruction.size.x / 2,
     exitPos.y + g.menu.exitGame.size.y + MENU_OFFSET_Y * 2⟩
  { g with score := { g.score with level := 1 },
           currentGameState := GAMESTATE_MENU,
           currentMenuState := MENUSTATE_NONE,
           menu := { g.menu with exitGame := { g.menu.exitGame with pos := exitPos },
                                 instruction := { g.menu.instruction with pos := instructionPos } },
           gameIsStarted := false }

/-- Lines 947-965: the body of `if (currentGameState == GAMESTATE_GAME_OVER)`. -/
def gameOverPhase (delta : ℚ) (g : Game) : Game :=
  let g1 : Game := { g with gameOverAccumulator := g.gameOverAccumulator + delta }
  if g1.gameOverAccumulator > TIME_TO_SHOW_GAME_OVER then backToMenu g1 else g1

/-- Lines 969-987: the body of `if (currentGameState == GAMESTATE_COMPLETED_GAME)`. -/
def completedGamePhase (delta : ℚ) (g : Game) : Game :=
  let g1 : Game := { g with completedGameAccumulator := g.completedGameAccumulator + delta }
  if g1.completedGameAccumulator > TIME_TO_SHOW_COMPLETED_GAME then backToMenu g1 else g1

/-- The pointer test `x > it.pos.x && x < it.pos.x + it.size.x && (y > it.pos.y && y < it.pos.y +
it.size.y)` of the menu hit-rectangles; `x` and `y` are the `int`s of `SDL_GetMouseState`. -/
def pointerInside (x y : Int) (it : Items) : Prop :=
  ((x : ℚ) > it.pos.x ∧ (x : ℚ) < it.pos.x + it.size.x) ∧
    ((y : ℚ) > it.pos.y ∧ (y : ℚ) < it.pos.y + it.size.y)

instance (x y : Int) (it : Items) : Decidable (pointerInside x y it) := by
  unfold pointerInside; infer_instance

/-- Lines 991-1067: the root menu, `currentGameState == GAMESTATE_MENU && currentMenuState ==
MENUSTATE_NONE`. -/
def menuRootPhase (delta : ℚ) (inp : Input) (g : Game) : Game :=
  let g0 := UpdateMenuBackground delta g
  if g0.clickingCoolDownTimer < 0 then
    let g1 : Game := { g0 with clickingCoolDownTimer := 0 }
    if pointerInside inp.mouseX inp.mouseY g1.menu.newGame then
      if g1.isLeftMouseBtnClicked then { g1 with currentMenuState := MENUSTATE_NEW_GAME }
      else { g1 with menu := { g1.menu with newGame := { g1.menu.newGame with isHoovering := true } } }
    else if pointerInside inp.mouseX inp.mouseY g1.menu.continueGame then
      if g1.isLeftMouseBtnClicked then { g1 with currentMenuState := MENUSTATE_CONTINUE }
      else { g1 with menu := { g1.menu with
               continueGame := { g1.menu.continueGame with isHoovering := true } } }
    else if pointerInside inp.mouseX inp.mouseY g1.menu.exitGame then
      if g1.isLeftMouseBtnClicked then { g1 with currentMenuState := MENUSTATE_EXIT }
      else { g1 with menu := { g1.menu with exitGame := { g1.menu.exitGame with isHoovering := true } } }
    else if pointerInside inp.mouseX inp.mouseY g1.menu.instruction then
      if g1.isLeftMouseBtnClicked then { g1 with currentMenuState := MENUSTATE_INSTRUCTION }
      else { g1 with menu := { g1.menu with
               instruction := { g1.menu.instruction with isHoovering := true } } }
    else
      { g1 with menu := { g1.menu with
          newGame := { g1.menu.newGame with isHoovering := false },
          continueGame := { g1.menu.continueGame with isHoovering := false },
          exitGame := { g1.menu.exitGame with isHoovering := false },
          instruction := { g1.menu.instruction with isHoovering := false } } }
  else
    { g0 with clickingCoolDownTimer := g0.clickingCoolDownTimer - delta }

/-! ## New game (lines 1072-1177) -/

/-- The function `InRange(min, max)` for the `rand()` result `r`. -/
def InRange (min max : ℚ) (r : Nat) : ℚ :=
  min + (max - min) * (((r % 10001 : Nat) : ℚ) / 10000)

/-- The table `blockSplitterColor`, as filled in by `main`. -/
def blockSplitterColor (type : Int) : Color :=
  if type = 0 then ⟨135, 255, 255, 255⟩
  else if type = 1 then ⟨135, 63, 255, 255⟩
  else if type = 2 then ⟨255, 201, 165, 25⟩
  else ⟨255, 30, 81, 255⟩

/-- Lines 1131-1135: one debris particle of a fresh block.  `k` is the number of `rand()`
calls made before; the four `InRange` calls are taken in the order they are written. -/
def newSplitter (rand : Nat → Nat) (k : Nat) (type : Int) (pos : Vec2) : Splitter :=
  { color := blockSplitterColor type,
    size := ⟨2, 2⟩,
    pos := pos,
    vel := ⟨InRange (-(1 / 10)) (3 / 10) (rand k), InRange (-6) (-4) (rand (k + 1))⟩,
    acc := ⟨InRange (-(8 / 10)) (8 / 10) (rand (k + 2)), InRange (-(8 / 10)) (8 / 10) (rand (k + 3))⟩ }

/-- Lines 1114-1144: block number `i` of a new game, placed at grid cell `(x, y)`.  Each block
consumes `1 + 4 * MAX_NUMBER_OF_SPLITTER` results of `rand()`. -/
def newBlock (rand : Nat → Nat) (i : Nat) (x y : Int) : Block :=
  let k := i * (1 + 4 * MAX_NUMBER_OF_SPLITTER)
  let type : Int := ((rand k % 4 : Nat) : Int)
  let pos : Vec2 := ⟨(x : ℚ) * BLOCK_WIDTH, (y : ℚ) * BLOCK_HEIGHT⟩
  { type := type,
    health := 2,
    pos := pos,
    isSplitterActive := false,
    blockSplitter := (List.range MAX_NUMBER_OF_SPLITTER).map
      (fun j => newSplitter rand (k + 1 + 4 * j) type pos),
    isExplosinActive := false,
    explosion :=
      { frame := ⟨0, 0⟩,
        timeToNextFrame := EXPLOSION_TIME_BETWEEN_FRAMES,
        pos := ⟨pos.x - (EXPLOSION_WIDTH / 2) + (BLOCK_WIDTH / 2),
                pos.y - (EXPLOSION_HEIGHT / 2) + (BLOCK_HEIGHT / 2)⟩ } }

/-- Lines 1110-1145: the loop that fills the array; `n` blocks remain, `i` is the loop index,
`x` and `y` the running grid cell. -/
def newBlocks (rand : Nat → Nat) (blockMaxColumns blockOffsetX : Int) :
    Nat → Nat → Int → Int → List Block
  | 0, _, _, _ => []
  | n + 1, i, x, y =>
    let y1 := if x = blockMaxColumns then y + 1 else y
    let x1 := if x = blockMaxColumns then blockOffsetX else x
    newBlock rand i x1 y1 :: newBlocks rand blockMaxColumns blockOffsetX n (i + 1) (x1 + 1) y1

/-- Lines 1105-1106: the value given to `numberOfBlocks` by a new game.  `%` is the truncating
remainder of C++. -/
def newNumberOfBlocks (g : Game) : Int :=
  let length : Int := g.blockMaxColumns * g.blockMaxRows - g.blockOffsetX
  length - (Int.tmod length g.blockMaxRows)

/-- Lines 1072-1177: the body of `else if (currentMenuState == MENUSTATE_NEW_GAME)`,
"Initialize a new game".  A negative `numberOfBlocks` gives no block. -/
def newGame (inp : Input) (g : Game) : Game :=
  let numberOfBlocks : Int := newNumberOfBlocks g
  let continuePos : Vec2 :=
    ⟨WINDOW_WIDTH / 2 - g.menu.continueGame.size.x / 2,
     g.menu.newGame.pos.y + g.menu.newGame.size.y + MENU_OFFSET_Y⟩
  let exitPos : Vec2 :=
    ⟨WINDOW_WIDTH / 2 - g.menu.exitGame.size.x / 2,
     continuePos.y + g.menu.continueGame.size.y + MENU_OFFSET_Y⟩
  let instructionPos : Vec2 :=
    ⟨WINDOW_WIDTH / 2 - g.menu.instruction.size.x / 2,
     exitPos.y + g.menu.exitGame.size.y + MENU_OFFSET_Y * 2⟩
  { g with
    score := { g.score with accumulator := 0, points := 0 },
    gameOverAccumulator := 0,
    completedGameAccumulator := 0,
    paddle := { g.paddle with
      pos := ⟨(WINDOW_WIDTH / 2) - (g.paddle.size.x / 2), WINDOW_HEIGHT - PADDLE_FRAME_SIZE⟩,
      size := ⟨PADDLE_START_WIDTH, PADDLE_START_HEIGHT⟩,
      vel := 0,
      dir := 0,
      angle := 0 },
    ball := { g.ball with vel := ⟨0, 0⟩ },
    timeSinceABlockWasHited := 0,
    nextLevelAccumulator := 0,
    blocks := newBlocks inp.rand g.blockMaxColumns g.blockOffsetX numberOfBlocks.toNat 0
      g.blockOffsetX g.blockOffsetY,
    numberOfActiveBLocks := numberOfBlocks,
    currentGameState := GAMESTATE_PLAY,
    currentMenuState := MENUSTATE_NONE,
    gameIsStarted := true,
    menu := { g.menu with
      continueGame := { g.menu.continueGame with pos := continuePos },
      exitGame := { g.menu.exitGame with pos := exitPos },
      instruction := { g.menu.instruction with pos := instructionPos } } }

/-- Lines 1188-1218: the instructions screen, `currentMenuState == MENUSTATE_INSTRUCTIONS`. -/
def instructionsPhase (delta : ℚ) (inp : Input) (g : Game) : Game :=
  let g0 := UpdateMenuBackground delta g
  if pointerInside inp.mouseX inp.mouseY g0.menu.instructions4 then
    if g0.isLeftMouseBtnClicked then
      { g0 with currentMenuState := MENUSTATE_NONE, clickingCoolDownTimer := COOLDOWNTIME }
    else
      { g0 with menu := { g0.menu with
          instructions4 := { g0.menu.instructions4 with isHoovering := true } } }
  else
    { g0 with menu := { g0.menu with
        instructions0 := { g0.menu.instructions0 with isHoovering := false },
        instructions1 := { g0.menu.instructions1 with isHoovering := false },
        instructions2 := { g0.menu.instructions2 with isHoovering := false },
        instructions3 := { g0.menu.instructions3 with isHoovering := false },
        instructions4 := { g0.menu.instructions4 with isHoovering := false } } }

/-- Lines 969-1226: `if (currentGameState == GAMESTATE_COMPLETED_GAME)` and the `else if` chain
that hangs on it. -/
def menuChain (delta : ℚ) (inp : Input) (g : Game) : Game :=
  if g.currentGameState = GAMESTATE_COMPLETED_GAME then completedGamePhase delta g
  else if g.currentGameState = GAMESTATE_MENU ∧ g.currentMenuState = MENUSTATE_NONE then
    menuRootPhase delta inp g
  else if g.currentMenuState = MENUSTATE_NEW_GAME then newGame inp g
  else if g.currentMenuState = MENUSTATE_INSTRUCTION then
    { g with currentMenuState := MENUSTATE_INSTRUCTIONS }
  else if g.currentMenuState = MENUSTATE_INSTRUCTIONS then instructionsPhase delta inp g
  else if g.currentMenuState = MENUSTATE_CONTINUE then
    { g with currentGameState := GAMESTATE_PLAY, currentMenuState := MENUSTATE_NONE }
  else g

/-! ## `GameUpdate` -/

/-- The function `void GameUpdate(float delta)`: four consecutive `if` statements, the last one carrying
the `else if` chain of the menu states. -/
def GameUpdate (delta : ℚ) (inp : Input) (g : Game) : Game :=
  let g1 := if g.currentGameState = GAMESTATE_PLAY then playPhase delta inp g else g
  let g2 := if g1.currentGameState = GAMESTATE_NEXT_LEVEL then nextLevelPhase delta g1 else g1
  let g3 := if g2.currentGameState = GAMESTATE_GAME_OVER then gameOverPhase delta g2 else g2
  menuChain delta inp g3

/-! ## The event loop of `main` -/

/-- The SDL events `main` reacts to; `mouseButtonDown` carries `event.button.clicks`. -/
inductive Event where
  | keyDownLeft
  | keyDownRight
  | keyDownUp
  | keyDownEscape
  | keyUpLeft
  | keyUpRight
  | mouseButtonDown (clicks : Nat)
  | mouseButtonUp
  | quit
  | other
deriving DecidableEq

/-- The `switch (event.type)` of the event poll in `main`; `SDL_BUTTON_LEFT` is 1. -/
def handleEvent (g : Game) : Event → Game
  | .keyDownLeft => { g with paddle := { g.paddle with dir := -1 }, requestToMovePaddle := true }
  | .keyDownRight => { g with paddle := { g.paddle with dir := 1 }, requestToMovePaddle := true }
  | .keyDownUp => { g with ball := { g.ball with vel := ⟨0, -g.ball.maxVel.y⟩ } }
  | .keyDownEscape =>
    if g.currentGameState = GAMESTATE_PLAY then
      { g with currentGameState := GAMESTATE_MENU, currentMenuState := MENUSTATE_NONE }
    else g
  | .keyUpLeft => { g with requestToMovePaddle := false }
  | .keyUpRight => { g with requestToMovePaddle := false }
  | .mouseButtonDown clicks => if clicks = 1 then { g with isLeftMouseBtnClicked := true } else g
  | .mouseButtonUp => if g.isLeftMouseBtnClicked then { g with isLeftMouseBtnClicked := false } else g
  | .quit => { g with currentMenuState := MENUSTATE_EXIT }
  | .other => g

/-- The loop `while (SDL_PollEvent(&event)) ...`: the events queued before a tick, oldest first. -/
def pollEvents (g : Game) (events : List Event) : Game := events.foldl handleEvent g

/-- One iteration of `while (accumulator >= TIME_STEP)` in `main`: the event poll followed by
`GameUpdate(TIME_STEP)`. -/
def tick (g : Game) (step : List Event × Input) : Game :=
  GameUpdate TIME_STEP step.2 (pollEvents g step.1)

/-- The game loop over a sequence of ticks. -/
def run (g : Game) (steps : List (List Event × Input)) : Game := steps.foldl tick g

/-! ## The state `main` sets up before the game loop -/

/-- The menu as `main` lays it out, given the pixel sizes of the rendered texts (`title`,
`newGame`, `exitGame`, `instruction` and the five lines `i0` .. `i4` of the instructions
screen).  `continueGame` takes the size of the `newGame` texture and keeps the zero position of
a global until a new game places it. -/
def initialMenu (title newGame exitGame instruction i0 i1 i2 i3 i4 : Vec2) : Menu :=
  let titlePos : Vec2 := ⟨WINDOW_WIDTH / 2 - title.x / 2, MENU_OFFSET_Y⟩
  let newGamePos : Vec2 := ⟨WINDOW_WIDTH / 2 - newGame.x / 2, titlePos.y + title.y + MENU_OFFSET_Y * 2⟩
  let exitPos : Vec2 := ⟨WINDOW_WIDTH / 2 - exitGame.x / 2, newGamePos.y + newGame.y + MENU_OFFSET_Y⟩
  let instructionPos : Vec2 :=
    ⟨WINDOW_WIDTH / 2 - instruction.x / 2, exitPos.y + exitGame.y + MENU_OFFSET_Y * 2⟩
  let p0 : Vec2 := ⟨WINDOW_WIDTH / 2 - i0.x / 2, MENU_OFFSET_Y⟩
  let p1 : Vec2 := ⟨WINDOW_WIDTH / 2 - i1.x / 2, p0.y + i0.y + MENU_OFFSET_Y⟩
  let p2 : Vec2 := ⟨WINDOW_WIDTH / 2 - i2.x / 2, p1.y + i1.y + MENU_OFFSET_Y / 4⟩
  let p3 : Vec2 := ⟨WINDOW_WIDTH / 2 - i3.x / 2, p2.y + i2.y + MENU_OFFSET_Y / 4⟩
  let p4 : Vec2 := ⟨WINDOW_WIDTH / 2 - i4.x / 2, p3.y + i3.y + MENU_OFFSET_Y * 2⟩
  { title := ⟨title, titlePos, false⟩,
    newGame := ⟨newGame, newGamePos, false⟩,
    continueGame := ⟨newGame, ⟨0, 0⟩, false⟩,
    exitGame := ⟨exitGame, exitPos, false⟩,
    instruction := ⟨instruction, instructionPos, false⟩,
    instructions0 := ⟨i0, p0, false⟩,
    instructions1 := ⟨i1, p1, false⟩,
    instructions2 := ⟨i2, p2, false⟩,
    instructions3 := ⟨i3, p3, false⟩,
    instructions4 := ⟨i4, p4, false⟩,
    background := ⟨⟨0, 0⟩, MENU_BACKGROUND_TIME_BETWEEN_FRAMES⟩ }

/-- The globals when the game loop starts: what `main` assigns, and zero for every global it
does not assign.  `blockMaxColumns = WINDOW_WIDTH % BLOCK_WIDTH = 1080 % 32 = 24`. -/
def initialGame (menu : Menu) : Game :=
  { currentGameState := GAMESTATE_MENU,
    currentMenuState := MENUSTATE_NONE,
    gameIsStarted := false,
    menu := menu,
    requestToMovePaddle := false,
    isLeftMouseBtnClicked := false,
    paddle := { pos := ⟨0, 0⟩, size := ⟨0, 0⟩, maxWidth := PADDLE_FRAME_SIZE * 13, vel := 0,
                maxVel := 10, angle := 0, dir := 0 },
    blocks := [],
    blockMaxColumns := 1080 % 32,
    blockMaxRows := 4,
    blockOffsetX := 10,
    blockOffsetY := 3,
    numberOfActiveBLocks := 0,
    ball := { pos := ⟨0, 0⟩, vel := ⟨0, 0⟩, maxVel := ⟨1, 5⟩ },
    score := ⟨1, 0, 0⟩,
    timeSinceABlockWasHited := 0,
    gameOverAccumulator := 0,
    nextLevelAccumulator := 0,
    completedGameAccumulator := 0,
    clickingCoolDownTimer := 0 }

/-! ## Auxiliary definitions used in the statements and proofs -/

/-- The paddle after `newGame`, as a function of the paddle before. -/
def newGamePaddle (p : Paddle) : Paddle :=
  { p with
    pos := ⟨(WINDOW_WIDTH / 2) - (p.size.x / 2), WINDOW_HEIGHT - PADDLE_FRAME_SIZE⟩,
    size := ⟨PADDLE_START_WIDTH, PADDLE_START_HEIGHT⟩,
    vel := 0, dir := 0, angle := 0 }

/-- The state `GameUpdate` hands to its last `if`/`else if` chain. -/
def beforeMenuChain (delta : ℚ) (inp : Input) (g : Game) : Game :=
  let g1 := if g.currentGameState = GAMESTATE_PLAY then playPhase delta inp g else g
  let g2 := if g1.currentGameState = GAMESTATE_NEXT_LEVEL then nextLevelPhase delta g1 else g1
  if g2.currentGameState = GAMESTATE_GAME_OVER then gameOverPhase delta g2 else g2

/-- The paddle after a hit that destroys a block (lines 710-714). -/
def grownPaddle (p : Paddle) : Paddle :=
  { p with size := { p.size with x := p.size.x + PADDLE_FRAME_SIZE },
           pos := { p.pos with x := p.pos.x - PADDLE_FRAME_SIZE / 2 } }

/-! ### Concrete states for the examples -/

/-- A menu entry of 200 by 30 pixels at the origin. -/
def sampleItems : Items := ⟨⟨200, 30⟩, ⟨0, 0⟩, false⟩

/-- A menu laid out with `sampleItems` everywhere. -/
def sampleMenu : Menu :=
  { title := sampleItems, newGame := sampleItems, continueGame := sampleItems,
    exitGame := sampleItems, instruction := sampleItems, instructions0 := sampleItems,
    instructions1 := sampleItems, instructions2 := sampleItems, instructions3 := sampleItems,
    instructions4 := sampleItems, background := ⟨⟨0, 0⟩, MENU_BACKGROUND_TIME_BETWEEN_FRAMES⟩ }

/-- An intact block of type 1 in grid cell `(x, y)`, as `newGame` builds it when `rand()`
returns 1 throughout. -/
def sampleBlock (x y : Int) : Block := newBlock (fun _ => 1) 0 x y

/-- A PLAY-phase state at level 1 with the constants of `main`: the paddle at its start place
holding the ball, and one intact block in grid cell `(10, 3)`. -/
def sampleGame : Game :=
  { currentGameState := GAMESTATE_PLAY,
    currentMenuState := MENUSTATE_NONE,
    gameIsStarted := true,
    menu := sampleMenu,
    requestToMovePaddle := false,
    isLeftMouseBtnClicked := false,
    paddle := { pos := ⟨516, 704⟩, size := ⟨48, 16⟩, maxWidth := 208, vel := 0, maxVel := 10,
                angle := 0, dir := 0 },
    blocks := [sampleBlock 10 3],
    blockMaxColumns := 24,
    blockMaxRows := 4,
    blockOffsetX := 10,
    blockOffsetY := 3,
    numberOfActiveBLocks := 1,
    ball := { pos := ⟨536, 696⟩, vel := ⟨0, 0⟩, maxVel := ⟨1, 5⟩ },
    score := ⟨1, 0, 0⟩,
    timeSinceABlockWasHited := 0,
    gameOverAccumulator := 0,
    nextLevelAccumulator := 0,
    completedGameAccumulator := 0,
    clickingCoolDownTimer := 0 }

/-- A tick input: the pointer at the origin, `rand()` returning 1 throughout. -/
def sampleInput : Input := ⟨0, 0, fun _ => 1, sampleBlock 0 0⟩

/-- The sample state with the paddle resting on the left wall (`pos.x = 0`, `vel = 0`, as the
clamp leaves it) while the left key is held. -/
def paddleAtLeftWall : Game :=
  { sampleGame with requestToMovePaddle := true,
                    paddle := { sampleGame.paddle with pos := ⟨0, 704⟩, vel := 0, dir := -1 } }

/-- How the scan relates a block before and after: untouched, or hit with its health toggled. -/
def scanStep (b b' : Block) : Prop :=
  b' = b ∨ (b.health ≠ 0 ∧ b'.health = toggleHealth b.health ∧ b'.pos = b.pos ∧ b'.type = b.type)

/-- What the rest of the PLAY phase does to a block after the scan: health and type stay, the
position may be lowered. -/
def afterScan (b b' : Block) : Prop :=
  b'.health = b.health ∧ b'.type = b.type ∧ b'.pos.x = b.pos.x

/-- The sample state with the ball in flight just below the block: after the ball movement of
the next tick it is at `(330, 55)`, inside the block rectangle `(320, 48) .. (352, 64)`. -/
def ballBelowBlock : Game :=
  { sampleGame with ball := { sampleGame.ball with pos := ⟨330, 60⟩, vel := ⟨0, -5⟩ } }

/-- Three ticks of the game loop: an idle one, one with a left click while the pointer is at
`(10, 10)` (inside the "Play New Game" entry of `sampleMenu`), and one more. -/
def clickNewGame : List (List Event × Input) :=
  [([], sampleInput),
   ([Event.mouseButtonDown 1], { sampleInput with mouseX := 10, mouseY := 10 }),
   ([], sampleInput)]

/-- The number of blocks whose health is non-zero. -/
def activeBlocks (bs : List Block) : Int :=
  (((bs.map (fun b => b.health)).countP (fun h => h ≠ 0) : Nat) : Int)

/-- Some block has a non-zero health in `before` and health 0, at the same index, in `after`. -/
def reachesZero (before after : List Block) : Prop :=
  ∃ p ∈ List.zip (before.map (fun b => b.health)) (after.map (fun b => b.health)), p.1 ≠ 0 ∧ p.2 = 0

/-- The states reached from a new-game initialisation (with a non-negative block count) by
ticks of the game loop that start, after the event poll, in PLAY. -/
inductive PlayReachable : Game → Prop where
  | newGame (inp : Input) (g : Game) : 0 ≤ newNumberOfBlocks g → PlayReachable (newGame inp g)
  | tick (g : Game) (events : List Event) (inp : Input) :
      PlayReachable g → (pollEvents g events).currentGameState = GAMESTATE_PLAY →
      PlayReachable (tick g (events, inp))

/-- What `GameUpdate` does after the PLAY phase: the NEXT_LEVEL and GAME_OVER blocks and the
last chain. -/
def afterPlay (delta : ℚ) (inp : Input) (p : Game) : Game :=
  menuChain delta inp
    (if (if p.currentGameState = GAMESTATE_NEXT_LEVEL then nextLevelPhase delta p else p).currentGameState
        = GAMESTATE_GAME_OVER then
      gameOverPhase delta (if p.currentGameState = GAMESTATE_NEXT_LEVEL then nextLevelPhase delta p else p)
    else (if p.currentGameState = GAMESTATE_NEXT_LEVEL then nextLevelPhase delta p else p))

/-- The invariant of `PlayReachable`: the counter agrees with the array, and a state in PLAY has
no new game pending and a zero next-level display time. -/
def PlayInv (g : Game) : Prop :=
  g.numberOfActiveBLocks = activeBlocks g.blocks ∧
    (g.currentGameState = GAMESTATE_PLAY →
      (g.currentMenuState = MENUSTATE_NONE ∨ g.currentMenuState = MENUSTATE_EXIT) ∧
        g.nextLevelAccumulator = 0)

/-- The ball-lost test of line 778 as it is evaluated in a PLAY tick that starts in `g`: the ball
after the ball-vs-block step (the paddle step does not move the ball) is below the bottom edge. -/
def ballLost (g : Game) : Prop :=
  (ballVsBlocks (ballMovement (paddleVsWindow (paddleMovement g)))).ball.pos.y + BALL_HEIGHT
    > WINDOW_HEIGHT

instance (g : Game) : Decidable (ballLost g) := by unfold ballLost; infer_instance

/-- The descent rule of levels 2 and 3 triggers GAME_OVER in a tick of length `delta` that starts
in `g`: the lowering interval has elapsed and the last block of the array is below the danger
line `paddle.pos.y - 6 * paddle.size.y`. -/
def descentDanger (delta : ℚ) (inp : Input) (g : Game) : Prop :=
  (g.score.level = 2 ∨ g.score.level = 3) ∧
    g.score.accumulator + delta > TIME_BETWEEN_LOWERING_BLOCKS ∧
    (g.blocks.getLastD inp.strayBlock).pos.y > g.paddle.pos.y - (g.paddle.size.y * 6)

instance (delta : ℚ) (inp : Input) (g : Game) : Decidable (descentDanger delta inp g) := by
  unfold descentDanger; infer_instance

/-- The state the level rules of a PLAY tick start from. -/
def beforeLevelRules (delta : ℚ) (g : Game) : Game :=
  blockAttachments delta (ballVsWindow (ballVsPaddle
    (ballVsBlocks (ballMovement (paddleVsWindow (paddleMovement g))))))

/-- The sample state with its block already damaged (health 1) and the ball just below it: the
next tick destroys the last active block. -/
def lastBlockHit : Game :=
  { ballBelowBlock with
    blocks := [{ sampleBlock 10 3 with health := 1, isSplitterActive := true }] }

/-- A level-2 state late in the descent, built on the 84 blocks of a new game: every block has
been lowered 49 times (490 pixels), the first 83 are destroyed, the last one (grid cell
`(23, 8)`, now at `pos.y = 128 + 490 = 618`, below the danger line `704 - 96 = 608`) is damaged;
the ball is just below it and the lowering interval (2000 ms) runs out in the next tick. -/
def lastBlockLow : Game :=
  { newGame sampleInput (initialGame sampleMenu) with
    score := ⟨2, 83, 2000⟩,
    blocks :=
      ((newGame sampleInput (initialGame sampleMenu)).blocks.take 83).map
          (fun b => { b with pos := { b.pos with y := b.pos.y + 490 }, health := 0,
                             isSplitterActive := true }) ++
        [{ newBlock sampleInput.rand 83 23 8 with pos := ⟨736, 618⟩, health := 1,
                                                   isSplitterActive := true }],
    numberOfActiveBLocks := 1,
    ball := { pos := ⟨746, 630⟩, vel := ⟨0, -5⟩, maxVel := ⟨1, 5⟩ } }


/-- The state `ballBelowBlock` with a block of type 0 (the "energized" type). -/
def energizedBlockBelow : Game :=
  { ballBelowBlock with blocks := [{ sampleBlock 10 3 with type := 0 }] }


/-- A PLAY state in which the paddle has reached `maxWidth` (208 pixels, after ten destroyed
blocks) and the ball is about to destroy a damaged block; a second, intact block remains. -/
def paddleAtMaxWidth : Game :=
  { ballBelowBlock with
    paddle := { ballBelowBlock.paddle with pos := ⟨436, 704⟩, size := ⟨208, 16⟩ },
    blocks := [{ sampleBlock 10 3 with health := 1, isSplitterActive := true }, sampleBlock 11 3],
    numberOfActiveBLocks := 2,
    score := ⟨1, 10, 0⟩ }


/-- The sample state right after a new game that follows a lost ball: the ball is held
(`vel = (0, 0)`) and still where it was lost, at `pos.y = 721`. -/
def heldBallBelowWindow : Game :=
  { sampleGame with ball := { sampleGame.ball with pos := ⟨536, 721⟩ } }

/-- The display-time accumulator of the terminal phase `g` is in: `gameOver.accumulator` in
GAME_OVER, `completedGame.accumulator` otherwise. -/
def phaseAccumulator (g : Game) : ℚ :=
  if g.currentGameState = GAMESTATE_GAME_OVER then g.gameOverAccumulator
  else g.completedGameAccumulator

/-- The sample state in GAME_OVER, 3990 ms into the display time. -/
def gameOverEnding : Game :=
  { sampleGame with currentGameState := GAMESTATE_GAME_OVER, gameOverAccumulator := 3990,
                    score := ⟨2, 7, 0⟩ }


/-- The states the game loop of `main` reaches: from the initial globals (for any menu layout),
by ticks with any events and inputs. -/
inductive Reachable : Game → Prop where
  | initial (menu : Menu) : Reachable (initialGame menu)
  | tick (g : Game) (events : List Event) (inp : Input) :
      Reachable g → Reachable (tick g (events, inp))

/-- The phases in which a game is running or its outcome is on display. -/
def Game.inSession (g : Game) : Prop :=
  g.currentGameState = GAMESTATE_PLAY ∨ g.currentGameState = GAMESTATE_NEXT_LEVEL ∨
    g.currentGameState = GAMESTATE_GAME_OVER ∨ g.currentGameState = GAMESTATE_COMPLETED_GAME

/-- An invariant of the game loop: the game state is a proper phase; while a game is running or
its outcome is on display the menu state is NONE or EXIT and the click-debounce timer is 0; a
pending NEW_GAME or CONTINUE request has the timer at 0; and the next-level display time is 0
outside NEXT_LEVEL. -/
def LoopInv (g : Game) : Prop :=
  g.currentGameState ≠ GAMESTATE_NONE ∧
    (g.inSession →
      (g.currentMenuState = MENUSTATE_NONE ∨ g.currentMenuState = MENUSTATE_EXIT) ∧
        g.clickingCoolDownTimer = 0) ∧
    (g.currentMenuState = MENUSTATE_NEW_GAME ∨ g.currentMenuState = MENUSTATE_CONTINUE →
      g.clickingCoolDownTimer = 0) ∧
    (g.currentGameState ≠ GAMESTATE_NEXT_LEVEL → g.nextLevelAccumulator = 0)

/-- Lines 652-653: the position a held ball is slaved to, for the paddle `q`. -/
def heldBallPos (q : Paddle) : Vec2 :=
  ⟨q.pos.x + (q.size.x / 2 - BALL_WIDTH / 2), q.pos.y - BALL_HEIGHT⟩

/-- The menu of `main` for sample text sizes. -/
def sampleLayout : Menu :=
  initialMenu ⟨420, 40⟩ ⟨170, 28⟩ ⟨110, 28⟩ ⟨260, 28⟩ ⟨400, 28⟩ ⟨400, 28⟩ ⟨400, 28⟩ ⟨400, 28⟩ ⟨100, 28⟩

/-- The pointer near the top-left corner of the window. -/
def pointerTopLeft : Input := ⟨5, 5, fun _ => 1, sampleBlock 0 0⟩

/-- The game three ticks after start-up: an idle tick, a left click with the pointer at (5, 5),
which lies inside the Continue item at its start-up position (0, 0), and the tick that
resumes play. -/
def continuedAtStart : Game :=
  run (initialGame sampleLayout)
    [([], pointerTopLeft), ([Event.mouseButtonDown 1], pointerTopLeft),
      ([Event.mouseButtonUp], pointerTopLeft)]

/-- The claim's reading of the choice between the two candidate penetrations `u` and `v` of one
axis, "whichever has the smaller absolute value".  It follows the specification, not the
source. -/
def specMinPenetration (u v : ℚ) : ℚ := if |u| < |v| then u else v

/-- The four corner points `boxAPoints` of `CollisionDetection`. -/
def cornerPoints (boxA : AxisBox) : List Vec2 :=
  [boxA.pos,
   ⟨boxA.pos.x + boxA.size.x / 2, boxA.pos.y⟩,
   ⟨boxA.pos.x + boxA.size.x / 2, boxA.pos.y + boxA.size.y / 2⟩,
   ⟨boxA.pos.x, boxA.pos.y + boxA.size.y / 2⟩]

/-- The extremes `aMinX` .. `aMaxY` that `CollisionDetection` computes for `boxA`. -/
def extentOf (boxA : AxisBox) : Extent :=
  (cornerPoints boxA).foldl (project ⟨1, 0⟩ ⟨0, 1⟩) ⟨FLT_MAX, FLT_MIN, FLT_MAX, FLT_MIN⟩

/-- Some leftover content of the uninitialised local `result`. -/
def staleResult : CollisionResult := ⟨false, ⟨7, 7⟩, 7⟩

/-- The grid parameters of the block field, which `main` sets once. -/
def Game.grid (g : Game) : Int × Int × Int × Int :=
  (g.blockMaxColumns, g.blockMaxRows, g.blockOffsetX, g.blockOffsetY)

/-- The pointer on the "Play New Game" entry of `sampleLayout`, which spans
(455, 160) .. (625, 188). -/
def pointerOnNewGame : Input := ⟨540, 170, fun k => k, sampleBlock 0 0⟩

/-- The game two ticks after start-up: an idle tick, then a left click on "Play New Game"; the
menu state is NEW_GAME and the paddle still has the zero size of start-up. -/
def newGameRequested : Game :=
  run (initialGame sampleLayout) [([], pointerOnNewGame), ([Event.mouseButtonDown 1], pointerOnNewGame)]

/-- What every block of a fresh game satisfies. -/
def Block.isFresh (b : Block) : Prop :=
  b.health = 2 ∧ (b.type = 0 ∨ b.type = 1 ∨ b.type = 2 ∨ b.type = 3) ∧
    b.isSplitterActive = false ∧ b.isExplosinActive = false ∧ b.explosion.frame = ⟨0, 0⟩

/-- A NEXT_LEVEL state whose display time runs out in the next tick: the sample state with its
block destroyed and 2000 ms (120 ticks) shown. -/
def nextLevelEnding : Game :=
  { sampleGame with
    currentGameState := GAMESTATE_NEXT_LEVEL,
    blocks := [{ sampleBlock 10 3 with health := 0, isSplitterActive := true,
                                       isExplosinActive := true }],
    numberOfActiveBLocks := 0,
    score := ⟨1, 1, 0⟩,
    nextLevelAccumulator := 2000 }


/-- The sample state one tick after the right-arrow key went down: the paddle moves right
with velocity 0.7. -/
def afterKeyPress : Game := tick sampleGame ([Event.keyDownRight], sampleInput)

/-- Lines 759-760: the bounce angle before the dead zone and the bias are applied,
`w / paddle.size.x - 0.5f`. -/
def bounceRaw (g : Game) : ℚ :=
  (g.paddle.pos.x + g.paddle.size.x - (g.ball.pos.x + BALL_WIDTH / 2)) / g.paddle.size.x - 1 / 2

/-- A PLAY state with a paddle of width 80 at x = 500 and the falling ball at (528, 697), just
into the paddle: `w = 48` and the raw bounce angle is 48 / 80 - 0.5 = 0.1. -/
def ballAtDeadZoneEdge : Game :=
  { sampleGame with
    paddle := { sampleGame.paddle with pos := ⟨500, 704⟩, size := ⟨80, 16⟩ },
    ball := { sampleGame.ball with pos := ⟨528, 697⟩, vel := ⟨0, 5⟩ } }

/-- The sample state with a block of type 0 and the ball in flight just above it, moving down:
after the ball movement of the next tick it is at (330, 42) and overlaps the block's top. -/
def energizedBlockAbove : Game :=
  { sampleGame with
    blocks := [{ sampleBlock 10 3 with type := 0 }],
    ball := { sampleGame.ball with pos := ⟨330, 37⟩, vel := ⟨0, 5⟩ } }

/-- The ball's 8x8 rectangle and the block's 32x16 rectangle overlap with positive area. -/
def overlaps (ball : Ball) (b : Block) : Prop :=
  ball.pos.x < b.pos.x + BLOCK_WIDTH ∧ ball.pos.x + BALL_WIDTH > b.pos.x ∧
    ball.pos.y < b.pos.y + BLOCK_HEIGHT ∧ ball.pos.y + BALL_HEIGHT > b.pos.y

instance (ball : Ball) (b : Block) : Decidable (overlaps ball b) := by
  unfold overlaps; infer_instance

/-- The sample state with the ball coming down on the top-left corner of the block at
(320, 48): after the ball movement of the next tick the ball is at (316, 44) and covers the
square (320, 48) .. (324, 52) of the block. -/
def ballOnBlockCorner : Game :=
  { sampleGame with ball := { sampleGame.ball with pos := ⟨316, 39⟩, vel := ⟨0, 5⟩ } }

/-- The game after the first tick of the program, an idle one with the pointer in the top-left
corner. -/
def idleAtStart : Game := tick (initialGame sampleLayout) ([], pointerTopLeft)

/-- The pointer on the "Exit Game" entry where the game-over timeout places it, (485, 228) ..
(595, 256); the "Continue Game" entry, (455, 228) .. (625, 256), is left at the same height by
the new game. -/
def pointerOnExit : Input := ⟨540, 240, fun k => k, sampleBlock 0 0⟩

/-- The first game of the program (started from `newGameRequested`) with its outcome on display:
GAME_OVER, 4000 ms shown. -/
def firstGameLost : Game :=
  { tick newGameRequested ([Event.mouseButtonUp], pointerOnNewGame) with
    currentGameState := GAMESTATE_GAME_OVER, gameOverAccumulator := 4000 }

/-- Lines 892-895 and 914-917: a position lowered by one descent step. -/
def lowered (p : Vec2) : Vec2 := ⟨p.x, p.y + 10⟩

/-- The part of a block the explosion animation works on: the flag `isExplosinActive`, the
frame and the time to the next frame. -/
def explosionState (b : Block) : Bool × Vec2 × ℚ :=
  (b.isExplosinActive, b.explosion.frame, b.explosion.timeToNextFrame)

/-- Lines 825-836 on that part of a block: what one pass of the loop "Things attached to a
Block" does to the explosion. -/
def explosionTick (delta : ℚ) (s : Bool × Vec2 × ℚ) : Bool × Vec2 × ℚ :=
  if s.1 then
    if s.2.2 - delta ≤ 0 then
      ((if (if s.2.1.x = EXPLOSION_MAX_FRAME_X then (⟨0, s.2.1.y + 1⟩ : Vec2)
            else ⟨s.2.1.x + 1, s.2.1.y⟩).y = EXPLOSION_MAX_FRAME_Y then false else true),
       (if s.2.1.x = EXPLOSION_MAX_FRAME_X then (⟨0, s.2.1.y + 1⟩ : Vec2)
        else ⟨s.2.1.x + 1, s.2.1.y⟩),
       EXPLOSION_TIME_BETWEEN_FRAMES)
    else (true, s.2.1, s.2.2 - delta)
  else s

/-- The frame of the 4x5 sheet shown after `n` ticks of `TIME_STEP`: one advance every three
ticks, in row-major order. -/
def sheetFrame (n : Nat) : Vec2 := ⟨(((n / 3) % 4 : Nat) : ℚ), (((n / 3) / 4 : Nat) : ℚ)⟩

/-- The game `g'` is reached from `g` by `n` ticks of the game loop, each of which starts, after
the event poll, in PLAY with no new game pending. -/
inductive PlayRun : Game → Nat → Game → Prop where
  | start (g : Game) : PlayRun g 0 g
  | tick (g g' : Game) (n : Nat) (events : List Event) (inp : Input) :
      PlayRun g n g' →
      (pollEvents g' events).currentGameState = GAMESTATE_PLAY →
      (pollEvents g' events).currentMenuState ≠ MENUSTATE_NEW_GAME →
      (pollEvents g' events).nextLevelAccumulator + TIME_STEP ≤ TIME_TO_SHOW_NEXT_LEVEL →
      PlayRun g (n + 1) (tick g' (events, inp))

/-- The sample state with its block destroyed in the previous tick: health 0 and the explosion
just started. -/
def blockExploding : Game :=
  { sampleGame with
    blocks := [{ sampleBlock 10 3 with health := 0, isSplitterActive := true,
                                       isExplosinActive := true }],
    numberOfActiveBLocks := 1 }

/-- Every block whose explosion animation runs has been destroyed. -/
def explodingDestroyed (bs : List Block) : Prop :=
  ∀ b ∈ bs, b.isExplosinActive = true → b.health = 0

/-- No position of the list is below (has a larger `y` than) the last one. -/
def lastLowest (ps : List Vec2) : Prop := ∀ p ∈ ps, ∀ d : Vec2, p.y ≤ (ps.getLastD d).y

/-- The block positions of a new game on the grid of `main`: 6 rows of 14 blocks. -/
def newGameLayout : List Vec2 :=
  (List.range 84).map (fun i => ⟨(((10 + i % 14 : Nat) : ℚ)) * 32, (((3 + i / 14 : Nat) : ℚ)) * 16⟩)

/-- The game ten ticks into the first session of the program (started from
`newGameRequested`), with the ball held. -/
def firstSession : Game :=
  run newGameRequested (List.replicate 10 ([], pointerOnNewGame))

/-- Lines 760-761 in binary32: the value `paddle.angle` holds before the dead zone and the bias
are applied. -/
def bounceRaw32 (g : Game) : ℚ :=
  round32 (round32 (round32 (round32 (g.paddle.pos.x + g.paddle.size.x) -
    round32 (g.ball.pos.x + (BALL_WIDTH / 2))) / g.paddle.size.x) - 1 / 2)

/-- What keeps the blocks of a game clear of the bottom of the window: unless there is no block,
the paddle is on the row a new game puts it on (`pos.y = 704`, `size.y = 16`, so that the danger
line of the descent rule is `704 - 96 = 608`), and no block is below `pos.y = 618`, one descent
step past the danger line. -/
def DescentInv (g : Game) : Prop :=
  (g.blocks = [] ∨
    (g.paddle.pos.y = WINDOW_HEIGHT - PADDLE_FRAME_SIZE ∧ g.paddle.size.y = PADDLE_START_HEIGHT)) ∧
    ∀ p ∈ g.blocks.map (fun b => b.pos), p.y ≤ 618

/-- The state `heldBallBelowWindow` after the up-arrow key went down: the ball is launched from
where it was lost, `pos.y = 721`, with `vel = (0, -5)`. -/
def launchedBallBelowWindow : Game := pollEvents heldBallBelowWindow [Event.keyDownUp]

/-- The pointer on the "Continue Game" entry of `sampleLayout` once a game has been played:
the entry spans (455, 228) .. (625, 256). -/
def pointerOnContinue : Input := ⟨460, 240, fun k => k, sampleBlock 0 0⟩

/-- A game that was continued after a lost ball, on the sample state.  The menu is that of
`sampleLayout` as the game-over timeout leaves it, `gameIsStarted` is false and the display time
of that game over is still on the clock (`gameOver.accumulator = 5000`; only a new game resets
it).  "Continue Game" has resumed PLAY and the up-arrow key has launched the ball again, as they
do at the end of `lostBallRun`; the ball now falls onto the right part of the paddle, which is
at x = 188. -/
def ballOverPaddle : Game :=
  { sampleGame with
    menu := (backToMenu (tick newGameRequested ([Event.mouseButtonUp], pointerOnNewGame))).menu,
    gameIsStarted := false,
    gameOverAccumulator := 5000,
    paddle := { sampleGame.paddle with pos := ⟨188, 704⟩ },
    ball := { sampleGame.ball with pos := ⟨220, 692⟩, vel := ⟨0, 5⟩ } }

/-- The sample block after the ball has hit it once and `n` ticks have moved its debris. -/
def damagedBlock (n : Nat) : Block :=
  (updateAttached TIME_STEP)^[n] { sampleBlock 10 3 with health := 1, isSplitterActive := true }

/-- A debris particle of the sample block once it has left the window through the top edge,
eight ticks after the block was hit; from then on it is not moved. -/
def spentSplitter : Splitter :=
  { pos := ⟨8732558 / 28125, -(116281 / 28125)⟩,
    size := ⟨2, 2⟩,
    acc := ⟨-(4999 / 6250), -(4999 / 6250)⟩,
    vel := ⟨-(2499 / 25000), -(70397 / 15000)⟩,
    color := ⟨135, 63, 255, 255⟩ }

/-- The sample block after the ball has hit it once and its debris has left the window: it is
`damagedBlock 8` (`damagedBlock_spent`), and further ticks leave it as it is. -/
def spentBlock : Block :=
  { sampleBlock 10 3 with
    health := 1, isSplitterActive := true,
    blockSplitter := List.replicate MAX_NUMBER_OF_SPLITTER spentSplitter }

/-- The events and the pointer of tick `i + 1` of the run `lostBallRun`: the left mouse button
goes down before the first tick and stays down, the up-arrow key goes down before tick 756, and
the pointer rests on "Continue Game". -/
def lostBallStep (i : Nat) : List Event × Input :=
  (if i = 0 then [Event.mouseButtonDown 1] else if i = 755 then [Event.keyDownUp] else [],
    pointerOnContinue)

/-- A run of 1228 ticks in which the player keeps the left mouse button down over "Continue
Game" and presses the up-arrow key once. -/
def lostBallRun : List (List Event × Input) := (List.range 1228).map lostBallStep

/-- The state after `i` ticks of `lostBallRun` from `ballOverPaddle`, in closed form.  Ticks 1 to
127: the ball has bounced off the right part of the paddle (`paddle.angle = 3/4`) and rises to
the right.  Tick 128: it hits the left face of the block at (320, 48) and turns left with
`vel.x = -1`.  Tick 141: it bounces off the top edge.  Tick 284: it is lost at (156, 715); as
the game-over display time is used up, the same tick shows the menu, where the held button
resumes play: from then on every third tick is a PLAY tick that moves the ball on, below the
window, where the bottom rule masks the side rules.  Tick 756: the up-arrow key sets
`vel = (0, -5)` with the ball at (-1, 1500), and the ball rises, one PLAY tick in three. -/
def lostBallTrajectory (i : Nat) : Game :=
  if i = 0 then ballOverPaddle
  else if i ≤ 283 then
    { ballOverPaddle with
      isLeftMouseBtnClicked := true,
      paddle := { ballOverPaddle.paddle with angle := 3 / 4 },
      blocks :=
        [if i ≤ 127 then sampleBlock 10 3 else if i ≤ 134 then damagedBlock (i - 127)
          else spentBlock],
      ball := { ballOverPaddle.ball with
        pos :=
          if i ≤ 127 then ⟨220 + 3 / 4 * ((i : ℚ) - 1), 697 - 5 * ((i : ℚ) - 1)⟩
          else if i ≤ 140 then ⟨312 - ((i : ℚ) - 128), 62 - 5 * ((i : ℚ) - 128)⟩
          else ⟨299 - ((i : ℚ) - 141), 5 * ((i : ℚ) - 141)⟩,
        vel := if i ≤ 127 then ⟨3 / 4, -5⟩ else if i ≤ 140 then ⟨-1, -5⟩ else ⟨-1, 5⟩ } }
  else
    { ballOverPaddle with
      currentGameState := if (i - 284) % 3 = 2 then GAMESTATE_PLAY else GAMESTATE_MENU,
      currentMenuState := if (i - 284) % 3 = 1 then MENUSTATE_CONTINUE else MENUSTATE_NONE,
      isLeftMouseBtnClicked := true,
      clickingCoolDownTimer := if (i - 284) % 3 = 0 then -TIME_STEP else 0,
      gameOverAccumulator := 5000 + (((i - 284) / 3 + 1 : Nat) : ℚ) * TIME_STEP,
      menu := { ballOverPaddle.menu with
        background :=
          if (i - 284) % 3 = 0 then ⟨⟨(((i - 284) / 3 + 1 : Nat) : ℚ), 0⟩, TIME_STEP⟩
          else ⟨⟨(((i - 284) / 3 + 2 : Nat) : ℚ), 0⟩, MENU_BACKGROUND_TIME_BETWEEN_FRAMES⟩ },
      paddle := { ballOverPaddle.paddle with angle := 3 / 4 },
      blocks := [spentBlock],
      ball := { ballOverPaddle.ball with
        pos :=
          if i ≤ 757 then ⟨156 - (((i - 284) / 3 : Nat) : ℚ), 715 + 5 * (((i - 284) / 3 : Nat) : ℚ)⟩
          else ⟨-1, 1500 - 5 * ((((i - 284) / 3 : Nat) : ℚ) - 157)⟩,
        vel := if i ≤ 755 then ⟨-1, 5⟩ else ⟨0, -5⟩ } }

/-- The state `lostBallRun` ends in: a PLAY state with `paddle.angle = 3/4` and the ball left of
the window at (-1, 715), rising with `vel = (0, -5)`. -/
def ballBeyondLeftWall : Game :=
  { ballOverPaddle with
    isLeftMouseBtnClicked := true,
    gameOverAccumulator := 10250,
    menu := { ballOverPaddle.menu with
      background := ⟨⟨316, 0⟩, MENU_BACKGROUND_TIME_BETWEEN_FRAMES⟩ },
    paddle := { ballOverPaddle.paddle with angle := 3 / 4 },
    blocks := [spentBlock],
    ball := { ballOverPaddle.ball with pos := ⟨-1, 715⟩, vel := ⟨0, -5⟩ } }

/-- The state the window rules of a PLAY tick that starts in `g` are applied to (lines 623-774
done). -/
def beforeWindowRules (g : Game) : Game :=
  ballVsPaddle (ballVsBlocks (ballMovement (paddleVsWindow (paddleMovement g))))

/-- In a PLAY tick that starts in `g` the left-edge rule fires: `ball.pos.x < 0` and none of the
bottom, top and right rules applies. -/
def leftEdgeRuleFires (g : Game) : Prop :=
  ¬ (beforeWindowRules g).ball.pos.y + BALL_HEIGHT > WINDOW_HEIGHT ∧
    ¬ (beforeWindowRules g).ball.pos.y < 0 ∧
    ¬ (beforeWindowRules g).ball.pos.x + BALL_WIDTH > WINDOW_WIDTH ∧
    (beforeWindowRules g).ball.pos.x < 0

instance (g : Game) : Decidable (leftEdgeRuleFires g) := by
  unfold leftEdgeRuleFires; infer_instance

/-! ## Frame lemmas -/

theorem ballVsBlocksLoop_cases (g : Game) (bs : List Block) :
    (ballVsBlocksLoop g bs = (g, bs) ∧ ∀ b ∈ bs, b.health ≠ 0 → (faceTest g.ball b).2 = false) ∨
    ∃ pre b post, bs = pre ++ b :: post ∧
      (∀ c ∈ pre, c.health ≠ 0 → (faceTest g.ball c).2 = false) ∧
      b.health ≠ 0 ∧ (faceTest g.ball b).2 = true ∧
      ballVsBlocksLoop g bs =
        ((evalResult { g with ball := (faceTest g.ball b).1 } b).1,
          pre ++ (evalResult { g with ball := (faceTest g.ball b).1 } b).2 :: post) := by
  induction bs with
  | nil => left; simp [ballVsBlocksLoop]
  | cons b rest ih =>
    by_cases hb : b.health ≠ 0
    · by_cases ht : (faceTest g.ball b).2 = true
      · right
        refine ⟨[], b, rest, by simp, by simp, hb, ht, ?_⟩
        simp [ballVsBlocksLoop, hb, ht]
      · rcases ih with ⟨h1, h2⟩ | ⟨pre, c, post, h1, h2, h3, h4, h5⟩
        · left
          refine ⟨by simp [ballVsBlocksLoop, hb, ht, h1], ?_⟩
          intro x hx hx0
          rcases List.mem_cons.mp hx with rfl | hx
          · simpa using ht
          · exact h2 x hx hx0
        · right
          refine ⟨b :: pre, c, post, by simp [h1], ?_, h3, h4, by simp [ballVsBlocksLoop, hb, ht, h5]⟩
          intro x hx hx0
          rcases List.mem_cons.mp hx with rfl | hx
          · simpa using ht
          · exact h2 x hx hx0
    · have hb0 : b.health = 0 := by simpa using hb
      rcases ih with ⟨h1, h2⟩ | ⟨pre, c, post, h1, h2, h3, h4, h5⟩
      · left
        refine ⟨by simp [ballVsBlocksLoop, hb0, h1], ?_⟩
        intro x hx hx0
        rcases List.mem_cons.mp hx with rfl | hx
        · exact absurd hb0 hx0
        · exact h2 x hx hx0
      · right
        refine ⟨b :: pre, c, post, by simp [h1], ?_, h3, h4, by simp [ballVsBlocksLoop, hb0, h5]⟩
        intro x hx hx0
        rcases List.mem_cons.mp hx with rfl | hx
        · exact absurd hb0 hx0
        · exact h2 x hx hx0

@[simp] theorem paddleMovement_paddle_pos (g : Game) : (paddleMovement g).paddle.pos = g.paddle.pos := by
  unfold paddleMovement; split_ifs <;> rfl

@[simp] theorem paddleMovement_paddle_size (g : Game) : (paddleMovement g).paddle.size = g.paddle.size := by
  unfold paddleMovement; split_ifs <;> rfl

@[simp] theorem paddleMovement_paddle_dir (g : Game) : (paddleMovement g).paddle.dir = g.paddle.dir := by
  unfold paddleMovement; split_ifs <;> rfl

@[simp] theorem paddleMovement_paddle_maxWidth (g : Game) :
    (paddleMovement g).paddle.maxWidth = g.paddle.maxWidth := by
  unfold paddleMovement; split_ifs <;> rfl

@[simp] theorem paddleVsWindow_paddle_size (g : Game) : (paddleVsWindow g).paddle.size = g.paddle.size := by
  unfold paddleVsWindow; split_ifs <;> rfl

@[simp] theorem paddleVsWindow_paddle_maxWidth (g : Game) :
    (paddleVsWindow g).paddle.maxWidth = g.paddle.maxWidth := by
  unfold paddleVsWindow; split_ifs <;> rfl

@[simp] theorem ballMovement_paddle (g : Game) : (ballMovement g).paddle = g.paddle := by
  unfold ballMovement; split_ifs <;> rfl

@[simp] theorem ballVsPaddle_paddle_pos (g : Game) : (ballVsPaddle g).paddle.pos = g.paddle.pos := by
  unfold ballVsPaddle; split_ifs <;> rfl

@[simp] theorem ballVsPaddle_paddle_size (g : Game) : (ballVsPaddle g).paddle.size = g.paddle.size := by
  unfold ballVsPaddle; split_ifs <;> rfl

@[simp] theorem ballVsPaddle_paddle_maxWidth (g : Game) :
    (ballVsPaddle g).paddle.maxWidth = g.paddle.maxWidth := by
  unfold ballVsPaddle; split_ifs <;> rfl

@[simp] theorem ballVsWindow_paddle (g : Game) : (ballVsWindow g).paddle = g.paddle := by
  unfold ballVsWindow; split_ifs <;> rfl

@[simp] theorem blockAttachments_paddle (delta : ℚ) (g : Game) :
    (blockAttachments delta g).paddle = g.paddle := rfl

@[simp] theorem lowerBlocks_paddle (delta : ℚ) (stray : Block) (g : Game) :
    (lowerBlocks delta stray g).paddle = g.paddle := by
  unfold lowerBlocks; simp only []; split_ifs <;> rfl

@[simp] theorem levelRules_paddle (delta : ℚ) (stray : Block) (g : Game) :
    (levelRules delta stray g).paddle = g.paddle := by
  unfold levelRules; simp only []; split_ifs <;> simp

@[simp] theorem nextLevelPhase_paddle (delta : ℚ) (g : Game) :
    (nextLevelPhase delta g).paddle = g.paddle := by
  unfold nextLevelPhase; simp only []; split_ifs <;> rfl

@[simp] theorem gameOverPhase_paddle (delta : ℚ) (g : Game) :
    (gameOverPhase delta g).paddle = g.paddle := by
  unfold gameOverPhase backToMenu; simp only []; split_ifs <;> rfl

@[simp] theorem completedGamePhase_paddle (delta : ℚ) (g : Game) :
    (completedGamePhase delta g).paddle = g.paddle := by
  unfold completedGamePhase backToMenu; simp only []; split_ifs <;> rfl

@[simp] theorem UpdateMenuBackground_paddle (delta : ℚ) (g : Game) :
    (UpdateMenuBackground delta g).paddle = g.paddle := by
  unfold UpdateMenuBackground; simp only []; split_ifs <;> rfl

@[simp] theorem menuRootPhase_paddle (delta : ℚ) (inp : Input) (g : Game) :
    (menuRootPhase delta inp g).paddle = g.paddle := by
  unfold menuRootPhase; simp only []; split_ifs <;> simp

@[simp] theorem instructionsPhase_paddle (delta : ℚ) (inp : Input) (g : Game) :
    (instructionsPhase delta inp g).paddle = g.paddle := by
  unfold instructionsPhase; simp only []; split_ifs <;> simp

@[simp] theorem newGame_paddle (inp : Input) (g : Game) :
    (newGame inp g).paddle = newGamePaddle g.paddle := rfl

theorem menuChain_paddle (delta : ℚ) (inp : Input) (g : Game) :
    (menuChain delta inp g).paddle = g.paddle ∨
      (menuChain delta inp g).paddle = newGamePaddle g.paddle := by
  unfold menuChain; split_ifs <;> simp

theorem GameUpdate_eq (delta : ℚ) (inp : Input) (g : Game) :
    GameUpdate delta inp g = menuChain delta inp (beforeMenuChain delta inp g) := rfl

theorem beforeMenuChain_paddle (delta : ℚ) (inp : Input) (g : Game)
    (h : g.currentGameState = GAMESTATE_PLAY) :
    (beforeMenuChain delta inp g).paddle = (playPhase delta inp g).paddle := by
  unfold beforeMenuChain; simp only [h, if_true]; split_ifs <;> simp

theorem blockDestroyed_paddle (g : Game) :
    (blockDestroyed g).paddle = g.paddle ∧ ¬ g.paddle.size.x ≤ g.paddle.maxWidth ∨
      (blockDestroyed g).paddle = grownPaddle g.paddle ∧ g.paddle.size.x ≤ g.paddle.maxWidth := by
  unfold blockDestroyed grownPaddle; simp only []
  by_cases h : g.paddle.size.x ≤ g.paddle.maxWidth
  · right; refine ⟨?_, h⟩; simp only [h, if_true]; split_ifs <;> rfl
  · left; refine ⟨?_, h⟩; simp only [h, if_false]; split_ifs <;> rfl

theorem evalResult_paddle (g : Game) (b : Block) :
    (evalResult g b).1.paddle = g.paddle ∨
      (evalResult g b).1.paddle = grownPaddle g.paddle ∧ g.paddle.size.x ≤ g.paddle.maxWidth := by
  unfold evalResult; simp only []
  split_ifs
  · rcases blockDestroyed_paddle g with h | h
    · left; exact h.1
    · right; exact h
  · left; rfl
  · left; rfl

theorem ballVsBlocks_paddle (g : Game) :
    (ballVsBlocks g).paddle = g.paddle ∨
      (ballVsBlocks g).paddle = grownPaddle g.paddle ∧ g.paddle.size.x ≤ g.paddle.maxWidth := by
  unfold ballVsBlocks; simp only []
  rcases ballVsBlocksLoop_cases g g.blocks with ⟨h, _⟩ | ⟨pre, b, post, _, _, _, _, h⟩
  · left; rw [h]
  · rw [h]; exact evalResult_paddle _ b


theorem playPhase_paddle_cases (delta : ℚ) (inp : Input) (g : Game) :
    let q := (paddleVsWindow (paddleMovement g)).paddle
    ((playPhase delta inp g).paddle.pos = q.pos ∧ (playPhase delta inp g).paddle.size = q.size) ∨
    ((playPhase delta inp g).paddle.pos = (grownPaddle q).pos ∧
      (playPhase delta inp g).paddle.size = (grownPaddle q).size ∧ q.size.x ≤ q.maxWidth) := by
  intro q
  unfold playPhase
  simp only [levelRules_paddle, blockAttachments_paddle, ballVsWindow_paddle,
    ballVsPaddle_paddle_pos, ballVsPaddle_paddle_size]
  rcases ballVsBlocks_paddle (ballMovement (paddleVsWindow (paddleMovement g))) with h | ⟨h, h'⟩
  · left; rw [h]; simp [q]
  · right; rw [h]; simp only [ballMovement_paddle] at h' ⊢; exact ⟨trivial, trivial, h'⟩

theorem GameUpdate_paddle_of_play (delta : ℚ) (inp : Input) (g : Game)
    (h : g.currentGameState = GAMESTATE_PLAY) :
    (GameUpdate delta inp g).paddle = (playPhase delta inp g).paddle ∨
      (GameUpdate delta inp g).paddle = newGamePaddle (playPhase delta inp g).paddle := by
  rw [GameUpdate_eq, ← beforeMenuChain_paddle delta inp g h]
  exact menuChain_paddle _ _ _

/-! ### Fields a step leaves alone -/

@[simp] theorem paddleMovement_blocks (g : Game) :
    (paddleMovement g).blocks = g.blocks := by
  unfold paddleMovement; split_ifs <;> rfl

@[simp] theorem paddleMovement_ball (g : Game) :
    (paddleMovement g).ball = g.ball := by
  unfold paddleMovement; split_ifs <;> rfl

@[simp] theorem paddleMovement_numberOfActiveBLocks (g : Game) :
    (paddleMovement g).numberOfActiveBLocks = g.numberOfActiveBLocks := by
  unfold paddleMovement; split_ifs <;> rfl

@[simp] theorem paddleMovement_currentGameState (g : Game) :
    (paddleMovement g).currentGameState = g.currentGameState := by
  unfold paddleMovement; split_ifs <;> rfl

@[simp] theorem paddleMovement_currentMenuState (g : Game) :
    (paddleMovement g).currentMenuState = g.currentMenuState := by
  unfold paddleMovement; split_ifs <;> rfl

@[simp] theorem paddleMovement_score (g : Game) :
    (paddleMovement g).score = g.score := by
  unfold paddleMovement; split_ifs <;> rfl

@[simp] theorem paddleMovement_nextLevelAccumulator (g : Game) :
    (paddleMovement g).nextLevelAccumulator = g.nextLevelAccumulator := by
  unfold paddleMovement; split_ifs <;> rfl

@[simp] theorem paddleMovement_gameOverAccumulator (g : Game) :
    (paddleMovement g).gameOverAccumulator = g.gameOverAccumulator := by
  unfold paddleMovement; split_ifs <;> rfl

@[simp] theorem paddleMovement_completedGameAccumulator (g : Game) :
    (paddleMovement g).completedGameAccumulator = g.completedGameAccumulator := by
  unfold paddleMovement; split_ifs <;> rfl

@[simp] theorem paddleVsWindow_blocks (g : Game) :
    (paddleVsWindow g).blocks = g.blocks := by
  unfold paddleVsWindow; split_ifs <;> rfl

@[simp] theorem paddleVsWindow_ball (g : Game) :
    (paddleVsWindow g).ball = g.ball := by
  unfold paddleVsWindow; split_ifs <;> rfl

@[simp] theorem paddleVsWindow_numberOfActiveBLocks (g : Game) :
    (paddleVsWindow g).numberOfActiveBLocks = g.numberOfActiveBLocks := by
  unfold paddleVsWindow; split_ifs <;> rfl

@[simp] theorem paddleVsWindow_currentGameState (g : Game) :
    (paddleVsWindow g).currentGameState = g.currentGameState := by
  unfold paddleVsWindow; split_ifs <;> rfl

@[simp] theorem paddleVsWindow_currentMenuState (g : Game) :
    (paddleVsWindow g).currentMenuState = g.currentMenuState := by
  unfold paddleVsWindow; split_ifs <;> rfl

@[simp] theorem paddleVsWindow_score (g : Game) :
    (paddleVsWindow g).score = g.score := by
  unfold paddleVsWindow; split_ifs <;> rfl

@[simp] theorem paddleVsWindow_nextLevelAccumulator (g : Game) :
    (paddleVsWindow g).nextLevelAccumulator = g.nextLevelAccumulator := by
  unfold paddleVsWindow; split_ifs <;> rfl

@[simp] theorem paddleVsWindow_gameOverAccumulator (g : Game) :
    (paddleVsWindow g).gameOverAccumulator = g.gameOverAccumulator := by
  unfold paddleVsWindow; split_ifs <;> rfl

@[simp] theorem paddleVsWindow_completedGameAccumulator (g : Game) :
    (paddleVsWindow g).completedGameAccumulator = g.completedGameAccumulator := by
  unfold paddleVsWindow; split_ifs <;> rfl

@[simp] theorem ballMovement_blocks (g : Game) :
    (ballMovement g).blocks = g.blocks := by
  unfold ballMovement; split_ifs <;> rfl

@[simp] theorem ballMovement_numberOfActiveBLocks (g : Game) :
    (ballMovement g).numberOfActiveBLocks = g.numberOfActiveBLocks := by
  unfold ballMovement; split_ifs <;> rfl

@[simp] theorem ballMovement_currentGameState (g : Game) :
    (ballMovement g).currentGameState = g.currentGameState := by
  unfold ballMovement; split_ifs <;> rfl

@[simp] theorem ballMovement_currentMenuState (g : Game) :
    (ballMovement g).currentMenuState = g.currentMenuState := by
  unfold ballMovement; split_ifs <;> rfl

@[simp] theorem ballMovement_score (g : Game) :
    (ballMovement g).score = g.score := by
  unfold ballMovement; split_ifs <;> rfl

@[simp] theorem ballMovement_nextLevelAccumulator (g : Game) :
    (ballMovement g).nextLevelAccumulator = g.nextLevelAccumulator := by
  unfold ballMovement; split_ifs <;> rfl

@[simp] theorem ballMovement_gameOverAccumulator (g : Game) :
    (ballMovement g).gameOverAccumulator = g.gameOverAccumulator := by
  unfold ballMovement; split_ifs <;> rfl

@[simp] theorem ballMovement_completedGameAccumulator (g : Game) :
    (ballMovement g).completedGameAccumulator = g.completedGameAccumulator := by
  unfold ballMovement; split_ifs <;> rfl

@[simp] theorem blockDestroyed_blocks (g : Game) :
    (blockDestroyed g).blocks = g.blocks := by
  unfold blockDestroyed; simp only []; split_ifs <;> rfl

@[simp] theorem blockDestroyed_ball (g : Game) :
    (blockDestroyed g).ball = g.ball := by
  unfold blockDestroyed; simp only []; split_ifs <;> rfl

@[simp] theorem blockDestroyed_currentMenuState (g : Game) :
    (blockDestroyed g).currentMenuState = g.currentMenuState := by
  unfold blockDestroyed; simp only []; split_ifs <;> rfl

@[simp] theorem blockDestroyed_score_level (g : Game) :
    (blockDestroyed g).score.level = g.score.level := by
  unfold blockDestroyed; simp only []; split_ifs <;> rfl

@[simp] theorem blockDestroyed_score_accumulator (g : Game) :
    (blockDestroyed g).score.accumulator = g.score.accumulator := by
  unfold blockDestroyed; simp only []; split_ifs <;> rfl

@[simp] theorem blockDestroyed_nextLevelAccumulator (g : Game) :
    (blockDestroyed g).nextLevelAccumulator = g.nextLevelAccumulator := by
  unfold blockDestroyed; simp only []; split_ifs <;> rfl

@[simp] theorem blockDestroyed_gameOverAccumulator (g : Game) :
    (blockDestroyed g).gameOverAccumulator = g.gameOverAccumulator := by
  unfold blockDestroyed; simp only []; split_ifs <;> rfl

@[simp] theorem blockDestroyed_completedGameAccumulator (g : Game) :
    (blockDestroyed g).completedGameAccumulator = g.completedGameAccumulator := by
  unfold blockDestroyed; simp only []; split_ifs <;> rfl

@[simp] theorem ballVsPaddle_blocks (g : Game) :
    (ballVsPaddle g).blocks = g.blocks := by
  unfold ballVsPaddle; split_ifs <;> rfl

@[simp] theorem ballVsPaddle_numberOfActiveBLocks (g : Game) :
    (ballVsPaddle g).numberOfActiveBLocks = g.numberOfActiveBLocks := by
  unfold ballVsPaddle; split_ifs <;> rfl

@[simp] theorem ballVsPaddle_currentGameState (g : Game) :
    (ballVsPaddle g).currentGameState = g.currentGameState := by
  unfold ballVsPaddle; split_ifs <;> rfl

@[simp] theorem ballVsPaddle_currentMenuState (g : Game) :
    (ballVsPaddle g).currentMenuState = g.currentMenuState := by
  unfold ballVsPaddle; split_ifs <;> rfl

@[simp] theorem ballVsPaddle_score (g : Game) :
    (ballVsPaddle g).score = g.score := by
  unfold ballVsPaddle; split_ifs <;> rfl

@[simp] theorem ballVsPaddle_nextLevelAccumulator (g : Game) :
    (ballVsPaddle g).nextLevelAccumulator = g.nextLevelAccumulator := by
  unfold ballVsPaddle; split_ifs <;> rfl

@[simp] theorem ballVsPaddle_gameOverAccumulator (g : Game) :
    (ballVsPaddle g).gameOverAccumulator = g.gameOverAccumulator := by
  unfold ballVsPaddle; split_ifs <;> rfl

@[simp] theorem ballVsPaddle_completedGameAccumulator (g : Game) :
    (ballVsPaddle g).completedGameAccumulator = g.completedGameAccumulator := by
  unfold ballVsPaddle; split_ifs <;> rfl

@[simp] theorem ballVsWindow_blocks (g : Game) :
    (ballVsWindow g).blocks = g.blocks := by
  unfold ballVsWindow; split_ifs <;> rfl

@[simp] theorem ballVsWindow_numberOfActiveBLocks (g : Game) :
    (ballVsWindow g).numberOfActiveBLocks = g.numberOfActiveBLocks := by
  unfold ballVsWindow; split_ifs <;> rfl

@[simp] theorem ballVsWindow_currentMenuState (g : Game) :
    (ballVsWindow g).currentMenuState = g.currentMenuState := by
  unfold ballVsWindow; split_ifs <;> rfl

@[simp] theorem ballVsWindow_score (g : Game) :
    (ballVsWindow g).score = g.score := by
  unfold ballVsWindow; split_ifs <;> rfl

@[simp] theorem ballVsWindow_nextLevelAccumulator (g : Game) :
    (ballVsWindow g).nextLevelAccumulator = g.nextLevelAccumulator := by
  unfold ballVsWindow; split_ifs <;> rfl

@[simp] theorem ballVsWindow_gameOverAccumulator (g : Game) :
    (ballVsWindow g).gameOverAccumulator = g.gameOverAccumulator := by
  unfold ballVsWindow; split_ifs <;> rfl

@[simp] theorem ballVsWindow_completedGameAccumulator (g : Game) :
    (ballVsWindow g).completedGameAccumulator = g.completedGameAccumulator := by
  unfold ballVsWindow; split_ifs <;> rfl

@[simp] theorem blockAttachments_ball (delta : ℚ) (g : Game) :
    (blockAttachments delta g).ball = g.ball := rfl

@[simp] theorem blockAttachments_numberOfActiveBLocks (delta : ℚ) (g : Game) :
    (blockAttachments delta g).numberOfActiveBLocks = g.numberOfActiveBLocks := rfl

@[simp] theorem blockAttachments_currentGameState (delta : ℚ) (g : Game) :
    (blockAttachments delta g).currentGameState = g.currentGameState := rfl

@[simp] theorem blockAttachments_currentMenuState (delta : ℚ) (g : Game) :
    (blockAttachments delta g).currentMenuState = g.currentMenuState := rfl

@[simp] theorem blockAttachments_score (delta : ℚ) (g : Game) :
    (blockAttachments delta g).score = g.score := rfl

@[simp] theorem blockAttachments_nextLevelAccumulator (delta : ℚ) (g : Game) :
    (blockAttachments delta g).nextLevelAccumulator = g.nextLevelAccumulator := rfl

@[simp] theorem blockAttachments_gameOverAccumulator (delta : ℚ) (g : Game) :
    (blockAttachments delta g).gameOverAccumulator = g.gameOverAccumulator := rfl

@[simp] theorem blockAttachments_completedGameAccumulator (delta : ℚ) (g : Game) :
    (blockAttachments delta g).completedGameAccumulator = g.completedGameAccumulator := rfl

@[simp] theorem lowerBlocks_ball (delta : ℚ) (stray : Block) (g : Game) :
    (lowerBlocks delta stray g).ball = g.ball := by
  unfold lowerBlocks; simp only []; split_ifs <;> rfl

@[simp] theorem lowerBlocks_numberOfActiveBLocks (delta : ℚ) (stray : Block) (g : Game) :
    (lowerBlocks delta stray g).numberOfActiveBLocks = g.numberOfActiveBLocks := by
  unfold lowerBlocks; simp only []; split_ifs <;> rfl

@[simp] theorem lowerBlocks_currentMenuState (delta : ℚ) (stray : Block) (g : Game) :
    (lowerBlocks delta stray g).currentMenuState = g.currentMenuState := by
  unfold lowerBlocks; simp only []; split_ifs <;> rfl

@[simp] theorem lowerBlocks_score_level (delta : ℚ) (stray : Block) (g : Game) :
    (lowerBlocks delta stray g).score.level = g.score.level := by
  unfold lowerBlocks; simp only []; split_ifs <;> rfl

@[simp] theorem lowerBlocks_score_points (delta : ℚ) (stray : Block) (g : Game) :
    (lowerBlocks delta stray g).score.points = g.score.points := by
  unfold lowerBlocks; simp only []; split_ifs <;> rfl

@[simp] theorem lowerBlocks_nextLevelAccumulator (delta : ℚ) (stray : Block) (g : Game) :
    (lowerBlocks delta stray g).nextLevelAccumulator = g.nextLevelAccumulator := by
  unfold lowerBlocks; simp only []; split_ifs <;> rfl

@[simp] theorem lowerBlocks_gameOverAccumulator (delta : ℚ) (stray : Block) (g : Game) :
    (lowerBlocks delta stray g).gameOverAccumulator = g.gameOverAccumulator := by
  unfold lowerBlocks; simp only []; split_ifs <;> rfl

@[simp] theorem lowerBlocks_completedGameAccumulator (delta : ℚ) (stray : Block) (g : Game) :
    (lowerBlocks delta stray g).completedGameAccumulator = g.completedGameAccumulator := by
  unfold lowerBlocks; simp only []; split_ifs <;> rfl

@[simp] theorem levelRules_ball (delta : ℚ) (stray : Block) (g : Game) :
    (levelRules delta stray g).ball = g.ball := by
  unfold levelRules; simp only []; split_ifs <;> simp

@[simp] theorem levelRules_numberOfActiveBLocks (delta : ℚ) (stray : Block) (g : Game) :
    (levelRules delta stray g).numberOfActiveBLocks = g.numberOfActiveBLocks := by
  unfold levelRules; simp only []; split_ifs <;> simp

@[simp] theorem levelRules_currentMenuState (delta : ℚ) (stray : Block) (g : Game) :
    (levelRules delta stray g).currentMenuState = g.currentMenuState := by
  unfold levelRules; simp only []; split_ifs <;> simp

@[simp] theorem levelRules_score_level (delta : ℚ) (stray : Block) (g : Game) :
    (levelRules delta stray g).score.level = g.score.level := by
  unfold levelRules; simp only []; split_ifs <;> simp

@[simp] theorem levelRules_score_points (delta : ℚ) (stray : Block) (g : Game) :
    (levelRules delta stray g).score.points = g.score.points := by
  unfold levelRules; simp only []; split_ifs <;> simp

@[simp] theorem levelRules_nextLevelAccumulator (delta : ℚ) (stray : Block) (g : Game) :
    (levelRules delta stray g).nextLevelAccumulator = g.nextLevelAccumulator := by
  unfold levelRules; simp only []; split_ifs <;> simp

@[simp] theorem levelRules_gameOverAccumulator (delta : ℚ) (stray : Block) (g : Game) :
    (levelRules delta stray g).gameOverAccumulator = g.gameOverAccumulator := by
  unfold levelRules; simp only []; split_ifs <;> simp

@[simp] theorem levelRules_completedGameAccumulator (delta : ℚ) (stray : Block) (g : Game) :
    (levelRules delta stray g).completedGameAccumulator = g.completedGameAccumulator := by
  unfold levelRules; simp only []; split_ifs <;> simp

@[simp] theorem nextLevelPhase_blocks (delta : ℚ) (g : Game) :
    (nextLevelPhase delta g).blocks = g.blocks := by
  unfold nextLevelPhase; simp only []; split_ifs <;> rfl

@[simp] theorem nextLevelPhase_ball (delta : ℚ) (g : Game) :
    (nextLevelPhase delta g).ball = g.ball := by
  unfold nextLevelPhase; simp only []; split_ifs <;> rfl

@[simp] theorem nextLevelPhase_numberOfActiveBLocks (delta : ℚ) (g : Game) :
    (nextLevelPhase delta g).numberOfActiveBLocks = g.numberOfActiveBLocks := by
  unfold nextLevelPhase; simp only []; split_ifs <;> rfl

@[simp] theorem nextLevelPhase_score_points (delta : ℚ) (g : Game) :
    (nextLevelPhase delta g).score.points = g.score.points := by
  unfold nextLevelPhase; simp only []; split_ifs <;> rfl

@[simp] theorem nextLevelPhase_score_accumulator (delta : ℚ) (g : Game) :
    (nextLevelPhase delta g).score.accumulator = g.score.accumulator := by
  unfold nextLevelPhase; simp only []; split_ifs <;> rfl

@[simp] theorem nextLevelPhase_gameOverAccumulator (delta : ℚ) (g : Game) :
    (nextLevelPhase delta g).gameOverAccumulator = g.gameOverAccumulator := by
  unfold nextLevelPhase; simp only []; split_ifs <;> rfl

@[simp] theorem nextLevelPhase_completedGameAccumulator (delta : ℚ) (g : Game) :
    (nextLevelPhase delta g).completedGameAccumulator = g.completedGameAccumulator := by
  unfold nextLevelPhase; simp only []; split_ifs <;> rfl

@[simp] theorem backToMenu_blocks (g : Game) :
    (backToMenu g).blocks = g.blocks := rfl

@[simp] theorem backToMenu_ball (g : Game) :
    (backToMenu g).ball = g.ball := rfl

@[simp] theorem backToMenu_numberOfActiveBLocks (g : Game) :
    (backToMenu g).numberOfActiveBLocks = g.numberOfActiveBLocks := rfl

@[simp] theorem backToMenu_score_points (g : Game) :
    (backToMenu g).score.points = g.score.points := rfl

@[simp] theorem backToMenu_score_accumulator (g : Game) :
    (backToMenu g).score.accumulator = g.score.accumulator := rfl

@[simp] theorem backToMenu_nextLevelAccumulator (g : Game) :
    (backToMenu g).nextLevelAccumulator = g.nextLevelAccumulator := rfl

@[simp] theorem backToMenu_gameOverAccumulator (g : Game) :
    (backToMenu g).gameOverAccumulator = g.gameOverAccumulator := rfl

@[simp] theorem backToMenu_completedGameAccumulator (g : Game) :
    (backToMenu g).completedGameAccumulator = g.completedGameAccumulator := rfl

@[simp] theorem gameOverPhase_blocks (delta : ℚ) (g : Game) :
    (gameOverPhase delta g).blocks = g.blocks := by
  unfold gameOverPhase; simp only []; split_ifs <;> rfl

@[simp] theorem gameOverPhase_ball (delta : ℚ) (g : Game) :
    (gameOverPhase delta g).ball = g.ball := by
  unfold gameOverPhase; simp only []; split_ifs <;> rfl

@[simp] theorem gameOverPhase_numberOfActiveBLocks (delta : ℚ) (g : Game) :
    (gameOverPhase delta g).numberOfActiveBLocks = g.numberOfActiveBLocks := by
  unfold gameOverPhase; simp only []; split_ifs <;> rfl

@[simp] theorem gameOverPhase_score_points (delta : ℚ) (g : Game) :
    (gameOverPhase delta g).score.points = g.score.points := by
  unfold gameOverPhase; simp only []; split_ifs <;> rfl

@[simp] theorem gameOverPhase_score_accumulator (delta : ℚ) (g : Game) :
    (gameOverPhase delta g).score.accumulator = g.score.accumulator := by
  unfold gameOverPhase; simp only []; split_ifs <;> rfl

@[simp] theorem gameOverPhase_nextLevelAccumulator (delta : ℚ) (g : Game) :
    (gameOverPhase delta g).nextLevelAccumulator = g.nextLevelAccumulator := by
  unfold gameOverPhase; simp only []; split_ifs <;> rfl

@[simp] theorem gameOverPhase_completedGameAccumulator (delta : ℚ) (g : Game) :
    (gameOverPhase delta g).completedGameAccumulator = g.completedGameAccumulator := by
  unfold gameOverPhase; simp only []; split_ifs <;> rfl

@[simp] theorem completedGamePhase_blocks (delta : ℚ) (g : Game) :
    (completedGamePhase delta g).blocks = g.blocks := by
  unfold completedGamePhase; simp only []; split_ifs <;> rfl

@[simp] theorem completedGamePhase_ball (delta : ℚ) (g : Game) :
    (completedGamePhase delta g).ball = g.ball := by
  unfold completedGamePhase; simp only []; split_ifs <;> rfl

@[simp] theorem completedGamePhase_numberOfActiveBLocks (delta : ℚ) (g : Game) :
    (completedGamePhase delta g).numberOfActiveBLocks = g.numberOfActiveBLocks := by
  unfold completedGamePhase; simp only []; split_ifs <;> rfl

@[simp] theorem completedGamePhase_score_points (delta : ℚ) (g : Game) :
    (completedGamePhase delta g).score.points = g.score.points := by
  unfold completedGamePhase; simp only []; split_ifs <;> rfl

@[simp] theorem completedGamePhase_score_accumulator (delta : ℚ) (g : Game) :
    (completedGamePhase delta g).score.accumulator = g.score.accumulator := by
  unfold completedGamePhase; simp only []; split_ifs <;> rfl

@[simp] theorem completedGamePhase_nextLevelAccumulator (delta : ℚ) (g : Game) :
    (completedGamePhase delta g).nextLevelAccumulator = g.nextLevelAccumulator := by
  unfold completedGamePhase; simp only []; split_ifs <;> rfl

@[simp] theorem completedGamePhase_gameOverAccumulator (delta : ℚ) (g : Game) :
    (completedGamePhase delta g).gameOverAccumulator = g.gameOverAccumulator := by
  unfold completedGamePhase; simp only []; split_ifs <;> rfl

@[simp] theorem UpdateMenuBackground_blocks (delta : ℚ) (g : Game) :
    (UpdateMenuBackground delta g).blocks = g.blocks := by
  unfold UpdateMenuBackground; simp only []; split_ifs <;> rfl

@[simp] theorem UpdateMenuBackground_ball (delta : ℚ) (g : Game) :
    (UpdateMenuBackground delta g).ball = g.ball := by
  unfold UpdateMenuBackground; simp only []; split_ifs <;> rfl

@[simp] theorem UpdateMenuBackground_numberOfActiveBLocks (delta : ℚ) (g : Game) :
    (UpdateMenuBackground delta g).numberOfActiveBLocks = g.numberOfActiveBLocks := by
  unfold UpdateMenuBackground; simp only []; split_ifs <;> rfl

@[simp] theorem UpdateMenuBackground_currentGameState (delta : ℚ) (g : Game) :
    (UpdateMenuBackground delta g).currentGameState = g.currentGameState := by
  unfold UpdateMenuBackground; simp only []; split_ifs <;> rfl

@[simp] theorem UpdateMenuBackground_currentMenuState (delta : ℚ) (g : Game) :
    (UpdateMenuBackground delta g).currentMenuState = g.currentMenuState := by
  unfold UpdateMenuBackground; simp only []; split_ifs <;> rfl

@[simp] theorem UpdateMenuBackground_score (delta : ℚ) (g : Game) :
    (UpdateMenuBackground delta g).score = g.score := by
  unfold UpdateMenuBackground; simp only []; split_ifs <;> rfl

@[simp] theorem UpdateMenuBackground_nextLevelAccumulator (delta : ℚ) (g : Game) :
    (UpdateMenuBackground delta g).nextLevelAccumulator = g.nextLevelAccumulator := by
  unfold UpdateMenuBackground; simp only []; split_ifs <;> rfl

@[simp] theorem UpdateMenuBackground_gameOverAccumulator (delta : ℚ) (g : Game) :
    (UpdateMenuBackground delta g).gameOverAccumulator = g.gameOverAccumulator := by
  unfold UpdateMenuBackground; simp only []; split_ifs <;> rfl

@[simp] theorem UpdateMenuBackground_completedGameAccumulator (delta : ℚ) (g : Game) :
    (UpdateMenuBackground delta g).completedGameAccumulator = g.completedGameAccumulator := by
  unfold UpdateMenuBackground; simp only []; split_ifs <;> rfl

@[simp] theorem menuRootPhase_blocks (delta : ℚ) (inp : Input) (g : Game) :
    (menuRootPhase delta inp g).blocks = g.blocks := by
  unfold menuRootPhase; simp only []; split_ifs <;> simp

@[simp] theorem menuRootPhase_ball (delta : ℚ) (inp : Input) (g : Game) :
    (menuRootPhase delta inp g).ball = g.ball := by
  unfold menuRootPhase; simp only []; split_ifs <;> simp

@[simp] theorem menuRootPhase_numberOfActiveBLocks (delta : ℚ) (inp : Input) (g : Game) :
    (menuRootPhase delta inp g).numberOfActiveBLocks = g.numberOfActiveBLocks := by
  unfold menuRootPhase; simp only []; split_ifs <;> simp

@[simp] theorem menuRootPhase_currentGameState (delta : ℚ) (inp : Input) (g : Game) :
    (menuRootPhase delta inp g).currentGameState = g.currentGameState := by
  unfold menuRootPhase; simp only []; split_ifs <;> simp

@[simp] theorem menuRootPhase_score (delta : ℚ) (inp : Input) (g : Game) :
    (menuRootPhase delta inp g).score = g.score := by
  unfold menuRootPhase; simp only []; split_ifs <;> simp

@[simp] theorem menuRootPhase_nextLevelAccumulator (delta : ℚ) (inp : Input) (g : Game) :
    (menuRootPhase delta inp g).nextLevelAccumulator = g.nextLevelAccumulator := by
  unfold menuRootPhase; simp only []; split_ifs <;> simp

@[simp] theorem menuRootPhase_gameOverAccumulator (delta : ℚ) (inp : Input) (g : Game) :
    (menuRootPhase delta inp g).gameOverAccumulator = g.gameOverAccumulator := by
  unfold menuRootPhase; simp only []; split_ifs <;> simp

@[simp] theorem menuRootPhase_completedGameAccumulator (delta : ℚ) (inp : Input) (g : Game) :
    (menuRootPhase delta inp g).completedGameAccumulator = g.completedGameAccumulator := by
  unfold menuRootPhase; simp only []; split_ifs <;> simp

@[simp] theorem instructionsPhase_blocks (delta : ℚ) (inp : Input) (g : Game) :
    (instructionsPhase delta inp g).blocks = g.blocks := by
  unfold instructionsPhase; simp only []; split_ifs <;> simp

@[simp] theorem instructionsPhase_ball (delta : ℚ) (inp : Input) (g : Game) :
    (instructionsPhase delta inp g).ball = g.ball := by
  unfold instructionsPhase; simp only []; split_ifs <;> simp

@[simp] theorem instructionsPhase_numberOfActiveBLocks (delta : ℚ) (inp : Input) (g : Game) :
    (instructionsPhase delta inp g).numberOfActiveBLocks = g.numberOfActiveBLocks := by
  unfold instructionsPhase; simp only []; split_ifs <;> simp

@[simp] theorem instructionsPhase_currentGameState (delta : ℚ) (inp : Input) (g : Game) :
    (instructionsPhase delta inp g).currentGameState = g.currentGameState := by
  unfold instructionsPhase; simp only []; split_ifs <;> simp

@[simp] theorem instructionsPhase_score (delta : ℚ) (inp : Input) (g : Game) :
    (instructionsPhase delta inp g).score = g.score := by
  unfold instructionsPhase; simp only []; split_ifs <;> simp

@[simp] theorem instructionsPhase_nextLevelAccumulator (delta : ℚ) (inp : Input) (g : Game) :
    (instructionsPhase delta inp g).nextLevelAccumulator = g.nextLevelAccumulator := by
  unfold instructionsPhase; simp only []; split_ifs <;> simp

@[simp] theorem instructionsPhase_gameOverAccumulator (delta : ℚ) (inp : Input) (g : Game) :
    (instructionsPhase delta inp g).gameOverAccumulator = g.gameOverAccumulator := by
  unfold instructionsPhase; simp only []; split_ifs <;> simp

@[simp] theorem instructionsPhase_completedGameAccumulator (delta : ℚ) (inp : Input) (g : Game) :
    (instructionsPhase delta inp g).completedGameAccumulator = g.completedGameAccumulator := by
  unfold instructionsPhase; simp only []; split_ifs <;> simp
theorem evalResult_frame (g : Game) (b : Block) :
    (evalResult g b).1.currentMenuState = g.currentMenuState ∧
    (evalResult g b).1.nextLevelAccumulator = g.nextLevelAccumulator ∧
    (evalResult g b).1.gameOverAccumulator = g.gameOverAccumulator ∧
    (evalResult g b).1.completedGameAccumulator = g.completedGameAccumulator ∧
    (evalResult g b).1.score.level = g.score.level ∧
    (evalResult g b).1.score.accumulator = g.score.accumulator := by
  unfold evalResult; simp only []
  split_ifs <;> simp

theorem ballVsBlocks_frame (g : Game) :
    (ballVsBlocks g).currentMenuState = g.currentMenuState ∧
    (ballVsBlocks g).nextLevelAccumulator = g.nextLevelAccumulator ∧
    (ballVsBlocks g).gameOverAccumulator = g.gameOverAccumulator ∧
    (ballVsBlocks g).completedGameAccumulator = g.completedGameAccumulator ∧
    (ballVsBlocks g).score.level = g.score.level ∧
    (ballVsBlocks g).score.accumulator = g.score.accumulator := by
  unfold ballVsBlocks; simp only []
  rcases ballVsBlocksLoop_cases g g.blocks with ⟨h, _⟩ | ⟨pre, b, post, _, _, _, _, h⟩
  · rw [h]; simp
  · rw [h]; exact evalResult_frame _ b

@[simp] theorem ballVsBlocks_currentMenuState (g : Game) :
    (ballVsBlocks g).currentMenuState = g.currentMenuState := (ballVsBlocks_frame g).1

@[simp] theorem ballVsBlocks_nextLevelAccumulator (g : Game) :
    (ballVsBlocks g).nextLevelAccumulator = g.nextLevelAccumulator := (ballVsBlocks_frame g).2.1

@[simp] theorem ballVsBlocks_gameOverAccumulator (g : Game) :
    (ballVsBlocks g).gameOverAccumulator = g.gameOverAccumulator := (ballVsBlocks_frame g).2.2.1

@[simp] theorem ballVsBlocks_completedGameAccumulator (g : Game) :
    (ballVsBlocks g).completedGameAccumulator = g.completedGameAccumulator :=
  (ballVsBlocks_frame g).2.2.2.1

@[simp] theorem ballVsBlocks_score_level (g : Game) :
    (ballVsBlocks g).score.level = g.score.level := (ballVsBlocks_frame g).2.2.2.2.1

@[simp] theorem ballVsBlocks_score_accumulator (g : Game) :
    (ballVsBlocks g).score.accumulator = g.score.accumulator := (ballVsBlocks_frame g).2.2.2.2.2

@[simp] theorem playPhase_currentMenuState (delta : ℚ) (inp : Input) (g : Game) :
    (playPhase delta inp g).currentMenuState = g.currentMenuState := by
  simp [playPhase]

@[simp] theorem playPhase_nextLevelAccumulator (delta : ℚ) (inp : Input) (g : Game) :
    (playPhase delta inp g).nextLevelAccumulator = g.nextLevelAccumulator := by
  simp [playPhase]

@[simp] theorem playPhase_gameOverAccumulator (delta : ℚ) (inp : Input) (g : Game) :
    (playPhase delta inp g).gameOverAccumulator = g.gameOverAccumulator := by
  simp [playPhase]

@[simp] theorem playPhase_completedGameAccumulator (delta : ℚ) (inp : Input) (g : Game) :
    (playPhase delta inp g).completedGameAccumulator = g.completedGameAccumulator := by
  simp [playPhase]

@[simp] theorem playPhase_score_level (delta : ℚ) (inp : Input) (g : Game) :
    (playPhase delta inp g).score.level = g.score.level := by
  simp [playPhase]
theorem menuChain_session (delta : ℚ) (inp : Input) (g : Game)
    (h : g.currentMenuState ≠ MENUSTATE_NEW_GAME) :
    (menuChain delta inp g).blocks = g.blocks ∧
    (menuChain delta inp g).ball = g.ball ∧
    (menuChain delta inp g).paddle = g.paddle ∧
    (menuChain delta inp g).numberOfActiveBLocks = g.numberOfActiveBLocks ∧
    (menuChain delta inp g).score.points = g.score.points ∧
    (menuChain delta inp g).score.accumulator = g.score.accumulator := by
  unfold menuChain; split_ifs <;> simp

theorem beforeMenuChain_session (delta : ℚ) (inp : Input) (g : Game)
    (h : g.currentGameState = GAMESTATE_PLAY) :
    (beforeMenuChain delta inp g).blocks = (playPhase delta inp g).blocks ∧
    (beforeMenuChain delta inp g).ball = (playPhase delta inp g).ball ∧
    (beforeMenuChain delta inp g).numberOfActiveBLocks = (playPhase delta inp g).numberOfActiveBLocks ∧
    (beforeMenuChain delta inp g).score.points = (playPhase delta inp g).score.points ∧
    (beforeMenuChain delta inp g).score.accumulator = (playPhase delta inp g).score.accumulator := by
  unfold beforeMenuChain; simp only [h, if_true]; split_ifs <;> simp

theorem beforeMenuChain_currentMenuState (delta : ℚ) (inp : Input) (g : Game)
    (h : g.currentGameState = GAMESTATE_PLAY)
    (hmenu : g.currentMenuState ≠ MENUSTATE_NEW_GAME)
    (hnl : g.nextLevelAccumulator + delta ≤ TIME_TO_SHOW_NEXT_LEVEL) :
    (beforeMenuChain delta inp g).currentMenuState ≠ MENUSTATE_NEW_GAME := by
  have hnl' : ¬ g.nextLevelAccumulator + delta > TIME_TO_SHOW_NEXT_LEVEL := not_lt.mpr hnl
  unfold beforeMenuChain; simp only [h, if_true]
  unfold nextLevelPhase gameOverPhase backToMenu
  simp only [playPhase_nextLevelAccumulator, hnl', if_false]
  split_ifs <;> simp [hmenu]

/-- A tick that starts in PLAY and does not start a new game leaves the session data as the
PLAY phase left them. -/
theorem GameUpdate_session_of_play (delta : ℚ) (inp : Input) (g : Game)
    (h : g.currentGameState = GAMESTATE_PLAY)
    (hmenu : g.currentMenuState ≠ MENUSTATE_NEW_GAME)
    (hnl : g.nextLevelAccumulator + delta ≤ TIME_TO_SHOW_NEXT_LEVEL) :
    (GameUpdate delta inp g).blocks = (playPhase delta inp g).blocks ∧
    (GameUpdate delta inp g).ball = (playPhase delta inp g).ball ∧
    (GameUpdate delta inp g).paddle = (playPhase delta inp g).paddle ∧
    (GameUpdate delta inp g).numberOfActiveBLocks = (playPhase delta inp g).numberOfActiveBLocks ∧
    (GameUpdate delta inp g).score.points = (playPhase delta inp g).score.points ∧
    (GameUpdate delta inp g).score.accumulator = (playPhase delta inp g).score.accumulator := by
  have hm := menuChain_session delta inp _ (beforeMenuChain_currentMenuState delta inp g h hmenu hnl)
  have hb := beforeMenuChain_session delta inp g h
  have hp := beforeMenuChain_paddle delta inp g h
  rw [GameUpdate_eq]
  exact ⟨hm.1.trans hb.1, hm.2.1.trans hb.2.1, hm.2.2.1.trans hp, hm.2.2.2.1.trans hb.2.2.1,
    hm.2.2.2.2.1.trans hb.2.2.2.1, hm.2.2.2.2.2.trans hb.2.2.2.2⟩

theorem forall₂_comp {α : Type} {R S : α → α → Prop} {l₁ l₂ l₃ : List α}
    (h₁ : List.Forall₂ R l₁ l₂) (h₂ : List.Forall₂ S l₂ l₃) :
    List.Forall₂ (fun a c => ∃ b, R a b ∧ S b c) l₁ l₃ := by
  induction h₁ generalizing l₃ with
  | nil => cases h₂; exact List.Forall₂.nil
  | cons hab _ ih =>
    cases h₂ with
    | cons hbc htl => exact List.Forall₂.cons ⟨_, hab, hbc⟩ (ih htl)

@[simp] theorem updateAttached_health (delta : ℚ) (b : Block) :
    (updateAttached delta b).health = b.health := by
  unfold updateAttached; simp only []; split_ifs <;> rfl

@[simp] theorem updateAttached_pos (delta : ℚ) (b : Block) :
    (updateAttached delta b).pos = b.pos := by
  unfold updateAttached; simp only []; split_ifs <;> rfl

@[simp] theorem updateAttached_type (delta : ℚ) (b : Block) :
    (updateAttached delta b).type = b.type := by
  unfold updateAttached; simp only []; split_ifs <;> rfl

theorem forall₂_scanStep_refl (bs : List Block) : List.Forall₂ scanStep bs bs :=
  List.forall₂_same.mpr (fun _ _ => Or.inl rfl)

theorem evalResult_block (g : Game) (b : Block) :
    (evalResult g b).2.health = toggleHealth b.health ∧ (evalResult g b).2.pos = b.pos ∧
      (evalResult g b).2.type = b.type := by
  unfold evalResult; simp only []; split_ifs <;> simp

theorem ballVsBlocks_scanStep (g : Game) : List.Forall₂ scanStep g.blocks (ballVsBlocks g).blocks := by
  unfold ballVsBlocks; simp only []
  rcases ballVsBlocksLoop_cases g g.blocks with ⟨h, _⟩ | ⟨pre, b, post, hbs, _, hb, _, h⟩
  · rw [h]; exact forall₂_scanStep_refl _
  · rw [h, hbs]
    refine List.rel_append (forall₂_scanStep_refl pre) (List.Forall₂.cons ?_ (forall₂_scanStep_refl post))
    exact Or.inr ⟨hb, evalResult_block _ b⟩

theorem lowerBlocks_afterScan (delta : ℚ) (stray : Block) (g : Game) :
    List.Forall₂ afterScan g.blocks (lowerBlocks delta stray g).blocks := by
  unfold lowerBlocks; simp only []
  split_ifs
  · exact List.forall₂_same.mpr (fun _ _ => ⟨rfl, rfl, rfl⟩)
  · simp only [List.forall₂_map_right_iff]
    exact List.forall₂_same.mpr (fun _ _ => ⟨rfl, rfl, rfl⟩)
  · exact List.forall₂_same.mpr (fun _ _ => ⟨rfl, rfl, rfl⟩)

theorem levelRules_afterScan (delta : ℚ) (stray : Block) (g : Game) :
    List.Forall₂ afterScan g.blocks (levelRules delta stray g).blocks := by
  unfold levelRules; simp only []
  split_ifs
  · exact List.forall₂_same.mpr (fun _ _ => ⟨rfl, rfl, rfl⟩)
  · exact lowerBlocks_afterScan delta stray g
  · exact lowerBlocks_afterScan delta stray g
  · exact lowerBlocks_afterScan delta stray g
  · exact List.forall₂_same.mpr (fun _ _ => ⟨rfl, rfl, rfl⟩)

theorem playPhase_blocks (delta : ℚ) (inp : Input) (g : Game) :
    List.Forall₂ (fun b b' => ∃ c, scanStep b c ∧ afterScan c b') g.blocks
      (playPhase delta inp g).blocks := by
  have h1 := ballVsBlocks_scanStep (ballMovement (paddleVsWindow (paddleMovement g)))
  simp only [ballMovement_blocks, paddleVsWindow_blocks, paddleMovement_blocks] at h1
  have h2 := levelRules_afterScan delta inp.strayBlock
    (blockAttachments delta (ballVsWindow (ballVsPaddle
      (ballVsBlocks (ballMovement (paddleVsWindow (paddleMovement g)))))))
  have h3 : List.Forall₂ afterScan
      (ballVsBlocks (ballMovement (paddleVsWindow (paddleMovement g)))).blocks
      (playPhase delta inp g).blocks := by
    have h4 : List.Forall₂ afterScan
        (ballVsBlocks (ballMovement (paddleVsWindow (paddleMovement g)))).blocks
        (blockAttachments delta (ballVsWindow (ballVsPaddle
          (ballVsBlocks (ballMovement (paddleVsWindow (paddleMovement g))))))).blocks := by
      simp only [blockAttachments, ballVsWindow_blocks, ballVsPaddle_blocks,
        List.forall₂_map_right_iff]
      exact List.forall₂_same.mpr (fun _ _ => ⟨by simp, by simp, by simp⟩)
    refine List.Forall₂.imp ?_ (forall₂_comp h4 h2)
    rintro a b ⟨c, ⟨h5, h6, h7⟩, ⟨h8, h9, h10⟩⟩
    exact ⟨h8.trans h5, h9.trans h6, h10.trans h7⟩
  exact forall₂_comp h1 h3


theorem blockDestroyed_blocks_irrel (g : Game) (X : List Block) :
    blockDestroyed { g with blocks := X } = { blockDestroyed g with blocks := X } := by
  unfold blockDestroyed; simp only []; split_ifs <;> rfl

theorem evalResult_blocks_irrel (g : Game) (X : List Block) (b : Block) :
    evalResult { g with blocks := X } b =
      ({ (evalResult g b).1 with blocks := X }, (evalResult g b).2) := by
  unfold evalResult; simp only [blockDestroyed_blocks_irrel]; split_ifs <;> rfl

theorem ballVsBlocksLoop_blocks_irrel (g : Game) (X : List Block) (bs : List Block) :
    ballVsBlocksLoop { g with blocks := X } bs =
      ({ (ballVsBlocksLoop g bs).1 with blocks := X }, (ballVsBlocksLoop g bs).2) := by
  induction bs with
  | nil => rfl
  | cons b rest ih =>
    unfold ballVsBlocksLoop
    simp only [ih]
    have := evalResult_blocks_irrel { g with ball := (faceTest g.ball b).1 } X b
    split_ifs
    · simp only [] at this ⊢; rw [this]
    · rfl
    · rfl

theorem ballVsBlocksLoop_insert_dead (g : Game) (pre post : List Block) (b0 : Block)
    (h0 : b0.health = 0) :
    ballVsBlocksLoop g (pre ++ b0 :: post) =
      ((ballVsBlocksLoop g (pre ++ post)).1,
        (ballVsBlocksLoop g (pre ++ post)).2.take pre.length ++
          b0 :: (ballVsBlocksLoop g (pre ++ post)).2.drop pre.length) := by
  induction pre with
  | nil => simp [ballVsBlocksLoop, h0]
  | cons c pre ih =>
    simp only [List.cons_append, ballVsBlocksLoop]
    split_ifs <;> simp [ih]

theorem ballVsBlocks_insert_dead (g : Game) (pre post : List Block) (b0 : Block)
    (h0 : b0.health = 0) :
    ballVsBlocks { g with blocks := pre ++ b0 :: post } =
      { ballVsBlocks { g with blocks := pre ++ post } with
        blocks := (ballVsBlocks { g with blocks := pre ++ post }).blocks.take pre.length ++
          b0 :: (ballVsBlocks { g with blocks := pre ++ post }).blocks.drop pre.length } := by
  unfold ballVsBlocks
  simp only [ballVsBlocksLoop_blocks_irrel, ballVsBlocksLoop_insert_dead g pre post b0 h0]


theorem evalResult_currentGameState (g : Game) (b : Block) :
    (evalResult g b).1.currentGameState = g.currentGameState ∨
      ((evalResult g b).1.numberOfActiveBLocks = 0 ∧
        ((evalResult g b).1.currentGameState = GAMESTATE_NEXT_LEVEL ∧ g.score.level ≠ 3 ∨
          (evalResult g b).1.currentGameState = GAMESTATE_COMPLETED_GAME ∧ g.score.level = 3)) := by
  unfold evalResult blockDestroyed; simp only []
  split_ifs <;> simp_all

theorem ballVsBlocks_currentGameState (g : Game) :
    (ballVsBlocks g).currentGameState = g.currentGameState ∨
      (ballVsBlocks g).currentGameState = GAMESTATE_NEXT_LEVEL ∨
      (ballVsBlocks g).currentGameState = GAMESTATE_COMPLETED_GAME := by
  unfold ballVsBlocks; simp only []
  rcases ballVsBlocksLoop_cases g g.blocks with ⟨h, _⟩ | ⟨pre, b, post, _, _, _, _, h⟩
  · left; rw [h]
  · rw [h]
    rcases evalResult_currentGameState { g with ball := (faceTest g.ball b).1 } b with
      h1 | ⟨_, ⟨h1, _⟩ | ⟨h1, _⟩⟩
    · left; exact h1
    · right; left; exact h1
    · right; right; exact h1

theorem ballVsWindow_currentGameState_cases (g : Game) :
    (ballVsWindow g).currentGameState = g.currentGameState ∨
      (ballVsWindow g).currentGameState = GAMESTATE_GAME_OVER := by
  unfold ballVsWindow; split_ifs <;> simp

theorem lowerBlocks_currentGameState_cases (delta : ℚ) (stray : Block) (g : Game) :
    (lowerBlocks delta stray g).currentGameState = g.currentGameState ∨
      (lowerBlocks delta stray g).currentGameState = GAMESTATE_GAME_OVER := by
  unfold lowerBlocks; simp only []; split_ifs <;> simp

theorem levelRules_currentGameState_cases (delta : ℚ) (stray : Block) (g : Game) :
    (levelRules delta stray g).currentGameState = g.currentGameState ∨
      (levelRules delta stray g).currentGameState = GAMESTATE_GAME_OVER := by
  unfold levelRules; simp only []
  split_ifs
  · left; rfl
  · exact lowerBlocks_currentGameState_cases delta stray g
  · exact lowerBlocks_currentGameState_cases delta stray g
  · exact lowerBlocks_currentGameState_cases delta stray g
  · left; rfl

theorem playPhase_currentGameState_cases (delta : ℚ) (inp : Input) (g : Game) :
    (playPhase delta inp g).currentGameState = g.currentGameState ∨
      (playPhase delta inp g).currentGameState = GAMESTATE_NEXT_LEVEL ∨
      (playPhase delta inp g).currentGameState = GAMESTATE_COMPLETED_GAME ∨
      (playPhase delta inp g).currentGameState = GAMESTATE_GAME_OVER := by
  unfold playPhase
  rcases levelRules_currentGameState_cases delta inp.strayBlock
    (blockAttachments delta (ballVsWindow (ballVsPaddle
      (ballVsBlocks (ballMovement (paddleVsWindow (paddleMovement g))))))) with h | h
  · rw [h, blockAttachments_currentGameState]
    rcases ballVsWindow_currentGameState_cases
      (ballVsPaddle (ballVsBlocks (ballMovement (paddleVsWindow (paddleMovement g))))) with h | h
    · rw [h, ballVsPaddle_currentGameState]
      rcases ballVsBlocks_currentGameState (ballMovement (paddleVsWindow (paddleMovement g))) with
        h | h | h
      · left; rw [h]; simp
      · right; left; exact h
      · right; right; left; exact h
    · right; right; right; exact h
  · right; right; right; exact h

/-- The state before the last chain of `GameUpdate` is in a proper phase, or it is the
transient `GAMESTATE_NONE` of a finished NEXT_LEVEL display with a new game requested. -/
theorem beforeMenuChain_phase (delta : ℚ) (inp : Input) (g : Game)
    (h : g.currentGameState ≠ GAMESTATE_NONE) :
    (beforeMenuChain delta inp g).currentGameState ≠ GAMESTATE_NONE ∨
      (beforeMenuChain delta inp g).currentMenuState = MENUSTATE_NEW_GAME := by
  have h1 : (if g.currentGameState = GAMESTATE_PLAY then playPhase delta inp g else g).currentGameState
      ≠ GAMESTATE_NONE := by
    split_ifs with hp
    · rcases playPhase_currentGameState_cases delta inp g with h' | h' | h' | h' <;> rw [h'] <;> simp [hp]
    · exact h
  unfold beforeMenuChain
  generalize (if g.currentGameState = GAMESTATE_PLAY then playPhase delta inp g else g) = g1 at h1
  simp only []
  by_cases hn : g1.currentGameState = GAMESTATE_NEXT_LEVEL
  · simp only [hn, if_true]
    unfold nextLevelPhase; simp only []
    split_ifs with ht <;> simp_all
  · simp only [hn, if_false]
    unfold gameOverPhase backToMenu; simp only []
    split_ifs <;> simp_all

theorem menuChain_phase (delta : ℚ) (inp : Input) (g : Game)
    (h : g.currentGameState ≠ GAMESTATE_NONE ∨ g.currentMenuState = MENUSTATE_NEW_GAME) :
    (menuChain delta inp g).currentGameState ≠ GAMESTATE_NONE := by
  unfold menuChain completedGamePhase backToMenu newGame
  simp only []
  split_ifs <;> simp_all

theorem GameUpdate_phase (delta : ℚ) (inp : Input) (g : Game)
    (h : g.currentGameState ≠ GAMESTATE_NONE) :
    (GameUpdate delta inp g).currentGameState ≠ GAMESTATE_NONE := by
  rw [GameUpdate_eq]
  exact menuChain_phase delta inp _ (beforeMenuChain_phase delta inp g h)

theorem handleEvent_phase (g : Game) (e : Event) (h : g.currentGameState ≠ GAMESTATE_NONE) :
    (handleEvent g e).currentGameState ≠ GAMESTATE_NONE := by
  cases e <;> simp only [handleEvent] <;> (try split_ifs) <;> simp_all

theorem pollEvents_phase (events : List Event) (g : Game) (h : g.currentGameState ≠ GAMESTATE_NONE) :
    (pollEvents g events).currentGameState ≠ GAMESTATE_NONE := by
  unfold pollEvents
  induction events generalizing g with
  | nil => exact h
  | cons e es ih => exact ih _ (handleEvent_phase g e h)

theorem run_phase (steps : List (List Event × Input)) (g : Game)
    (h : g.currentGameState ≠ GAMESTATE_NONE) :
    (run g steps).currentGameState ≠ GAMESTATE_NONE := by
  unfold run
  induction steps generalizing g with
  | nil => exact h
  | cons s ss ih => exact ih _ (GameUpdate_phase _ _ _ (pollEvents_phase s.1 g h))


theorem zip_self_ne {hp : List Int} : ∀ p ∈ List.zip hp hp, ¬ (p.1 ≠ 0 ∧ p.2 = 0) := by
  intro p hp'
  have : p.1 = p.2 := by
    induction hp with
    | nil => simp at hp'
    | cons a l ih =>
      simp only [List.zip_cons_cons, List.mem_cons] at hp'
      rcases hp' with rfl | h
      · rfl
      · exact ih h
  intro ⟨h1, h2⟩
  exact h1 (this.trans h2)

theorem zip_append_mid (hp hq : List Int) (a b : Int) :
    (∃ p ∈ List.zip (hp ++ a :: hq) (hp ++ b :: hq), p.1 ≠ 0 ∧ p.2 = 0) ↔ (a ≠ 0 ∧ b = 0) := by
  rw [List.zip_append rfl]
  simp only [List.zip_cons_cons, List.mem_append, List.mem_cons]
  constructor
  · rintro ⟨p, (h | rfl | h), hp'⟩
    · exact absurd hp' (zip_self_ne p h)
    · exact hp'
    · exact absurd hp' (zip_self_ne p h)
  · intro h
    exact ⟨(a, b), Or.inr (Or.inl rfl), h⟩

theorem countP_append_mid (hp hq : List Int) (a : Int) :
    (((hp ++ a :: hq).countP (fun h => h ≠ 0) : Nat) : Int) =
      ((hp.countP (fun h => h ≠ 0) : Nat) : Int) + (if a ≠ 0 then 1 else 0) +
        ((hq.countP (fun h => h ≠ 0) : Nat) : Int) := by
  rw [List.countP_append, List.countP_cons]
  by_cases h : a = 0
  · simp [h]
  · simp [h]; ring

/-- The three outcomes of the scan, on the list of healths and the counter. -/
theorem ballVsBlocks_healths (g : Game) :
    ((ballVsBlocks g).blocks.map (fun b => b.health) = g.blocks.map (fun b => b.health) ∧
        (ballVsBlocks g).numberOfActiveBLocks = g.numberOfActiveBLocks) ∨
      (∃ hp hq h, h ≠ 0 ∧ h ≠ 1 ∧ g.blocks.map (fun b => b.health) = hp ++ h :: hq ∧
        (ballVsBlocks g).blocks.map (fun b => b.health) = hp ++ 1 :: hq ∧
        (ballVsBlocks g).numberOfActiveBLocks = g.numberOfActiveBLocks) ∨
      (∃ hp hq, g.blocks.map (fun b => b.health) = hp ++ 1 :: hq ∧
        (ballVsBlocks g).blocks.map (fun b => b.health) = hp ++ 0 :: hq ∧
        (ballVsBlocks g).numberOfActiveBLocks = g.numberOfActiveBLocks - 1) := by
  unfold ballVsBlocks; simp only []
  rcases ballVsBlocksLoop_cases g g.blocks with ⟨h, _⟩ | ⟨pre, b, post, hbs, _, hb, _, h⟩
  · left; rw [h]; exact ⟨rfl, rfl⟩
  · right
    rw [h, hbs]
    by_cases h1 : b.health = 1
    · right
      refine ⟨pre.map (fun b => b.health), post.map (fun b => b.health), by simp [h1], ?_, ?_⟩
      · simp [evalResult, toggleHealth, h1]
      · simp [evalResult, toggleHealth, h1, blockDestroyed]
        split_ifs <;> rfl
    · left
      refine ⟨pre.map (fun b => b.health), post.map (fun b => b.health), b.health, hb, h1,
        by simp, ?_, ?_⟩
      · simp [evalResult, toggleHealth, h1]
        split_ifs <;> rfl
      · simp [evalResult, toggleHealth, h1]
        split_ifs <;> rfl

theorem lowerBlocks_healths (delta : ℚ) (stray : Block) (g : Game) :
    (lowerBlocks delta stray g).blocks.map (fun b => b.health) = g.blocks.map (fun b => b.health) := by
  unfold lowerBlocks; simp only []
  split_ifs
  · rfl
  · simp [List.map_map, Function.comp_def]
  · rfl

theorem levelRules_healths (delta : ℚ) (stray : Block) (g : Game) :
    (levelRules delta stray g).blocks.map (fun b => b.health) = g.blocks.map (fun b => b.health) := by
  unfold levelRules; simp only []
  split_ifs <;> first | rfl | exact lowerBlocks_healths delta stray g

theorem playPhase_healths (delta : ℚ) (inp : Input) (g : Game) :
    (playPhase delta inp g).blocks.map (fun b => b.health) =
        (ballVsBlocks (ballMovement (paddleVsWindow (paddleMovement g)))).blocks.map (fun b => b.health) ∧
      (playPhase delta inp g).numberOfActiveBLocks =
        (ballVsBlocks (ballMovement (paddleVsWindow (paddleMovement g)))).numberOfActiveBLocks := by
  unfold playPhase
  refine ⟨?_, by simp⟩
  rw [levelRules_healths]
  simp [blockAttachments, List.map_map, Function.comp_def]


theorem playPhase_counter (delta : ℚ) (inp : Input) (g : Game) :
    activeBlocks (playPhase delta inp g).blocks - (playPhase delta inp g).numberOfActiveBLocks =
        activeBlocks g.blocks - g.numberOfActiveBLocks ∧
      (reachesZero g.blocks (playPhase delta inp g).blocks →
        (playPhase delta inp g).numberOfActiveBLocks = g.numberOfActiveBLocks - 1) ∧
      (¬ reachesZero g.blocks (playPhase delta inp g).blocks →
        (playPhase delta inp g).numberOfActiveBLocks = g.numberOfActiveBLocks) := by
  obtain ⟨hh, hc⟩ := playPhase_healths delta inp g
  unfold activeBlocks reachesZero
  rw [hh, hc]
  have hG := ballVsBlocks_healths (ballMovement (paddleVsWindow (paddleMovement g)))
  simp only [ballMovement_blocks, paddleVsWindow_blocks, paddleMovement_blocks,
    ballMovement_numberOfActiveBLocks, paddleVsWindow_numberOfActiveBLocks,
    paddleMovement_numberOfActiveBLocks] at hG
  rcases hG with ⟨h1, h2⟩ | ⟨hp, hq, h, h0, h1, h2, h3, h4⟩ | ⟨hp, hq, h2, h3, h4⟩
  · rw [h1, h2]
    refine ⟨rfl, ?_, fun _ => rfl⟩
    rintro ⟨p, hp, hp'⟩
    exact absurd hp' (zip_self_ne p hp)
  · rw [h2, h3, h4, zip_append_mid, countP_append_mid, countP_append_mid]
    refine ⟨by simp [h0], ?_, fun _ => rfl⟩
    rintro ⟨-, h5⟩
    exact absurd h5 one_ne_zero
  · rw [h2, h3, h4, zip_append_mid, countP_append_mid, countP_append_mid]
    refine ⟨by simp; ring, fun _ => rfl, ?_⟩
    intro h5
    exact absurd ⟨one_ne_zero, rfl⟩ h5

theorem newBlocks_healths (rand : Nat → Nat) (c o : Int) (n i : Nat) (x y : Int) :
    (newBlocks rand c o n i x y).map (fun b => b.health) = List.replicate n 2 := by
  induction n generalizing i x y with
  | zero => rfl
  | succ n ih => simp [newBlocks, ih, newBlock, List.replicate_succ]

theorem newGame_counter (inp : Input) (g : Game) (h : 0 ≤ newNumberOfBlocks g) :
    (newGame inp g).numberOfActiveBLocks = activeBlocks (newGame inp g).blocks := by
  unfold activeBlocks
  simp only [newGame, newBlocks_healths]
  rw [List.countP_replicate]
  simp [h]

theorem handleEvent_session (g : Game) (e : Event) :
    (handleEvent g e).blocks = g.blocks ∧
      (handleEvent g e).numberOfActiveBLocks = g.numberOfActiveBLocks ∧
      (handleEvent g e).nextLevelAccumulator = g.nextLevelAccumulator ∧
      ((handleEvent g e).currentGameState = GAMESTATE_PLAY → g.currentGameState = GAMESTATE_PLAY) ∧
      ((handleEvent g e).currentMenuState = g.currentMenuState ∨
        (handleEvent g e).currentMenuState = MENUSTATE_NONE ∨
        (handleEvent g e).currentMenuState = MENUSTATE_EXIT) := by
  cases e <;> simp only [handleEvent] <;> (try split_ifs) <;> simp_all

theorem pollEvents_session (events : List Event) (g : Game) :
    (pollEvents g events).blocks = g.blocks ∧
      (pollEvents g events).numberOfActiveBLocks = g.numberOfActiveBLocks ∧
      (pollEvents g events).nextLevelAccumulator = g.nextLevelAccumulator ∧
      ((pollEvents g events).currentGameState = GAMESTATE_PLAY → g.currentGameState = GAMESTATE_PLAY) ∧
      ((pollEvents g events).currentMenuState = g.currentMenuState ∨
        (pollEvents g events).currentMenuState = MENUSTATE_NONE ∨
        (pollEvents g events).currentMenuState = MENUSTATE_EXIT) := by
  unfold pollEvents
  induction events generalizing g with
  | nil => simp
  | cons e es ih =>
    obtain ⟨h1, h2, h3, h4, h5⟩ := ih (handleEvent g e)
    obtain ⟨k1, k2, k3, k4, k5⟩ := handleEvent_session g e
    simp only [List.foldl_cons]
    refine ⟨h1.trans k1, h2.trans k2, h3.trans k3, fun h => k4 (h4 h), ?_⟩
    rcases h5 with h5 | h5 | h5
    · rw [h5]; exact k5
    · right; left; exact h5
    · right; right; exact h5

theorem GameUpdate_of_play (delta : ℚ) (inp : Input) (g : Game)
    (h : g.currentGameState = GAMESTATE_PLAY) :
    GameUpdate delta inp g = afterPlay delta inp (playPhase delta inp g) := by
  simp only [GameUpdate, afterPlay, h, if_true]

theorem GameUpdate_of_not_play (delta : ℚ) (inp : Input) (g : Game)
    (h : g.currentGameState ≠ GAMESTATE_PLAY) :
    GameUpdate delta inp g = afterPlay delta inp g := by
  simp only [GameUpdate, afterPlay, h, if_false]

theorem nextLevelPhase_currentGameState_ne (delta : ℚ) (p : Game)
    (h : p.currentGameState = GAMESTATE_NEXT_LEVEL) :
    (nextLevelPhase delta p).currentGameState ≠ GAMESTATE_GAME_OVER := by
  unfold nextLevelPhase; simp only []; split_ifs <;> simp [h]

theorem afterPlay_play (delta : ℚ) (inp : Input) (p : Game)
    (h : p.currentGameState = GAMESTATE_PLAY) :
    afterPlay delta inp p = menuChain delta inp p := by
  simp [afterPlay, h]

theorem afterPlay_nextLevel (delta : ℚ) (inp : Input) (p : Game)
    (h : p.currentGameState = GAMESTATE_NEXT_LEVEL) :
    afterPlay delta inp p = menuChain delta inp (nextLevelPhase delta p) := by
  simp [afterPlay, h, nextLevelPhase_currentGameState_ne delta p h]

theorem afterPlay_gameOver (delta : ℚ) (inp : Input) (p : Game)
    (h : p.currentGameState = GAMESTATE_GAME_OVER) :
    afterPlay delta inp p = menuChain delta inp (gameOverPhase delta p) := by
  simp [afterPlay, h]

theorem afterPlay_completedGame (delta : ℚ) (inp : Input) (p : Game)
    (h : p.currentGameState = GAMESTATE_COMPLETED_GAME) :
    afterPlay delta inp p = completedGamePhase delta p := by
  simp [afterPlay, h, menuChain]

theorem menuChain_idle (delta : ℚ) (inp : Input) (p : Game)
    (h1 : p.currentGameState ≠ GAMESTATE_COMPLETED_GAME) (h2 : p.currentGameState ≠ GAMESTATE_MENU)
    (hm : p.currentMenuState = MENUSTATE_NONE ∨ p.currentMenuState = MENUSTATE_EXIT) :
    menuChain delta inp p = p := by
  unfold menuChain
  rcases hm with hm | hm <;> simp [h1, h2, hm]

theorem menuChain_newGame (delta : ℚ) (inp : Input) (p : Game)
    (h1 : p.currentGameState ≠ GAMESTATE_COMPLETED_GAME)
    (hm : p.currentMenuState = MENUSTATE_NEW_GAME) :
    menuChain delta inp p = newGame inp p := by
  unfold menuChain
  simp [h1, hm]

theorem menuChain_root (delta : ℚ) (inp : Input) (p : Game)
    (h1 : p.currentGameState = GAMESTATE_MENU) (hm : p.currentMenuState = MENUSTATE_NONE) :
    menuChain delta inp p = menuRootPhase delta inp p := by
  unfold menuChain
  simp [h1, hm]

theorem nextLevelPhase_timeout (delta : ℚ) (p : Game)
    (h : p.nextLevelAccumulator + delta > TIME_TO_SHOW_NEXT_LEVEL) :
    nextLevelPhase delta p =
      { p with nextLevelAccumulator := p.nextLevelAccumulator + delta,
               score := { p.score with level := p.score.level + 1 },
               currentGameState := GAMESTATE_NONE,
               currentMenuState := MENUSTATE_NEW_GAME } := by
  simp [nextLevelPhase, h]

theorem nextLevelPhase_wait (delta : ℚ) (p : Game)
    (h : ¬ p.nextLevelAccumulator + delta > TIME_TO_SHOW_NEXT_LEVEL) :
    nextLevelPhase delta p = { p with nextLevelAccumulator := p.nextLevelAccumulator + delta } := by
  simp [nextLevelPhase, h]

theorem gameOverPhase_timeout (delta : ℚ) (p : Game)
    (h : p.gameOverAccumulator + delta > TIME_TO_SHOW_GAME_OVER) :
    gameOverPhase delta p =
      backToMenu { p with gameOverAccumulator := p.gameOverAccumulator + delta } := by
  simp [gameOverPhase, h]

theorem gameOverPhase_wait (delta : ℚ) (p : Game)
    (h : ¬ p.gameOverAccumulator + delta > TIME_TO_SHOW_GAME_OVER) :
    gameOverPhase delta p = { p with gameOverAccumulator := p.gameOverAccumulator + delta } := by
  simp [gameOverPhase, h]

theorem completedGamePhase_timeout (delta : ℚ) (p : Game)
    (h : p.completedGameAccumulator + delta > TIME_TO_SHOW_COMPLETED_GAME) :
    completedGamePhase delta p =
      backToMenu { p with completedGameAccumulator := p.completedGameAccumulator + delta } := by
  simp [completedGamePhase, h]

theorem completedGamePhase_wait (delta : ℚ) (p : Game)
    (h : ¬ p.completedGameAccumulator + delta > TIME_TO_SHOW_COMPLETED_GAME) :
    completedGamePhase delta p =
      { p with completedGameAccumulator := p.completedGameAccumulator + delta } := by
  simp [completedGamePhase, h]

/-- A tick from PLAY with no new game pending that ends in PLAY has not touched the menu state
and has a zero next-level display time. -/
theorem GameUpdate_play_stays (delta : ℚ) (inp : Input) (g : Game)
    (hplay : g.currentGameState = GAMESTATE_PLAY)
    (hmenu : g.currentMenuState = MENUSTATE_NONE ∨ g.currentMenuState = MENUSTATE_EXIT)
    (hacc : g.nextLevelAccumulator = 0)
    (hend : (GameUpdate delta inp g).currentGameState = GAMESTATE_PLAY) :
    ((GameUpdate delta inp g).currentMenuState = MENUSTATE_NONE ∨
        (GameUpdate delta inp g).currentMenuState = MENUSTATE_EXIT) ∧
      (GameUpdate delta inp g).nextLevelAccumulator = 0 := by
  have hm := playPhase_currentMenuState delta inp g
  have ha := playPhase_nextLevelAccumulator delta inp g
  rw [GameUpdate_of_play delta inp g hplay] at hend ⊢
  rw [← hm] at hmenu
  rw [← ha] at hacc
  have hcases := playPhase_currentGameState_cases delta inp g
  rw [hplay] at hcases
  generalize playPhase delta inp g = p at hmenu hacc hend hcases ⊢
  rcases hcases with hs | hs | hs | hs
  · rw [afterPlay_play _ _ _ hs, menuChain_idle _ _ _ (by simp [hs]) (by simp [hs]) hmenu]
    exact ⟨hmenu, hacc⟩
  · rw [afterPlay_nextLevel _ _ _ hs] at hend ⊢
    by_cases ht : p.nextLevelAccumulator + delta > TIME_TO_SHOW_NEXT_LEVEL
    · rw [nextLevelPhase_timeout _ _ ht, menuChain_newGame _ _ _ (by simp) rfl]
      simp [newGame]
    · rw [nextLevelPhase_wait _ _ ht, menuChain_idle delta inp
        { p with nextLevelAccumulator := p.nextLevelAccumulator + delta }
        (by simp [hs]) (by simp [hs]) hmenu] at hend
      simp [hs] at hend
  · rw [afterPlay_completedGame _ _ _ hs] at hend
    by_cases ht : p.completedGameAccumulator + delta > TIME_TO_SHOW_COMPLETED_GAME
    · rw [completedGamePhase_timeout _ _ ht] at hend; simp [backToMenu] at hend
    · rw [completedGamePhase_wait _ _ ht] at hend; simp [hs] at hend
  · rw [afterPlay_gameOver _ _ _ hs] at hend
    by_cases ht : p.gameOverAccumulator + delta > TIME_TO_SHOW_GAME_OVER
    · rw [gameOverPhase_timeout _ _ ht, menuChain_root _ _ _ rfl rfl] at hend
      simp [backToMenu] at hend
    · rw [gameOverPhase_wait _ _ ht, menuChain_idle delta inp
        { p with gameOverAccumulator := p.gameOverAccumulator + delta }
        (by simp [hs]) (by simp [hs]) hmenu] at hend
      simp [hs] at hend


theorem tick_of_playInv (g : Game) (events : List Event) (inp : Input) (hinv : PlayInv g)
    (hplay : (pollEvents g events).currentGameState = GAMESTATE_PLAY) :
    (tick g (events, inp)).blocks = (playPhase TIME_STEP inp (pollEvents g events)).blocks ∧
      (tick g (events, inp)).numberOfActiveBLocks =
        (playPhase TIME_STEP inp (pollEvents g events)).numberOfActiveBLocks ∧
      (pollEvents g events).blocks = g.blocks ∧
      (pollEvents g events).numberOfActiveBLocks = g.numberOfActiveBLocks ∧
      ((pollEvents g events).currentMenuState = MENUSTATE_NONE ∨
        (pollEvents g events).currentMenuState = MENUSTATE_EXIT) ∧
      (pollEvents g events).nextLevelAccumulator = 0 := by
  obtain ⟨k1, k2, k3, k4, k5⟩ := pollEvents_session events g
  obtain ⟨hm, hacc⟩ := hinv.2 (k4 hplay)
  have hm' : (pollEvents g events).currentMenuState = MENUSTATE_NONE ∨
      (pollEvents g events).currentMenuState = MENUSTATE_EXIT := by
    rcases k5 with h | h | h
    · rw [h]; exact hm
    · left; exact h
    · right; exact h
  have hs := GameUpdate_session_of_play TIME_STEP inp (pollEvents g events) hplay
    (by rcases hm' with h | h <;> simp [h])
    (by rw [k3, hacc]; norm_num [TIME_STEP, TIME_TO_SHOW_NEXT_LEVEL])
  exact ⟨hs.1, hs.2.2.2.1, k1, k2, hm', k3.trans hacc⟩

theorem playReachable_inv (g : Game) (h : PlayReachable g) : PlayInv g := by
  induction h with
  | newGame inp g hn => exact ⟨newGame_counter inp g hn, fun _ => ⟨Or.inl rfl, rfl⟩⟩
  | tick g events inp _ hplay ih =>
    obtain ⟨t1, t2, t3, t4, t5, t6⟩ := tick_of_playInv g events inp ih hplay
    constructor
    · have := (playPhase_counter TIME_STEP inp (pollEvents g events)).1
      rw [t1, t2]
      rw [t3, t4, ih.1] at this
      linarith
    · intro hend
      exact GameUpdate_play_stays TIME_STEP inp (pollEvents g events) hplay t5 t6 hend


theorem evalResult_counter (g : Game) (b : Block) :
    ((evalResult g b).1.numberOfActiveBLocks = g.numberOfActiveBLocks ∧
        (evalResult g b).1.currentGameState = g.currentGameState) ∨
      ((evalResult g b).1.numberOfActiveBLocks = g.numberOfActiveBLocks - 1 ∧
        (evalResult g b).1.currentGameState =
          if g.numberOfActiveBLocks - 1 = 0 then
            (if g.score.level = 3 then GAMESTATE_COMPLETED_GAME else GAMESTATE_NEXT_LEVEL)
          else g.currentGameState) := by
  unfold evalResult blockDestroyed; simp only []
  split_ifs <;> simp_all

theorem ballVsBlocks_counter (g : Game) :
    ((ballVsBlocks g).numberOfActiveBLocks = g.numberOfActiveBLocks ∧
        (ballVsBlocks g).currentGameState = g.currentGameState) ∨
      ((ballVsBlocks g).numberOfActiveBLocks = g.numberOfActiveBLocks - 1 ∧
        (ballVsBlocks g).currentGameState =
          if g.numberOfActiveBLocks - 1 = 0 then
            (if g.score.level = 3 then GAMESTATE_COMPLETED_GAME else GAMESTATE_NEXT_LEVEL)
          else g.currentGameState) := by
  unfold ballVsBlocks; simp only []
  rcases ballVsBlocksLoop_cases g g.blocks with ⟨h, _⟩ | ⟨pre, b, post, _, _, _, _, h⟩
  · left; rw [h]; exact ⟨rfl, rfl⟩
  · rw [h]; exact evalResult_counter { g with ball := (faceTest g.ball b).1 } b

theorem ballVsWindow_currentGameState_eq (g : Game) :
    (ballVsWindow g).currentGameState =
      if g.ball.pos.y + BALL_HEIGHT > WINDOW_HEIGHT then GAMESTATE_GAME_OVER else g.currentGameState := by
  unfold ballVsWindow; split_ifs <;> rfl

theorem lowerBlocks_currentGameState_eq (delta : ℚ) (stray : Block) (g : Game) :
    (lowerBlocks delta stray g).currentGameState =
      if g.score.accumulator + delta > TIME_BETWEEN_LOWERING_BLOCKS ∧
          (g.blocks.getLastD stray).pos.y > g.paddle.pos.y - (g.paddle.size.y * 6) then
        GAMESTATE_GAME_OVER
      else g.currentGameState := by
  unfold lowerBlocks; simp only []
  by_cases h1 : g.score.accumulator + delta > TIME_BETWEEN_LOWERING_BLOCKS
  · by_cases h2 : (g.blocks.getLastD stray).pos.y > g.paddle.pos.y - (g.paddle.size.y * 6)
    · simp only [h1, h2, if_true, and_self]
    · simp only [h1, h2, if_true, if_false, and_false]
  · simp only [h1, if_false, false_and]

theorem levelRules_currentGameState_eq (delta : ℚ) (stray : Block) (g : Game) :
    (levelRules delta stray g).currentGameState =
      if (g.score.level = 2 ∨ g.score.level = 3) ∧
          g.score.accumulator + delta > TIME_BETWEEN_LOWERING_BLOCKS ∧
          (g.blocks.getLastD stray).pos.y > g.paddle.pos.y - (g.paddle.size.y * 6) then
        GAMESTATE_GAME_OVER
      else g.currentGameState := by
  have hl := lowerBlocks_currentGameState_eq delta stray g
  by_cases h1 : g.score.level = 1
  · simp [levelRules, h1]
  · by_cases h2 : g.score.level = 2
    · simp only [levelRules, h1, h2, if_true, if_false, true_or, true_and]
      exact hl
    · by_cases h3 : g.score.level = 3
      · have e : (levelRules delta stray g).currentGameState =
            (lowerBlocks delta stray g).currentGameState := by
          unfold levelRules
          simp only [h3, show ¬ ((3 : Int) = 1) by decide, show ¬ ((3 : Int) = 2) by decide,
            if_false, if_true]
          split_ifs <;> rfl
        rw [e, hl]
        simp only [h3, or_true, true_and]
      · simp only [levelRules, h1, h2, h3, if_false, or_self, false_and]

theorem getLastD_pos_of_forall₂ {l l' : List Block} (s s' : Block) (hs : s'.pos = s.pos)
    (h : List.Forall₂ (fun b b' => b'.pos = b.pos) l l') :
    (l'.getLastD s').pos = (l.getLastD s).pos := by
  induction h generalizing s s' with
  | nil => exact hs
  | cons hab _ ih =>
    simp only [List.getLastD_cons]
    exact ih _ _ hab


@[simp] theorem paddleVsWindow_paddle_pos_y (g : Game) :
    (paddleVsWindow g).paddle.pos.y = g.paddle.pos.y := by
  unfold paddleVsWindow; split_ifs <;> rfl

theorem ballVsBlocks_paddle_y (g : Game) :
    (ballVsBlocks g).paddle.pos.y = g.paddle.pos.y ∧ (ballVsBlocks g).paddle.size.y = g.paddle.size.y := by
  rcases ballVsBlocks_paddle g with h | ⟨h, -⟩ <;> rw [h] <;> simp [grownPaddle]

theorem beforeLevelRules_frame (delta : ℚ) (inp : Input) (g : Game) :
    (beforeLevelRules delta g).score.level = g.score.level ∧
    (beforeLevelRules delta g).score.accumulator = g.score.accumulator ∧
    (beforeLevelRules delta g).paddle.pos.y = g.paddle.pos.y ∧
    (beforeLevelRules delta g).paddle.size.y = g.paddle.size.y ∧
    ((beforeLevelRules delta g).blocks.getLastD inp.strayBlock).pos =
      (g.blocks.getLastD inp.strayBlock).pos := by
  unfold beforeLevelRules
  refine ⟨by simp, by simp, ?_, ?_, ?_⟩
  · simp [(ballVsBlocks_paddle_y _).1]
  · simp [(ballVsBlocks_paddle_y _).2]
  · refine getLastD_pos_of_forall₂ _ _ rfl ?_
    have h1 := ballVsBlocks_scanStep (ballMovement (paddleVsWindow (paddleMovement g)))
    simp only [ballMovement_blocks, paddleVsWindow_blocks, paddleMovement_blocks] at h1
    simp only [blockAttachments, ballVsWindow_blocks, ballVsPaddle_blocks,
      List.forall₂_map_right_iff]
    refine List.Forall₂.imp ?_ h1
    rintro a b (rfl | ⟨-, -, h, -⟩)
    · simp
    · simp [h]

theorem playPhase_currentGameState_eq (delta : ℚ) (inp : Input) (g : Game) :
    (playPhase delta inp g).currentGameState =
      if ballLost g ∨ descentDanger delta inp g then GAMESTATE_GAME_OVER
      else (ballVsBlocks (ballMovement (paddleVsWindow (paddleMovement g)))).currentGameState := by
  obtain ⟨f1, f2, f3, f4, f5⟩ := beforeLevelRules_frame delta inp g
  have e : playPhase delta inp g = levelRules delta inp.strayBlock (beforeLevelRules delta g) := rfl
  rw [e, levelRules_currentGameState_eq, f1, f2, f3, f4, f5]
  have e2 : (beforeLevelRules delta g).currentGameState =
      if ballLost g then GAMESTATE_GAME_OVER
      else (ballVsBlocks (ballMovement (paddleVsWindow (paddleMovement g)))).currentGameState := by
    unfold beforeLevelRules ballLost
    rw [blockAttachments_currentGameState, ballVsWindow_currentGameState_eq]
    simp only [ballVsPaddle_currentGameState]
    have : (ballVsPaddle (ballVsBlocks (ballMovement (paddleVsWindow (paddleMovement g))))).ball.pos =
        (ballVsBlocks (ballMovement (paddleVsWindow (paddleMovement g)))).ball.pos := by
      unfold ballVsPaddle; split_ifs <;> rfl
    rw [this]
  rw [e2]
  unfold descentDanger
  by_cases h1 : ballLost g <;>
  by_cases h2 : ((g.score.level = 2 ∨ g.score.level = 3) ∧
      g.score.accumulator + delta > TIME_BETWEEN_LOWERING_BLOCKS ∧
      (g.blocks.getLastD inp.strayBlock).pos.y > g.paddle.pos.y - g.paddle.size.y * 6) <;>
  simp [h1, h2]


theorem ballVsBlocksLoop_skip (g : Game) (pre rest : List Block)
    (hpre : ∀ c ∈ pre, c.health ≠ 0 → (faceTest g.ball c).2 = false) :
    ballVsBlocksLoop g (pre ++ rest) =
      ((ballVsBlocksLoop g rest).1, pre ++ (ballVsBlocksLoop g rest).2) := by
  induction pre with
  | nil => rfl
  | cons c pre ih =>
    have ih' := ih (fun x hx => hpre x (List.mem_cons_of_mem c hx))
    have hc := hpre c (List.mem_cons_self c pre)
    simp only [List.cons_append, ballVsBlocksLoop]
    by_cases h0 : c.health ≠ 0
    · simp [h0, hc h0, ih']
    · simp [h0, ih']

/-- The scan when its first match is the block `b`: the blocks in front of `b` are destroyed or
not matched, `b` is not destroyed and matched. -/
theorem ballVsBlocks_first_match (g : Game) (pre post : List Block) (b : Block)
    (hblocks : g.blocks = pre ++ b :: post)
    (hpre : ∀ c ∈ pre, c.health ≠ 0 → (faceTest g.ball c).2 = false)
    (hb : b.health ≠ 0) (hhit : (faceTest g.ball b).2 = true) :
    ballVsBlocks g =
      { (evalResult { g with ball := (faceTest g.ball b).1 } b).1 with
        blocks := pre ++ (evalResult { g with ball := (faceTest g.ball b).1 } b).2 :: post } := by
  have e : ballVsBlocksLoop g g.blocks =
      ((evalResult { g with ball := (faceTest g.ball b).1 } b).1,
        pre ++ (evalResult { g with ball := (faceTest g.ball b).1 } b).2 :: post) := by
    conv_lhs => rw [hblocks, ballVsBlocksLoop_skip g pre (b :: post) hpre]
    simp [ballVsBlocksLoop, hb, hhit]
  unfold ballVsBlocks
  simp only [e]


theorem faceTest_pos_y (ball : Ball) (b : Block) (h : ball.pos.y > WINDOW_HEIGHT) :
    (faceTest ball b).1.pos.y > WINDOW_HEIGHT - BALL_HEIGHT := by
  have hH : WINDOW_HEIGHT = 720 := rfl
  have hB : BALL_HEIGHT = 8 := rfl
  have hK : BLOCK_HEIGHT = 16 := rfl
  rw [hH] at h
  unfold faceTest
  by_cases h1 : hitsBottom ball b
  · simp only [h1, if_true]
    unfold hitsBottom at h1
    rw [hH, hB]; rw [hK] at h1 ⊢
    linarith [h1.2.1]
  · by_cases h2 : hitsTop ball b
    · simp only [h1, h2, if_true, if_false]
      unfold hitsBottom at h1
      unfold hitsTop at h2
      have : ball.pos.y ≤ b.pos.y := by
        by_contra hc
        exact h1 ⟨h2.2, h2.1.2, not_le.mp hc⟩
      rw [hH, hB]
      linarith
    · by_cases h3 : hitsLeft ball b
      · simp only [h1, h2, h3, if_true, if_false]
        rw [hH, hB]; linarith
      · by_cases h4 : hitsRight ball b
        · simp only [h1, h2, h3, h4, if_true, if_false]
          rw [hH, hB]; linarith
        · simp only [h1, h2, h3, h4, if_false]
          rw [hH, hB]; linarith

theorem evalResult_ball_pos (g : Game) (b : Block) : (evalResult g b).1.ball.pos = g.ball.pos := by
  unfold evalResult extraEnergy; simp only []
  split_ifs <;> simp

theorem ballVsBlocks_ball_pos_y (g : Game) (h : g.ball.pos.y > WINDOW_HEIGHT) :
    (ballVsBlocks g).ball.pos.y > WINDOW_HEIGHT - BALL_HEIGHT := by
  unfold ballVsBlocks; simp only []
  rcases ballVsBlocksLoop_cases g g.blocks with ⟨h1, _⟩ | ⟨pre, b, post, _, _, _, _, h1⟩
  · rw [h1]
    have hB : BALL_HEIGHT = 8 := rfl
    simp only []; rw [hB]; linarith
  · rw [h1]
    simp only [evalResult_ball_pos]
    exact faceTest_pos_y g.ball b h


@[simp] theorem paddleMovement_clickingCoolDownTimer (g : Game) :
    (paddleMovement g).clickingCoolDownTimer = g.clickingCoolDownTimer := by
  unfold paddleMovement; split_ifs <;> rfl

@[simp] theorem paddleMovement_gameIsStarted (g : Game) :
    (paddleMovement g).gameIsStarted = g.gameIsStarted := by
  unfold paddleMovement; split_ifs <;> rfl

@[simp] theorem paddleMovement_isLeftMouseBtnClicked (g : Game) :
    (paddleMovement g).isLeftMouseBtnClicked = g.isLeftMouseBtnClicked := by
  unfold paddleMovement; split_ifs <;> rfl

@[simp] theorem paddleVsWindow_clickingCoolDownTimer (g : Game) :
    (paddleVsWindow g).clickingCoolDownTimer = g.clickingCoolDownTimer := by
  unfold paddleVsWindow; split_ifs <;> rfl

@[simp] theorem paddleVsWindow_gameIsStarted (g : Game) :
    (paddleVsWindow g).gameIsStarted = g.gameIsStarted := by
  unfold paddleVsWindow; split_ifs <;> rfl

@[simp] theorem paddleVsWindow_isLeftMouseBtnClicked (g : Game) :
    (paddleVsWindow g).isLeftMouseBtnClicked = g.isLeftMouseBtnClicked := by
  unfold paddleVsWindow; split_ifs <;> rfl

@[simp] theorem ballMovement_clickingCoolDownTimer (g : Game) :
    (ballMovement g).clickingCoolDownTimer = g.clickingCoolDownTimer := by
  unfold ballMovement; split_ifs <;> rfl

@[simp] theorem ballMovement_gameIsStarted (g : Game) :
    (ballMovement g).gameIsStarted = g.gameIsStarted := by
  unfold ballMovement; split_ifs <;> rfl

@[simp] theorem ballMovement_isLeftMouseBtnClicked (g : Game) :
    (ballMovement g).isLeftMouseBtnClicked = g.isLeftMouseBtnClicked := by
  unfold ballMovement; split_ifs <;> rfl

@[simp] theorem blockDestroyed_clickingCoolDownTimer (g : Game) :
    (blockDestroyed g).clickingCoolDownTimer = g.clickingCoolDownTimer := by
  unfold blockDestroyed; simp only []; split_ifs <;> rfl

@[simp] theorem blockDestroyed_gameIsStarted (g : Game) :
    (blockDestroyed g).gameIsStarted = g.gameIsStarted := by
  unfold blockDestroyed; simp only []; split_ifs <;> rfl

@[simp] theorem blockDestroyed_isLeftMouseBtnClicked (g : Game) :
    (blockDestroyed g).isLeftMouseBtnClicked = g.isLeftMouseBtnClicked := by
  unfold blockDestroyed; simp only []; split_ifs <;> rfl

@[simp] theorem ballVsPaddle_clickingCoolDownTimer (g : Game) :
    (ballVsPaddle g).clickingCoolDownTimer = g.clickingCoolDownTimer := by
  unfold ballVsPaddle; split_ifs <;> rfl

@[simp] theorem ballVsPaddle_gameIsStarted (g : Game) :
    (ballVsPaddle g).gameIsStarted = g.gameIsStarted := by
  unfold ballVsPaddle; split_ifs <;> rfl

@[simp] theorem ballVsPaddle_isLeftMouseBtnClicked (g : Game) :
    (ballVsPaddle g).isLeftMouseBtnClicked = g.isLeftMouseBtnClicked := by
  unfold ballVsPaddle; split_ifs <;> rfl

@[simp] theorem ballVsWindow_clickingCoolDownTimer (g : Game) :
    (ballVsWindow g).clickingCoolDownTimer = g.clickingCoolDownTimer := by
  unfold ballVsWindow; split_ifs <;> rfl

@[simp] theorem ballVsWindow_gameIsStarted (g : Game) :
    (ballVsWindow g).gameIsStarted = g.gameIsStarted := by
  unfold ballVsWindow; split_ifs <;> rfl

@[simp] theorem ballVsWindow_isLeftMouseBtnClicked (g : Game) :
    (ballVsWindow g).isLeftMouseBtnClicked = g.isLeftMouseBtnClicked := by
  unfold ballVsWindow; split_ifs <;> rfl

@[simp] theorem blockAttachments_clickingCoolDownTimer (delta : ℚ) (g : Game) :
    (blockAttachments delta g).clickingCoolDownTimer = g.clickingCoolDownTimer := rfl

@[simp] theorem blockAttachments_gameIsStarted (delta : ℚ) (g : Game) :
    (blockAttachments delta g).gameIsStarted = g.gameIsStarted := rfl

@[simp] theorem blockAttachments_isLeftMouseBtnClicked (delta : ℚ) (g : Game) :
    (blockAttachments delta g).isLeftMouseBtnClicked = g.isLeftMouseBtnClicked := rfl

@[simp] theorem lowerBlocks_clickingCoolDownTimer (delta : ℚ) (stray : Block) (g : Game) :
    (lowerBlocks delta stray g).clickingCoolDownTimer = g.clickingCoolDownTimer := by
  unfold lowerBlocks; simp only []; split_ifs <;> rfl

@[simp] theorem lowerBlocks_gameIsStarted (delta : ℚ) (stray : Block) (g : Game) :
    (lowerBlocks delta stray g).gameIsStarted = g.gameIsStarted := by
  unfold lowerBlocks; simp only []; split_ifs <;> rfl

@[simp] theorem lowerBlocks_isLeftMouseBtnClicked (delta : ℚ) (stray : Block) (g : Game) :
    (lowerBlocks delta stray g).isLeftMouseBtnClicked = g.isLeftMouseBtnClicked := by
  unfold lowerBlocks; simp only []; split_ifs <;> rfl

@[simp] theorem levelRules_clickingCoolDownTimer (delta : ℚ) (stray : Block) (g : Game) :
    (levelRules delta stray g).clickingCoolDownTimer = g.clickingCoolDownTimer := by
  unfold levelRules; simp only []; split_ifs <;> simp

@[simp] theorem levelRules_gameIsStarted (delta : ℚ) (stray : Block) (g : Game) :
    (levelRules delta stray g).gameIsStarted = g.gameIsStarted := by
  unfold levelRules; simp only []; split_ifs <;> simp

@[simp] theorem levelRules_isLeftMouseBtnClicked (delta : ℚ) (stray : Block) (g : Game) :
    (levelRules delta stray g).isLeftMouseBtnClicked = g.isLeftMouseBtnClicked := by
  unfold levelRules; simp only []; split_ifs <;> simp

@[simp] theorem nextLevelPhase_clickingCoolDownTimer (delta : ℚ) (g : Game) :
    (nextLevelPhase delta g).clickingCoolDownTimer = g.clickingCoolDownTimer := by
  unfold nextLevelPhase; simp only []; split_ifs <;> rfl

@[simp] theorem nextLevelPhase_gameIsStarted (delta : ℚ) (g : Game) :
    (nextLevelPhase delta g).gameIsStarted = g.gameIsStarted := by
  unfold nextLevelPhase; simp only []; split_ifs <;> rfl

@[simp] theorem nextLevelPhase_isLeftMouseBtnClicked (delta : ℚ) (g : Game) :
    (nextLevelPhase delta g).isLeftMouseBtnClicked = g.isLeftMouseBtnClicked := by
  unfold nextLevelPhase; simp only []; split_ifs <;> rfl

@[simp] theorem backToMenu_clickingCoolDownTimer (g : Game) :
    (backToMenu g).clickingCoolDownTimer = g.clickingCoolDownTimer := rfl

@[simp] theorem backToMenu_isLeftMouseBtnClicked (g : Game) :
    (backToMenu g).isLeftMouseBtnClicked = g.isLeftMouseBtnClicked := rfl

@[simp] theorem gameOverPhase_clickingCoolDownTimer (delta : ℚ) (g : Game) :
    (gameOverPhase delta g).clickingCoolDownTimer = g.clickingCoolDownTimer := by
  unfold gameOverPhase; simp only []; split_ifs <;> rfl

@[simp] theorem gameOverPhase_isLeftMouseBtnClicked (delta : ℚ) (g : Game) :
    (gameOverPhase delta g).isLeftMouseBtnClicked = g.isLeftMouseBtnClicked := by
  unfold gameOverPhase; simp only []; split_ifs <;> rfl

@[simp] theorem completedGamePhase_clickingCoolDownTimer (delta : ℚ) (g : Game) :
    (completedGamePhase delta g).clickingCoolDownTimer = g.clickingCoolDownTimer := by
  unfold completedGamePhase; simp only []; split_ifs <;> rfl

@[simp] theorem completedGamePhase_isLeftMouseBtnClicked (delta : ℚ) (g : Game) :
    (completedGamePhase delta g).isLeftMouseBtnClicked = g.isLeftMouseBtnClicked := by
  unfold completedGamePhase; simp only []; split_ifs <;> rfl

@[simp] theorem UpdateMenuBackground_clickingCoolDownTimer (delta : ℚ) (g : Game) :
    (UpdateMenuBackground delta g).clickingCoolDownTimer = g.clickingCoolDownTimer := by
  unfold UpdateMenuBackground; simp only []; split_ifs <;> rfl

@[simp] theorem UpdateMenuBackground_gameIsStarted (delta : ℚ) (g : Game) :
    (UpdateMenuBackground delta g).gameIsStarted = g.gameIsStarted := by
  unfold UpdateMenuBackground; simp only []; split_ifs <;> rfl

@[simp] theorem UpdateMenuBackground_isLeftMouseBtnClicked (delta : ℚ) (g : Game) :
    (UpdateMenuBackground delta g).isLeftMouseBtnClicked = g.isLeftMouseBtnClicked := by
  unfold UpdateMenuBackground; simp only []; split_ifs <;> rfl

@[simp] theorem menuRootPhase_gameIsStarted (delta : ℚ) (inp : Input) (g : Game) :
    (menuRootPhase delta inp g).gameIsStarted = g.gameIsStarted := by
  unfold menuRootPhase; simp only []; split_ifs <;> simp

@[simp] theorem menuRootPhase_isLeftMouseBtnClicked (delta : ℚ) (inp : Input) (g : Game) :
    (menuRootPhase delta inp g).isLeftMouseBtnClicked = g.isLeftMouseBtnClicked := by
  unfold menuRootPhase; simp only []; split_ifs <;> simp

@[simp] theorem instructionsPhase_gameIsStarted (delta : ℚ) (inp : Input) (g : Game) :
    (instructionsPhase delta inp g).gameIsStarted = g.gameIsStarted := by
  unfold instructionsPhase; simp only []; split_ifs <;> simp

@[simp] theorem instructionsPhase_isLeftMouseBtnClicked (delta : ℚ) (inp : Input) (g : Game) :
    (instructionsPhase delta inp g).isLeftMouseBtnClicked = g.isLeftMouseBtnClicked := by
  unfold instructionsPhase; simp only []; split_ifs <;> simp

theorem menuRootPhase_cooling (delta : ℚ) (inp : Input) (g : Game)
    (h : ¬ g.clickingCoolDownTimer < 0) :
    (menuRootPhase delta inp g).currentMenuState = g.currentMenuState := by
  unfold menuRootPhase
  simp only [UpdateMenuBackground_clickingCoolDownTimer, h, if_false]
  simp


/-! ### The states the game loop reaches -/

theorem handleEvent_loopInv (g : Game) (e : Event) (h : LoopInv g) : LoopInv (handleEvent g e) := by
  obtain ⟨h1, h2, h3, h4⟩ := h
  unfold LoopInv Game.inSession at *
  cases e <;> simp only [handleEvent] <;> (try split_ifs) <;> simp_all

theorem pollEvents_loopInv (events : List Event) (g : Game) (h : LoopInv g) :
    LoopInv (pollEvents g events) := by
  unfold pollEvents
  induction events generalizing g with
  | nil => exact h
  | cons e es ih => exact ih _ (handleEvent_loopInv g e h)

theorem newGame_loopInv (inp : Input) (g : Game) (h : g.clickingCoolDownTimer = 0) :
    LoopInv (newGame inp g) := by
  unfold LoopInv Game.inSession
  simp [newGame, h]

theorem menuRootPhase_loopInv (delta : ℚ) (inp : Input) (g : Game)
    (hs : g.currentGameState = GAMESTATE_MENU) (hm : g.currentMenuState = MENUSTATE_NONE)
    (ha : g.nextLevelAccumulator = 0) :
    LoopInv (menuRootPhase delta inp g) := by
  unfold LoopInv Game.inSession
  refine ⟨by simp [hs], by simp [hs], ?_, by simp [ha]⟩
  unfold menuRootPhase
  simp only [UpdateMenuBackground_clickingCoolDownTimer, UpdateMenuBackground_currentMenuState,
    UpdateMenuBackground_isLeftMouseBtnClicked]
  split_ifs <;> simp [hm]

theorem instructionsPhase_loopInv (delta : ℚ) (inp : Input) (g : Game)
    (hs : g.currentGameState = GAMESTATE_MENU) (hm : g.currentMenuState = MENUSTATE_INSTRUCTIONS)
    (ha : g.nextLevelAccumulator = 0) :
    LoopInv (instructionsPhase delta inp g) := by
  unfold LoopInv Game.inSession
  refine ⟨by simp [hs], by simp [hs], ?_, by simp [ha]⟩
  unfold instructionsPhase
  simp only [UpdateMenuBackground_currentMenuState]
  split_ifs <;> simp [hm]

/-- The NEXT_LEVEL, GAME_OVER and COMPLETED_GAME blocks and the last chain keep the invariant,
from a state in session that satisfies it. -/
theorem afterPlay_loopInv_of_inSession (delta : ℚ) (inp : Input) (p : Game)
    (hs : p.inSession)
    (hm : p.currentMenuState = MENUSTATE_NONE ∨ p.currentMenuState = MENUSTATE_EXIT)
    (ht : p.clickingCoolDownTimer = 0)
    (ha : p.currentGameState ≠ GAMESTATE_NEXT_LEVEL → p.nextLevelAccumulator = 0) :
    LoopInv (afterPlay delta inp p) := by
  rcases hs with hs | hs | hs | hs
  · rw [afterPlay_play _ _ _ hs, menuChain_idle _ _ _ (by simp [hs]) (by simp [hs]) hm]
    exact ⟨by simp [hs], fun _ => ⟨hm, ht⟩, fun _ => ht, ha⟩
  · rw [afterPlay_nextLevel _ _ _ hs]
    by_cases hto : p.nextLevelAccumulator + delta > TIME_TO_SHOW_NEXT_LEVEL
    · rw [nextLevelPhase_timeout _ _ hto, menuChain_newGame _ _ _ (by simp) rfl]
      exact newGame_loopInv _ _ ht
    · rw [nextLevelPhase_wait _ _ hto, menuChain_idle delta inp
        { p with nextLevelAccumulator := p.nextLevelAccumulator + delta }
        (by simp [hs]) (by simp [hs]) hm]
      exact ⟨by simp [hs], fun _ => ⟨hm, ht⟩, fun _ => ht, by simp [hs]⟩
  · rw [afterPlay_gameOver _ _ _ hs]
    have ha' := ha (by simp [hs])
    by_cases hto : p.gameOverAccumulator + delta > TIME_TO_SHOW_GAME_OVER
    · rw [gameOverPhase_timeout _ _ hto, menuChain_root _ _ _ rfl rfl]
      exact menuRootPhase_loopInv _ _ _ rfl rfl (by simpa [backToMenu] using ha')
    · rw [gameOverPhase_wait _ _ hto, menuChain_idle delta inp
        { p with gameOverAccumulator := p.gameOverAccumulator + delta }
        (by simp [hs]) (by simp [hs]) hm]
      exact ⟨by simp [hs], fun _ => ⟨hm, ht⟩, fun _ => ht, fun _ => ha'⟩
  · rw [afterPlay_completedGame _ _ _ hs]
    have ha' := ha (by simp [hs])
    by_cases hto : p.completedGameAccumulator + delta > TIME_TO_SHOW_COMPLETED_GAME
    · rw [completedGamePhase_timeout _ _ hto]
      unfold LoopInv Game.inSession
      simp [backToMenu, ha', ht]
    · rw [completedGamePhase_wait _ _ hto]
      exact ⟨by simp [hs], fun _ => ⟨hm, ht⟩, fun _ => ht, fun _ => ha'⟩

theorem playPhase_inSession (delta : ℚ) (inp : Input) (g : Game)
    (h : g.currentGameState = GAMESTATE_PLAY) : (playPhase delta inp g).inSession := by
  unfold Game.inSession
  rcases playPhase_currentGameState_cases delta inp g with h' | h' | h' | h'
  · left; rw [h', h]
  · right; left; exact h'
  · right; right; right; exact h'
  · right; right; left; exact h'

theorem playPhase_clickingCoolDownTimer (delta : ℚ) (inp : Input) (g : Game) :
    (playPhase delta inp g).clickingCoolDownTimer = g.clickingCoolDownTimer := by
  have : (ballVsBlocks (ballMovement (paddleVsWindow (paddleMovement g)))).clickingCoolDownTimer
      = g.clickingCoolDownTimer := by
    unfold ballVsBlocks; simp only []
    rcases ballVsBlocksLoop_cases (ballMovement (paddleVsWindow (paddleMovement g)))
      (ballMovement (paddleVsWindow (paddleMovement g))).blocks with ⟨h, _⟩ | ⟨pre, b, post, _, _, _, _, h⟩
    · rw [h]; simp
    · rw [h]; unfold evalResult; simp only []; split_ifs <;> simp
  simp [playPhase, this]

theorem GameUpdate_loopInv (delta : ℚ) (inp : Input) (g : Game) (h : LoopInv g) :
    LoopInv (GameUpdate delta inp g) := by
  obtain ⟨h1, h2, h3, h4⟩ := h
  by_cases hplay : g.currentGameState = GAMESTATE_PLAY
  · have hin : g.inSession := Or.inl hplay
    rw [GameUpdate_of_play delta inp g hplay]
    refine afterPlay_loopInv_of_inSession delta inp _ (playPhase_inSession delta inp g hplay)
      (by simpa using (h2 hin).1) (by rw [playPhase_clickingCoolDownTimer]; exact (h2 hin).2) ?_
    intro _
    rw [playPhase_nextLevelAccumulator]
    exact h4 (by simp [hplay])
  · rw [GameUpdate_of_not_play delta inp g hplay]
    by_cases hin : g.inSession
    · exact afterPlay_loopInv_of_inSession delta inp g hin (h2 hin).1 (h2 hin).2 h4
    · -- the game state is MENU
      have hmenu : g.currentGameState = GAMESTATE_MENU := by
        unfold Game.inSession at hin
        cases hs : g.currentGameState <;> simp_all
      have ha : g.nextLevelAccumulator = 0 := h4 (by simp [hmenu])
      have e : afterPlay delta inp g = menuChain delta inp g := by simp [afterPlay, hmenu]
      rw [e]
      cases hm : g.currentMenuState with
      | MENUSTATE_NONE =>
        rw [menuChain_root _ _ _ hmenu hm]
        exact menuRootPhase_loopInv _ _ _ hmenu hm ha
      | MENUSTATE_NEW_GAME =>
        rw [menuChain_newGame _ _ _ (by simp [hmenu]) hm]
        exact newGame_loopInv _ _ (h3 (Or.inl hm))
      | MENUSTATE_CONTINUE =>
        have ht := h3 (Or.inr hm)
        unfold LoopInv Game.inSession
        simp [menuChain, hmenu, hm, ht, ha]
      | MENUSTATE_INSTRUCTION =>
        unfold LoopInv Game.inSession
        simp [menuChain, hmenu, hm, ha]
      | MENUSTATE_INSTRUCTIONS =>
        have e2 : menuChain delta inp g = instructionsPhase delta inp g := by
          simp [menuChain, hmenu, hm]
        rw [e2]
        exact instructionsPhase_loopInv _ _ _ hmenu hm ha
      | MENUSTATE_BACK =>
        unfold LoopInv Game.inSession
        simp [menuChain, hmenu, hm, ha]
      | MENUSTATE_EXIT =>
        unfold LoopInv Game.inSession
        simp [menuChain, hmenu, hm, ha]

/-- Every state the game loop reaches satisfies `LoopInv`: in particular, whenever a tick starts
in PLAY no new game is pending and `nextLevel.accumulator` is 0, and whenever it starts in
GAME_OVER the menu state is NONE or EXIT and the click-debounce timer is 0. -/
theorem reachable_loopInv (g : Game) (h : Reachable g) : LoopInv g := by
  induction h with
  | initial menu =>
    unfold LoopInv Game.inSession
    simp [initialGame]
  | tick g events inp _ ih =>
    exact GameUpdate_loopInv _ _ _ (pollEvents_loopInv events g ih)

/-- What the theorems on ticks assume about the state a tick starts from holds whenever the game
loop calls `GameUpdate(TIME_STEP)`: in PLAY no new game is pending, the menu state is NONE or
EXIT and the next-level display time cannot run out in the tick; in GAME_OVER the menu state is
NONE or EXIT and the click-debounce timer is not negative. -/
theorem reachable_tick_start (g : Game) (events : List Event) (h : Reachable g) :
    ((pollEvents g events).currentGameState = GAMESTATE_PLAY →
        (pollEvents g events).currentMenuState ≠ MENUSTATE_NEW_GAME ∧
        ((pollEvents g events).currentMenuState = MENUSTATE_NONE ∨
          (pollEvents g events).currentMenuState = MENUSTATE_EXIT) ∧
        (pollEvents g events).nextLevelAccumulator + TIME_STEP ≤ TIME_TO_SHOW_NEXT_LEVEL) ∧
      ((pollEvents g events).currentGameState = GAMESTATE_GAME_OVER →
        ((pollEvents g events).currentMenuState = MENUSTATE_NONE ∨
          (pollEvents g events).currentMenuState = MENUSTATE_EXIT) ∧
        0 ≤ (pollEvents g events).clickingCoolDownTimer) := by
  obtain ⟨-, h2, -, h4⟩ := pollEvents_loopInv events g (reachable_loopInv g h)
  constructor
  · intro hs
    obtain ⟨hm, -⟩ := h2 (Or.inl hs)
    refine ⟨by rcases hm with k | k <;> simp [k], hm, ?_⟩
    rw [h4 (by simp [hs])]
    norm_num [TIME_STEP, TIME_TO_SHOW_NEXT_LEVEL]
  · intro hs
    obtain ⟨hm, ht⟩ := h2 (Or.inr (Or.inr (Or.inl hs)))
    exact ⟨hm, by rw [ht]⟩


theorem ballVsBlocks_no_hit (g : Game)
    (h : ∀ c ∈ g.blocks, c.health ≠ 0 → (faceTest g.ball c).2 = false) : ballVsBlocks g = g := by
  have e := ballVsBlocksLoop_skip g g.blocks [] h
  simp only [List.append_nil, ballVsBlocksLoop] at e
  unfold ballVsBlocks
  rw [e]

theorem afterPlay_ball_paddle (delta : ℚ) (inp : Input) (p : Game)
    (hs : p.currentGameState ≠ GAMESTATE_NEXT_LEVEL)
    (hm : p.currentMenuState ≠ MENUSTATE_NEW_GAME) :
    (afterPlay delta inp p).ball = p.ball ∧ (afterPlay delta inp p).paddle = p.paddle := by
  unfold afterPlay
  simp only [hs, if_false]
  by_cases hg : p.currentGameState = GAMESTATE_GAME_OVER
  · simp only [hg, if_true]
    have hm' : (gameOverPhase delta p).currentMenuState ≠ MENUSTATE_NEW_GAME := by
      unfold gameOverPhase; simp only []; split_ifs
      · simp [backToMenu]
      · exact hm
    obtain ⟨-, hb, hp, -⟩ := menuChain_session delta inp _ hm'
    rw [hb, hp]
    unfold gameOverPhase; simp only []; split_ifs <;> simp [backToMenu]
  · simp only [hg, if_false]
    obtain ⟨-, hb, hp, -⟩ := menuChain_session delta inp _ hm
    exact ⟨hb, hp⟩

theorem playPhase_held (delta : ℚ) (inp : Input) (g : Game)
    (hheld : g.ball.vel = ⟨0, 0⟩)
    (hblocks : ∀ b ∈ g.blocks, b.health ≠ 0 →
      (faceTest { g.ball with pos := heldBallPos (paddleVsWindow (paddleMovement g)).paddle } b).2
        = false)
    (htop : 0 ≤ (heldBallPos (paddleVsWindow (paddleMovement g)).paddle).y)
    (hleft : 0 ≤ (heldBallPos (paddleVsWindow (paddleMovement g)).paddle).x)
    (hright : (heldBallPos (paddleVsWindow (paddleMovement g)).paddle).x + BALL_WIDTH ≤ WINDOW_WIDTH) :
    (playPhase delta inp g).ball.pos = heldBallPos (paddleVsWindow (paddleMovement g)).paddle ∧
    (playPhase delta inp g).paddle = (paddleVsWindow (paddleMovement g)).paddle ∧
    ((playPhase delta inp g).currentGameState = g.currentGameState ∨
      (playPhase delta inp g).currentGameState = GAMESTATE_GAME_OVER) := by
  have e1 : ballMovement (paddleVsWindow (paddleMovement g)) =
      { paddleVsWindow (paddleMovement g) with
        ball := { g.ball with pos := heldBallPos (paddleVsWindow (paddleMovement g)).paddle } } := by
    unfold ballMovement
    simp [hheld, heldBallPos]
  have e2 : ballVsBlocks (ballMovement (paddleVsWindow (paddleMovement g))) =
      ballMovement (paddleVsWindow (paddleMovement g)) := by
    apply ballVsBlocks_no_hit
    rw [e1]
    simpa using hblocks
  have e3 : ballVsPaddle (ballMovement (paddleVsWindow (paddleMovement g))) =
      ballMovement (paddleVsWindow (paddleMovement g)) := by
    rw [e1]
    unfold ballVsPaddle
    simp [heldBallPos]
  unfold playPhase
  rw [e2, e3]
  simp only [levelRules_ball, blockAttachments_ball, levelRules_paddle, blockAttachments_paddle,
    ballVsWindow_paddle]
  refine ⟨?_, ?_, ?_⟩
  · have hb : (ballMovement (paddleVsWindow (paddleMovement g))).ball.pos =
        heldBallPos (paddleVsWindow (paddleMovement g)).paddle := by rw [e1]
    have hW : WINDOW_WIDTH = 1080 := rfl
    have hB : BALL_WIDTH = 8 := rfl
    unfold ballVsWindow
    rw [hb]
    split_ifs with c1 c2 c3 c4
    · exact hb
    · exact absurd c2 (not_lt.mpr htop)
    · exact absurd c3 (not_lt.mpr hright)
    · exact absurd c4 (not_lt.mpr hleft)
    · exact hb
  · rw [e1]
  · rcases levelRules_currentGameState_cases delta inp.strayBlock
      (blockAttachments delta (ballVsWindow (ballMovement (paddleVsWindow (paddleMovement g))))) with h | h
    · rw [h, blockAttachments_currentGameState]
      rcases ballVsWindow_currentGameState_cases (ballMovement (paddleVsWindow (paddleMovement g))) with
        h | h
      · left; rw [h]; simp
      · right; exact h
    · right; exact h


theorem MIN_le_left (x y : ℚ) : MIN x y ≤ x := by
  unfold MIN; split_ifs with h
  · exact le_refl x
  · exact not_lt.mp h

theorem MIN_le_right (x y : ℚ) : MIN x y ≤ y := by
  unfold MIN; split_ifs with h
  · exact le_of_lt h
  · exact le_refl y

theorem le_MAX_left (x y : ℚ) : x ≤ MAX x y := by
  unfold MAX; split_ifs with h
  · exact le_refl x
  · exact not_lt.mp h

theorem le_MAX_right (x y : ℚ) : y ≤ MAX x y := by
  unfold MAX; split_ifs with h
  · exact le_of_lt h
  · exact le_refl y

/-- After the loop the maximum of each axis is not below the minimum, whatever the box. -/
theorem extentOf_ordered (boxA : AxisBox) :
    (extentOf boxA).minX ≤ (extentOf boxA).maxX ∧ (extentOf boxA).minY ≤ (extentOf boxA).maxY := by
  simp only [extentOf, cornerPoints, List.foldl, project, Vec2.DotProduct]
  constructor
  · exact le_trans (MIN_le_left _ _) (le_MAX_left _ _)
  · exact le_trans (MIN_le_left _ _) (le_MAX_left _ _)

/-- The condition `ABS(x0) < ABS(x1)` on the values the resolver feeds it, `x0 ≥ 0` and
`x1 = -x0`: the penetration picked is `x0`. -/
theorem ABS_lt_ABS_neg (x : ℚ) (h : 0 ≤ x) :
    (if (ABS_lt_ABS x (-x)).1 then (ABS_lt_ABS x (-x)).2.1 else (ABS_lt_ABS x (-x)).2.2) = x := by
  unfold ABS_lt_ABS
  by_cases hx : x > 0
  · simp [hx, ne_of_gt hx]
  · have h0 : x = 0 := le_antisymm (not_lt.mp hx) h
    subst h0
    simp

/-- The condition `ABS(minXPen) < ABS(minYPen)` on non-negative values. -/
theorem ABS_lt_ABS_nonneg (x y : ℚ) (hx : 0 ≤ x) (hy : 0 ≤ y) :
    ABS_lt_ABS x y = if x > 0 then (true, x, y) else (false, 0, y) := by
  unfold ABS_lt_ABS
  by_cases h : x > 0
  · simp [h, ne_of_gt h]
  · have h0 : x = 0 := le_antisymm (not_lt.mp h) hx
    subst h0
    have : (-1 : ℚ) < y := by linarith
    simp [this]

/-- What `CollisionDetection` returns, for all arguments: the boxes are always reported as
intersecting, and the result is read off the extremes of `boxA` alone. -/
theorem CollisionDetection_eq (result : CollisionResult) (boxA boxB : AxisBox) :
    CollisionDetection result boxA boxB =
      if (extentOf boxA).maxX - (extentOf boxA).minX > 0 then
        ⟨true, ⟨1, 0⟩, (extentOf boxA).maxX - (extentOf boxA).minX⟩
      else ⟨true, ⟨0, 1⟩, (extentOf boxA).maxY - (extentOf boxA).minY⟩ := by
  obtain ⟨hx, hy⟩ := extentOf_ordered boxA
  have e : CollisionDetection result boxA boxB =
      (let a := extentOf boxA
       if a.maxX < a.minX ∨ a.minX > a.maxX ∨ a.maxY < a.minY ∨ a.minY > a.maxY then
         { result with intersects := false }
       else
         let cx := ABS_lt_ABS (a.maxX - a.minX) (a.minX - a.maxX)
         let minXPen : ℚ := if cx.1 then cx.2.1 else cx.2.2
         let cy := ABS_lt_ABS (a.maxY - a.minY) (a.minY - a.maxY)
         let minYPen : ℚ := if cy.1 then cy.2.1 else cy.2.2
         let c := ABS_lt_ABS minXPen minYPen
         if c.1 then { intersects := true, normal := ⟨1, 0⟩, length := c.2.1 }
         else { intersects := true, normal := ⟨0, 1⟩, length := c.2.2 }) := rfl
  rw [e]
  simp only []
  have hsep : ¬ ((extentOf boxA).maxX < (extentOf boxA).minX ∨
      (extentOf boxA).minX > (extentOf boxA).maxX ∨
      (extentOf boxA).maxY < (extentOf boxA).minY ∨
      (extentOf boxA).minY > (extentOf boxA).maxY) := by
    rintro (h | h | h | h) <;> linarith
  rw [if_neg hsep]
  have ex : (extentOf boxA).minX - (extentOf boxA).maxX =
      -((extentOf boxA).maxX - (extentOf boxA).minX) := by ring
  have ey : (extentOf boxA).minY - (extentOf boxA).maxY =
      -((extentOf boxA).maxY - (extentOf boxA).minY) := by ring
  rw [ex, ey, ABS_lt_ABS_neg _ (sub_nonneg.mpr hx), ABS_lt_ABS_neg _ (sub_nonneg.mpr hy),
    ABS_lt_ABS_nonneg _ _ (sub_nonneg.mpr hx) (sub_nonneg.mpr hy)]
  by_cases h : (extentOf boxA).maxX - (extentOf boxA).minX > 0
  · simp only [h, if_true]
  · simp [h]


theorem newBlock_isFresh (rand : Nat → Nat) (i : Nat) (x y : Int) :
    (newBlock rand i x y).isFresh := by
  refine ⟨rfl, ?_, rfl, rfl, rfl⟩
  simp only [newBlock]
  have h : rand (i * (1 + 4 * MAX_NUMBER_OF_SPLITTER)) % 4 < 4 := Nat.mod_lt _ (by decide)
  generalize rand (i * (1 + 4 * MAX_NUMBER_OF_SPLITTER)) % 4 = r at h
  interval_cases r <;> simp

theorem newBlocks_isFresh (rand : Nat → Nat) (c o : Int) (n i : Nat) (x y : Int) :
    ∀ b ∈ newBlocks rand c o n i x y, b.isFresh := by
  induction n generalizing i x y with
  | zero => intro b hb; simp [newBlocks] at hb
  | succ n ih =>
    intro b hb
    simp only [newBlocks, List.mem_cons] at hb
    rcases hb with hb | hb
    · rw [hb]; exact newBlock_isFresh _ _ _ _
    · exact ih _ _ _ b hb

theorem newBlocks_length (rand : Nat → Nat) (c o : Int) (n i : Nat) (x y : Int) :
    (newBlocks rand c o n i x y).length = n := by
  induction n generalizing i x y with
  | zero => rfl
  | succ n ih => simp [newBlocks, ih]

/-- What "Initialize a new game" establishes, from any state. -/
theorem newGame_reset (inp : Input) (h : Game) (hcount : 0 ≤ newNumberOfBlocks h) :
    (newGame inp h).currentGameState = GAMESTATE_PLAY ∧
    (newGame inp h).currentMenuState = MENUSTATE_NONE ∧
    (newGame inp h).score.points = 0 ∧
    (newGame inp h).score.accumulator = 0 ∧
    (newGame inp h).ball.vel = ⟨0, 0⟩ ∧
    (newGame inp h).paddle.vel = 0 ∧
    (newGame inp h).paddle.size = ⟨48, 16⟩ ∧
    (newGame inp h).gameOverAccumulator = 0 ∧
    (newGame inp h).nextLevelAccumulator = 0 ∧
    (newGame inp h).completedGameAccumulator = 0 ∧
    (∀ b ∈ (newGame inp h).blocks, b.isFresh) ∧
    (newGame inp h).numberOfBlocks = newNumberOfBlocks h ∧
    (newGame inp h).numberOfActiveBLocks = (newGame inp h).numberOfBlocks := by
  have hlen : (newGame inp h).numberOfBlocks = newNumberOfBlocks h := by
    simp only [Game.numberOfBlocks, newGame, newBlocks_length]
    exact Int.toNat_of_nonneg hcount
  refine ⟨rfl, rfl, rfl, rfl, rfl, rfl, ?_, rfl, rfl, rfl, ?_, hlen, ?_⟩
  · simp only [newGame, PADDLE_START_WIDTH, PADDLE_START_HEIGHT, PADDLE_FRAME_SIZE]
    norm_num
  · exact newBlocks_isFresh _ _ _ _ _ _ _
  · rw [hlen]; rfl

/-- A tick that starts with the menu state NEW_GAME outside PLAY, GAME_OVER and COMPLETED_GAME
runs "Initialize a new game", on the state the NEXT_LEVEL block leaves. -/
theorem GameUpdate_newGame (delta : ℚ) (inp : Input) (g : Game)
    (hmenu : g.currentMenuState = MENUSTATE_NEW_GAME)
    (h1 : g.currentGameState ≠ GAMESTATE_PLAY)
    (h2 : g.currentGameState ≠ GAMESTATE_GAME_OVER)
    (h3 : g.currentGameState ≠ GAMESTATE_COMPLETED_GAME) :
    GameUpdate delta inp g =
      newGame inp (if g.currentGameState = GAMESTATE_NEXT_LEVEL then nextLevelPhase delta g else g) := by
  rw [GameUpdate_of_not_play delta inp g h1]
  by_cases hn : g.currentGameState = GAMESTATE_NEXT_LEVEL
  · rw [afterPlay_nextLevel delta inp g hn, if_pos hn]
    apply menuChain_newGame
    · unfold nextLevelPhase; simp only []; split_ifs <;> simp [hn]
    · unfold nextLevelPhase; simp only []; split_ifs <;> simp [hmenu]
  · rw [if_neg hn]
    unfold afterPlay
    simp only [hn, h2, if_false]
    exact menuChain_newGame delta inp g h3 hmenu

theorem nextLevelPhase_newNumberOfBlocks (delta : ℚ) (g : Game) :
    newNumberOfBlocks (nextLevelPhase delta g) = newNumberOfBlocks g := by
  unfold nextLevelPhase newNumberOfBlocks; simp only []; split_ifs <;> rfl


theorem paddleMovement_grid (g : Game) : (paddleMovement g).grid = g.grid := by
  unfold paddleMovement; split_ifs <;> rfl

theorem paddleVsWindow_grid (g : Game) : (paddleVsWindow g).grid = g.grid := by
  unfold paddleVsWindow; split_ifs <;> rfl

theorem ballMovement_grid (g : Game) : (ballMovement g).grid = g.grid := by
  unfold ballMovement; split_ifs <;> rfl

theorem blockDestroyed_grid (g : Game) : (blockDestroyed g).grid = g.grid := by
  unfold blockDestroyed; simp only []; split_ifs <;> rfl

theorem evalResult_grid (g : Game) (b : Block) : (evalResult g b).1.grid = g.grid := by
  unfold evalResult; simp only []
  split_ifs
  · exact blockDestroyed_grid g
  · rfl
  · rfl

theorem ballVsBlocks_grid (g : Game) : (ballVsBlocks g).grid = g.grid := by
  unfold ballVsBlocks; simp only []
  rcases ballVsBlocksLoop_cases g g.blocks with ⟨h, _⟩ | ⟨pre, b, post, _, _, _, _, h⟩
  · rw [h]
  · rw [h]; exact evalResult_grid _ b

theorem ballVsPaddle_grid (g : Game) : (ballVsPaddle g).grid = g.grid := by
  unfold ballVsPaddle; split_ifs <;> rfl

theorem ballVsWindow_grid (g : Game) : (ballVsWindow g).grid = g.grid := by
  unfold ballVsWindow; split_ifs <;> rfl

theorem lowerBlocks_grid (delta : ℚ) (stray : Block) (g : Game) :
    (lowerBlocks delta stray g).grid = g.grid := by
  unfold lowerBlocks; simp only []; split_ifs <;> rfl

theorem levelRules_grid (delta : ℚ) (stray : Block) (g : Game) :
    (levelRules delta stray g).grid = g.grid := by
  unfold levelRules; simp only []; split_ifs <;> first | rfl | exact lowerBlocks_grid _ _ _

theorem playPhase_grid (delta : ℚ) (inp : Input) (g : Game) :
    (playPhase delta inp g).grid = g.grid := by
  unfold playPhase
  rw [levelRules_grid]
  show (ballVsWindow _).grid = _
  rw [ballVsWindow_grid, ballVsPaddle_grid, ballVsBlocks_grid, ballMovement_grid,
    paddleVsWindow_grid, paddleMovement_grid]

theorem nextLevelPhase_grid (delta : ℚ) (g : Game) : (nextLevelPhase delta g).grid = g.grid := by
  unfold nextLevelPhase; simp only []; split_ifs <;> rfl

theorem gameOverPhase_grid (delta : ℚ) (g : Game) : (gameOverPhase delta g).grid = g.grid := by
  unfold gameOverPhase; simp only []; split_ifs <;> rfl

theorem completedGamePhase_grid (delta : ℚ) (g : Game) :
    (completedGamePhase delta g).grid = g.grid := by
  unfold completedGamePhase; simp only []; split_ifs <;> rfl

theorem menuRootPhase_grid (delta : ℚ) (inp : Input) (g : Game) :
    (menuRootPhase delta inp g).grid = g.grid := by
  have h : (UpdateMenuBackground delta g).grid = g.grid := by
    unfold UpdateMenuBackground; simp only []; split_ifs <;> rfl
  rw [← h]
  unfold menuRootPhase; simp only []; split_ifs <;> rfl

theorem instructionsPhase_grid (delta : ℚ) (inp : Input) (g : Game) :
    (instructionsPhase delta inp g).grid = g.grid := by
  have h : (UpdateMenuBackground delta g).grid = g.grid := by
    unfold UpdateMenuBackground; simp only []; split_ifs <;> rfl
  rw [← h]
  unfold instructionsPhase; simp only []; split_ifs <;> rfl

theorem menuChain_grid (delta : ℚ) (inp : Input) (g : Game) :
    (menuChain delta inp g).grid = g.grid := by
  unfold menuChain
  split_ifs
  · exact completedGamePhase_grid _ _
  · exact menuRootPhase_grid _ _ _
  · rfl
  · rfl
  · exact instructionsPhase_grid _ _ _
  · rfl
  · rfl

theorem GameUpdate_grid (delta : ℚ) (inp : Input) (g : Game) :
    (GameUpdate delta inp g).grid = g.grid := by
  unfold GameUpdate
  simp only []
  rw [menuChain_grid]
  have e1 : (if g.currentGameState = GAMESTATE_PLAY then playPhase delta inp g else g).grid
      = g.grid := by
    split_ifs
    · exact playPhase_grid _ _ _
    · rfl
  generalize (if g.currentGameState = GAMESTATE_PLAY then playPhase delta inp g else g) = g1 at e1 ⊢
  have e2 : (if g1.currentGameState = GAMESTATE_NEXT_LEVEL then nextLevelPhase delta g1 else g1).grid
      = g.grid := by
    split_ifs
    · rw [nextLevelPhase_grid]; exact e1
    · exact e1
  generalize (if g1.currentGameState = GAMESTATE_NEXT_LEVEL then nextLevelPhase delta g1 else g1)
    = g2 at e2 ⊢
  split_ifs
  · rw [gameOverPhase_grid]; exact e2
  · exact e2

theorem handleEvent_grid (g : Game) (e : Event) : (handleEvent g e).grid = g.grid := by
  cases e <;> simp only [handleEvent] <;> try split_ifs <;> rfl
  all_goals rfl

theorem pollEvents_grid (events : List Event) (g : Game) : (pollEvents g events).grid = g.grid := by
  unfold pollEvents
  induction events generalizing g with
  | nil => rfl
  | cons e es ih => rw [List.foldl_cons, ih, handleEvent_grid]

/-- The game loop never changes the grid parameters `main` sets: 24 columns, 4 rows, offsets 10
and 3, for which a new game builds 84 blocks. -/
theorem reachable_grid (g : Game) (h : Reachable g) :
    g.grid = (24, 4, 10, 3) ∧ newNumberOfBlocks g = 84 := by
  have hg : g.grid = (24, 4, 10, 3) := by
    induction h with
    | initial menu => rfl
    | tick g events inp _ ih =>
      unfold tick
      rw [GameUpdate_grid, pollEvents_grid]; exact ih
  refine ⟨hg, ?_⟩
  simp only [Game.grid, Prod.mk.injEq] at hg
  obtain ⟨h1, h2, h3, -⟩ := hg
  unfold newNumberOfBlocks
  rw [h1, h2, h3]
  decide

/-- A tick of the game loop that starts, after the event poll, with the menu state NEW_GAME
starts in the game state MENU with a block array of 84 blocks to build. -/
theorem reachable_newGame_start (g : Game) (events : List Event) (h : Reachable g)
    (hm : (pollEvents g events).currentMenuState = MENUSTATE_NEW_GAME) :
    (pollEvents g events).currentGameState = GAMESTATE_MENU ∧
      newNumberOfBlocks (pollEvents g events) = 84 := by
  obtain ⟨h1, h2, -, -⟩ := pollEvents_loopInv events g (reachable_loopInv g h)
  constructor
  · have hns : ¬ (pollEvents g events).inSession := by
      intro hs
      rcases (h2 hs).1 with k | k <;> rw [k] at hm <;> cases hm
    unfold Game.inSession at hns
    cases hc : (pollEvents g events).currentGameState <;> simp_all
  · have hr := (reachable_grid g h).1
    rw [← pollEvents_grid events g] at hr
    simp only [Game.grid, Prod.mk.injEq] at hr
    obtain ⟨e1, e2, e3, -⟩ := hr
    unfold newNumberOfBlocks
    rw [e1, e2, e3]
    decide


theorem evalResult_ball_vel (g : Game) (b : Block) :
    (evalResult g b).1.ball.vel =
      if b.type = 0 then
        if g.ball.vel.x > 0 then ⟨g.ball.vel.x * 2, g.ball.vel.y⟩ else ⟨g.ball.vel.x, g.ball.vel.y * 2⟩
      else g.ball.vel := by
  have hb : ∀ r : Game × Block, r.1.ball = g.ball → r.2.type = b.type →
      (extraEnergy r.1.ball r.2).vel =
        if b.type = 0 then
          if g.ball.vel.x > 0 then ⟨g.ball.vel.x * 2, g.ball.vel.y⟩
          else ⟨g.ball.vel.x, g.ball.vel.y * 2⟩
        else g.ball.vel := by
    intro r h1 h2
    simp only [extraEnergy, h1, h2]
    split_ifs <;> rfl
  unfold evalResult
  simp only []
  apply hb
  · split_ifs <;> simp
  · split_ifs <;> rfl


theorem hitsRight_iff_hitsBottom (ball : Ball) (b : Block) : hitsRight ball b ↔ hitsBottom ball b := by
  unfold hitsRight hitsBottom
  constructor
  · rintro ⟨h1, h2, h3⟩; exact ⟨h1, h3, h2⟩
  · rintro ⟨h1, h2, h3⟩; exact ⟨h1, h3, h2⟩

/-- The face test registers a hit exactly when the rectangles overlap and the ball's top-left
corner is to the right of or below the block's top-left corner. -/
theorem faceTest_hit_iff (ball : Ball) (b : Block) :
    (faceTest ball b).2 = true ↔
      overlaps ball b ∧ (ball.pos.x > b.pos.x ∨ ball.pos.y > b.pos.y) := by
  have hW : BALL_WIDTH = 8 := rfl
  have hH : BALL_HEIGHT = 8 := rfl
  unfold faceTest overlaps
  by_cases h1 : hitsBottom ball b
  · simp only [h1, if_true, true_iff]
    unfold hitsBottom at h1
    obtain ⟨⟨a1, a2⟩, a3, a4⟩ := h1
    rw [hW, hH]
    exact ⟨⟨a1, by linarith, a3, by linarith⟩, Or.inl a2⟩
  · by_cases h2 : hitsTop ball b
    · simp only [h1, h2, if_true, if_false, true_iff]
      unfold hitsTop at h2
      obtain ⟨⟨a1, a2⟩, a3, a4⟩ := h2
      rw [hW]
      exact ⟨⟨a3, by linarith, a2, a1⟩, Or.inl a4⟩
    · by_cases h3 : hitsLeft ball b
      · simp only [h1, h2, h3, if_true, if_false, true_iff]
        unfold hitsLeft at h3
        obtain ⟨⟨a1, a2⟩, a3, a4⟩ := h3
        rw [hH]
        exact ⟨⟨a2, a1, a4, by linarith⟩, Or.inr a3⟩
      · have h4 : ¬ hitsRight ball b := fun k => h1 ((hitsRight_iff_hitsBottom ball b).mp k)
        simp only [h1, h2, h3, h4, if_false]
        constructor
        · intro k; cases k
        · rintro ⟨⟨a1, a2, a3, a4⟩, k | k⟩
          · exact absurd ⟨⟨a4, a3⟩, a1, k⟩ h2
          · exact absurd ⟨⟨a2, a1⟩, k, a3⟩ h3

/-- A registered hit never ends with the ball snapped to the right face of the block. -/
theorem faceTest_not_right (ball : Ball) (b : Block) (h : (faceTest ball b).2 = true) :
    (faceTest ball b).1.pos.x ≠ b.pos.x + BLOCK_WIDTH := by
  have hW : BALL_WIDTH = 8 := rfl
  have hK : BLOCK_WIDTH = 32 := rfl
  unfold faceTest at h ⊢
  by_cases h1 : hitsBottom ball b
  · simp only [h1, if_true]
    exact ne_of_lt h1.1.1
  · by_cases h2 : hitsTop ball b
    · simp only [h1, h2, if_true, if_false]
      exact ne_of_lt h2.2.1
    · by_cases h3 : hitsLeft ball b
      · simp only [h1, h2, h3, if_true, if_false]
        rw [hW, hK]; intro k; linarith
      · have h4 : ¬ hitsRight ball b := fun k => h1 ((hitsRight_iff_hitsBottom ball b).mp k)
        simp [h1, h2, h3, h4] at h


theorem UpdateMenuBackground_items (delta : ℚ) (g : Game) :
    (UpdateMenuBackground delta g).menu.newGame = g.menu.newGame ∧
      (UpdateMenuBackground delta g).menu.continueGame = g.menu.continueGame ∧
      (UpdateMenuBackground delta g).menu.exitGame = g.menu.exitGame ∧
      (UpdateMenuBackground delta g).menu.instruction = g.menu.instruction := by
  unfold UpdateMenuBackground; simp only []
  split_ifs <;> exact ⟨rfl, rfl, rfl, rfl⟩

theorem GameUpdate_root (delta : ℚ) (inp : Input) (g : Game)
    (hs : g.currentGameState = GAMESTATE_MENU) (hm : g.currentMenuState = MENUSTATE_NONE) :
    GameUpdate delta inp g = menuRootPhase delta inp g := by
  rw [GameUpdate_of_not_play delta inp g (by simp [hs])]
  unfold afterPlay
  have e : (if g.currentGameState = GAMESTATE_NEXT_LEVEL then nextLevelPhase delta g else g) = g := by
    rw [if_neg (by simp [hs])]
  rw [e, if_neg (by simp [hs])]
  exact menuChain_root delta inp g hs hm


theorem map_pos_of_forall₂ {l l' : List Block}
    (h : List.Forall₂ (fun b b' => b'.pos = b.pos) l l') :
    l'.map (fun b => b.pos) = l.map (fun b => b.pos) := by
  induction h with
  | nil => rfl
  | cons hab _ ih => simp only [List.map_cons, hab, ih]

theorem beforeLevelRules_positions (delta : ℚ) (g : Game) :
    (beforeLevelRules delta g).blocks.map (fun b => b.pos) = g.blocks.map (fun b => b.pos) := by
  have h1 := ballVsBlocks_scanStep (ballMovement (paddleVsWindow (paddleMovement g)))
  simp only [ballMovement_blocks, paddleVsWindow_blocks, paddleMovement_blocks] at h1
  have h2 : (ballVsBlocks (ballMovement (paddleVsWindow (paddleMovement g)))).blocks.map
      (fun b => b.pos) = g.blocks.map (fun b => b.pos) := by
    apply map_pos_of_forall₂
    refine List.Forall₂.imp ?_ h1
    intro b b' hb
    rcases hb with hb | hb
    · rw [hb]
    · exact hb.2.2.1
  unfold beforeLevelRules
  simp only [blockAttachments, ballVsWindow_blocks, ballVsPaddle_blocks, List.map_map]
  rw [← h2]
  apply List.map_congr_left
  intro b _
  simp

theorem lowerBlocks_positions (delta : ℚ) (stray : Block) (g : Game) :
    (lowerBlocks delta stray g).blocks.map (fun b => b.pos) =
      if g.score.accumulator + delta > TIME_BETWEEN_LOWERING_BLOCKS ∧
          ¬ (g.blocks.getLastD stray).pos.y > g.paddle.pos.y - (g.paddle.size.y * 6) then
        g.blocks.map (fun b => lowered b.pos)
      else g.blocks.map (fun b => b.pos) := by
  by_cases h1 : g.score.accumulator + delta > TIME_BETWEEN_LOWERING_BLOCKS
  · by_cases h2 : (g.blocks.getLastD stray).pos.y > g.paddle.pos.y - (g.paddle.size.y * 6)
    · have e : lowerBlocks delta stray g =
          { g with score := { g.score with accumulator := 0 },
                   currentGameState := GAMESTATE_GAME_OVER } := by
        unfold lowerBlocks; simp only []; rw [if_pos h1, if_pos h2]
      rw [e, if_neg (fun k => k.2 h2)]
    · have e : lowerBlocks delta stray g =
          { g with score := { g.score with accumulator := 0 },
                   blocks := g.blocks.map
                     (fun b => { b with pos := { b.pos with y := b.pos.y + 10 } }) } := by
        unfold lowerBlocks; simp only []; rw [if_pos h1, if_neg h2]
      rw [e, if_pos ⟨h1, h2⟩]
      simp only [List.map_map]
      rfl
  · have e : lowerBlocks delta stray g =
        { g with score := { g.score with accumulator := g.score.accumulator + delta } } := by
      unfold lowerBlocks; simp only []; rw [if_neg h1]
    rw [e, if_neg (fun k => h1 k.1)]

theorem levelRules_level2 (delta : ℚ) (stray : Block) (g : Game) (h : g.score.level = 2) :
    levelRules delta stray g = lowerBlocks delta stray g := by
  unfold levelRules
  rw [h]
  simp

theorem levelRules_level1 (delta : ℚ) (stray : Block) (g : Game) (h : g.score.level = 1) :
    levelRules delta stray g = g := by
  unfold levelRules
  rw [h]
  simp

theorem lowerBlocks_score_accumulator_eq (delta : ℚ) (stray : Block) (g : Game) :
    (lowerBlocks delta stray g).score.accumulator =
      if g.score.accumulator + delta > TIME_BETWEEN_LOWERING_BLOCKS then 0
      else g.score.accumulator + delta := by
  unfold lowerBlocks
  simp only []
  split_ifs <;> rfl

/-- The block positions after the PLAY phase at levels 1 and 2. -/
theorem playPhase_positions (delta : ℚ) (inp : Input) (g : Game)
    (hlevel : g.score.level = 1 ∨ g.score.level = 2) :
    (playPhase delta inp g).blocks.map (fun b => b.pos) =
      if g.score.level = 2 ∧ g.score.accumulator + delta > TIME_BETWEEN_LOWERING_BLOCKS ∧
          ¬ (g.blocks.getLastD inp.strayBlock).pos.y > g.paddle.pos.y - (g.paddle.size.y * 6) then
        g.blocks.map (fun b => lowered b.pos)
      else g.blocks.map (fun b => b.pos) := by
  obtain ⟨f1, f2, f3, f4, f5⟩ := beforeLevelRules_frame delta inp g
  have hp := beforeLevelRules_positions delta g
  have hp' : (beforeLevelRules delta g).blocks.map (fun b => lowered b.pos) =
      g.blocks.map (fun b => lowered b.pos) := by
    have := congrArg (List.map lowered) hp
    simpa [List.map_map, Function.comp] using this
  have e : playPhase delta inp g = levelRules delta inp.strayBlock (beforeLevelRules delta g) := rfl
  rw [e]
  rcases hlevel with h | h
  · have h2 : ¬ g.score.level = 2 := by rw [h]; decide
    rw [levelRules_level1 _ _ _ (f1.trans h), if_neg (fun k => h2 k.1)]
    exact hp
  · rw [levelRules_level2 _ _ _ (f1.trans h), lowerBlocks_positions, f2, f3, f4, f5, hp, hp']
    simp only [h, true_and]

theorem playPhase_score_accumulator_level2 (delta : ℚ) (inp : Input) (g : Game)
    (hlevel : g.score.level = 2) :
    (playPhase delta inp g).score.accumulator =
      if g.score.accumulator + delta > TIME_BETWEEN_LOWERING_BLOCKS then 0
      else g.score.accumulator + delta := by
  obtain ⟨f1, f2, -, -, -⟩ := beforeLevelRules_frame delta inp g
  have e : playPhase delta inp g = levelRules delta inp.strayBlock (beforeLevelRules delta g) := rfl
  rw [e, levelRules_level2 _ _ _ (f1.trans hlevel), lowerBlocks_score_accumulator_eq, f2]


theorem updateAttached_explosionState (delta : ℚ) (b : Block) :
    explosionState (updateAttached delta b) = explosionTick delta (explosionState b) := by
  unfold updateAttached explosionState explosionTick updateExplosion
  simp only []
  by_cases h1 : b.isSplitterActive = true <;> by_cases h2 : b.isExplosinActive = true <;>
    by_cases h3 : b.explosion.timeToNextFrame - delta ≤ 0 <;> simp [h1, h2, h3]

theorem lowerBlocks_explosion (delta : ℚ) (stray : Block) (g : Game) :
    List.Forall₂ (fun b b' => b'.health = b.health ∧ explosionState b' = explosionState b)
      g.blocks (lowerBlocks delta stray g).blocks := by
  unfold lowerBlocks; simp only []
  split_ifs
  · exact List.forall₂_same.mpr (fun _ _ => ⟨rfl, rfl⟩)
  · simp only [List.forall₂_map_right_iff]
    exact List.forall₂_same.mpr (fun _ _ => ⟨rfl, rfl⟩)
  · exact List.forall₂_same.mpr (fun _ _ => ⟨rfl, rfl⟩)

theorem levelRules_explosion (delta : ℚ) (stray : Block) (g : Game) :
    List.Forall₂ (fun b b' => b'.health = b.health ∧ explosionState b' = explosionState b)
      g.blocks (levelRules delta stray g).blocks := by
  unfold levelRules; simp only []
  split_ifs
  · exact List.forall₂_same.mpr (fun _ _ => ⟨rfl, rfl⟩)
  · exact lowerBlocks_explosion delta stray g
  · exact lowerBlocks_explosion delta stray g
  · exact lowerBlocks_explosion delta stray g
  · exact List.forall₂_same.mpr (fun _ _ => ⟨rfl, rfl⟩)

/-- What the PLAY phase does to the explosion of a destroyed block: one `explosionTick`. -/
theorem playPhase_explosion (delta : ℚ) (inp : Input) (g : Game) :
    List.Forall₂ (fun b b' => b.health = 0 →
        b'.health = 0 ∧ explosionState b' = explosionTick delta (explosionState b))
      g.blocks (playPhase delta inp g).blocks := by
  have h1 := ballVsBlocks_scanStep (ballMovement (paddleVsWindow (paddleMovement g)))
  simp only [ballMovement_blocks, paddleVsWindow_blocks, paddleMovement_blocks] at h1
  have h2 : List.Forall₂ (fun b b' => b.health = 0 →
      b'.health = 0 ∧ explosionState b' = explosionTick delta (explosionState b))
      g.blocks (beforeLevelRules delta g).blocks := by
    unfold beforeLevelRules
    simp only [blockAttachments, ballVsWindow_blocks, ballVsPaddle_blocks,
      List.forall₂_map_right_iff]
    refine List.Forall₂.imp ?_ h1
    intro b b' hb h0
    rcases hb with hb | hb
    · rw [hb]; exact ⟨by simp [h0], updateAttached_explosionState delta b⟩
    · exact absurd h0 hb.1
  have h3 := levelRules_explosion delta inp.strayBlock (beforeLevelRules delta g)
  have e : playPhase delta inp g = levelRules delta inp.strayBlock (beforeLevelRules delta g) := rfl
  rw [e]
  refine List.Forall₂.imp ?_ (forall₂_comp h2 h3)
  rintro b b' ⟨c, hc, hc'⟩ h0
  obtain ⟨k1, k2⟩ := hc h0
  exact ⟨hc'.1.trans k1, hc'.2.trans k2⟩

theorem explosionTick_inactive (delta : ℚ) (f : Vec2) (t : ℚ) :
    explosionTick delta (false, f, t) = (false, f, t) := by
  simp [explosionTick]

theorem explosionTick_iterate_inactive (delta : ℚ) (f : Vec2) (t : ℚ) (n : Nat) :
    (explosionTick delta)^[n] (false, f, t) = (false, f, t) := by
  induction n with
  | zero => rfl
  | succ n ih => rw [Function.iterate_succ_apply', ih, explosionTick_inactive]

/-- The first 60 ticks of the animation, tick by tick. -/
theorem explosionTick_iterate_le (n : Nat) (h : n < 61) :
    (explosionTick TIME_STEP)^[n] (true, ⟨0, 0⟩, EXPLOSION_TIME_BETWEEN_FRAMES) =
      (decide (n < 60), sheetFrame n, EXPLOSION_TIME_BETWEEN_FRAMES - ((n % 3 : Nat) : ℚ) * TIME_STEP) := by
  revert n
  decide!

/-- The animation after any number of ticks of `TIME_STEP`. -/
theorem explosionTick_iterate (n : Nat) :
    (explosionTick TIME_STEP)^[n] (true, ⟨0, 0⟩, EXPLOSION_TIME_BETWEEN_FRAMES) =
      (decide (n < 60), sheetFrame (min n 60),
        EXPLOSION_TIME_BETWEEN_FRAMES - (((min n 60) % 3 : Nat) : ℚ) * TIME_STEP) := by
  by_cases h : n < 61
  · rw [explosionTick_iterate_le n h]
    by_cases h' : n < 60
    · rw [min_eq_left (le_of_lt h')]
    · have : n = 60 := by omega
      subst this
      rfl
  · have hn : n = (n - 60) + 60 := by omega
    have h60 := explosionTick_iterate_le 60 (by decide)
    rw [hn, Function.iterate_add_apply, h60]
    have hd : decide (60 < 60) = false := by decide
    rw [hd, explosionTick_iterate_inactive]
    have hm : min (n - 60 + 60) 60 = 60 := by omega
    have hd' : decide (n - 60 + 60 < 60) = false := by
      rw [decide_eq_false_iff_not]; omega
    rw [hm, hd']

theorem sheetFrame_range (n : Nat) (h : n < 60) :
    ((sheetFrame n).x = 0 ∨ (sheetFrame n).x = 1 ∨ (sheetFrame n).x = 2 ∨ (sheetFrame n).x = 3) ∧
      ((sheetFrame n).y = 0 ∨ (sheetFrame n).y = 1 ∨ (sheetFrame n).y = 2 ∨ (sheetFrame n).y = 3 ∨
        (sheetFrame n).y = 4) := by
  revert n
  decide!

/-- The explosion of a destroyed block along a run of PLAY ticks. -/
theorem playRun_explosion (g g' : Game) (n : Nat) (h : PlayRun g n g') :
    List.Forall₂ (fun b b' => b.health = 0 →
        b'.health = 0 ∧ explosionState b' = (explosionTick TIME_STEP)^[n] (explosionState b))
      g.blocks g'.blocks := by
  induction h with
  | start => exact List.forall₂_same.mpr (fun _ _ h0 => ⟨h0, rfl⟩)
  | tick g' n events inp _ hplay hmenu hnl ih =>
    have hs := GameUpdate_session_of_play TIME_STEP inp (pollEvents g' events) hplay hmenu hnl
    have hp := playPhase_explosion TIME_STEP inp (pollEvents g' events)
    rw [(pollEvents_session events g').1] at hp
    have e : (tick g' (events, inp)).blocks = (playPhase TIME_STEP inp (pollEvents g' events)).blocks :=
      hs.1
    rw [e]
    refine List.Forall₂.imp ?_ (forall₂_comp ih hp)
    rintro b b' ⟨c, hc, hc'⟩ h0
    obtain ⟨k1, k2⟩ := hc h0
    obtain ⟨k3, k4⟩ := hc' k1
    exact ⟨k3, by rw [k4, k2, Function.iterate_succ_apply']⟩


theorem menuChain_blocks_cases (delta : ℚ) (inp : Input) (g : Game) :
    (menuChain delta inp g).blocks = g.blocks ∨ menuChain delta inp g = newGame inp g := by
  unfold menuChain
  split_ifs
  · left; simp
  · left; simp
  · right; rfl
  · left; rfl
  · left; simp
  · left; rfl
  · left; rfl

theorem beforeMenuChain_blocks (delta : ℚ) (inp : Input) (g : Game) :
    (beforeMenuChain delta inp g).blocks =
      (if g.currentGameState = GAMESTATE_PLAY then playPhase delta inp g else g).blocks := by
  unfold beforeMenuChain
  simp only []
  split_ifs <;> simp

theorem beforeMenuChain_grid (delta : ℚ) (inp : Input) (g : Game) :
    (beforeMenuChain delta inp g).grid = g.grid := by
  unfold beforeMenuChain
  simp only []
  have e1 : (if g.currentGameState = GAMESTATE_PLAY then playPhase delta inp g else g).grid
      = g.grid := by
    split_ifs
    · exact playPhase_grid _ _ _
    · rfl
  generalize (if g.currentGameState = GAMESTATE_PLAY then playPhase delta inp g else g) = g1 at e1 ⊢
  have e2 : (if g1.currentGameState = GAMESTATE_NEXT_LEVEL then nextLevelPhase delta g1 else g1).grid
      = g.grid := by
    split_ifs
    · rw [nextLevelPhase_grid]; exact e1
    · exact e1
  generalize (if g1.currentGameState = GAMESTATE_NEXT_LEVEL then nextLevelPhase delta g1 else g1)
    = g2 at e2 ⊢
  split_ifs
  · rw [gameOverPhase_grid]; exact e2
  · exact e2

/-- The blocks after a tick: those of the start, those the PLAY phase leaves, or those of a new
game (built on the grid of the start state). -/
theorem GameUpdate_blocks_cases (delta : ℚ) (inp : Input) (g : Game) :
    (GameUpdate delta inp g).blocks = g.blocks ∨
      (GameUpdate delta inp g).blocks = (playPhase delta inp g).blocks ∨
      ∃ h : Game, h.grid = g.grid ∧ (GameUpdate delta inp g).blocks = (newGame inp h).blocks := by
  rw [GameUpdate_eq]
  rcases menuChain_blocks_cases delta inp (beforeMenuChain delta inp g) with h | h
  · rw [h, beforeMenuChain_blocks]
    split_ifs
    · right; left; rfl
    · left; rfl
  · right; right
    exact ⟨_, beforeMenuChain_grid delta inp g, by rw [h]⟩

/-! ### Exploding blocks are destroyed blocks -/

theorem evalResult_exploding (g : Game) (b : Block) (hb : b.health ≠ 0)
    (h : b.isExplosinActive = true → b.health = 0) :
    (evalResult g b).2.isExplosinActive = true → (evalResult g b).2.health = 0 := by
  unfold evalResult
  simp only []
  split_ifs with h1 h2
  · intro _; exact h1
  · intro k; exact absurd (h k) hb
  · intro k; exact absurd (h k) hb

theorem ballVsBlocks_explodingDestroyed (g : Game) (h : explodingDestroyed g.blocks) :
    explodingDestroyed (ballVsBlocks g).blocks := by
  unfold ballVsBlocks; simp only []
  rcases ballVsBlocksLoop_cases g g.blocks with ⟨e, _⟩ | ⟨pre, b, post, hbs, _, hb, _, e⟩
  · rw [e]; exact h
  · rw [e]
    intro c hc
    simp only [List.mem_append, List.mem_cons] at hc
    rcases hc with hc | hc | hc
    · exact h c (by rw [hbs]; simp [hc])
    · rw [hc]
      exact evalResult_exploding _ b hb (h b (by rw [hbs]; simp))
    · exact h c (by rw [hbs]; simp [hc])

theorem updateAttached_exploding (delta : ℚ) (b : Block) :
    (updateAttached delta b).isExplosinActive = true → b.isExplosinActive = true := by
  unfold updateAttached; simp only []
  split_ifs <;> simp_all

theorem playPhase_explodingDestroyed (delta : ℚ) (inp : Input) (g : Game)
    (h : explodingDestroyed g.blocks) : explodingDestroyed (playPhase delta inp g).blocks := by
  have h1 := ballVsBlocks_explodingDestroyed (ballMovement (paddleVsWindow (paddleMovement g)))
    (by simpa using h)
  have h2 : explodingDestroyed (beforeLevelRules delta g).blocks := by
    unfold beforeLevelRules
    simp only [blockAttachments, ballVsWindow_blocks, ballVsPaddle_blocks]
    intro c hc
    obtain ⟨b, hb, rfl⟩ := List.mem_map.mp hc
    intro k
    rw [updateAttached_health]
    exact h1 b hb (updateAttached_exploding delta b k)
  have h3 := levelRules_explosion delta inp.strayBlock (beforeLevelRules delta g)
  have e : playPhase delta inp g = levelRules delta inp.strayBlock (beforeLevelRules delta g) := rfl
  rw [e]
  generalize (beforeLevelRules delta g).blocks = l at h2 h3
  generalize (levelRules delta inp.strayBlock (beforeLevelRules delta g)).blocks = l' at h3
  induction h3 with
  | nil => intro c hc; cases hc
  | cons hab _ ih =>
    intro c hc
    rcases List.mem_cons.mp hc with hc | hc
    · rw [hc]
      intro k
      have k' : explosionState _ = explosionState _ := hab.2
      simp only [explosionState, Prod.mk.injEq] at k'
      rw [hab.1]
      exact h2 _ (List.mem_cons_self _ _) (by rw [← k'.1]; exact k)
    · exact ih (fun x hx => h2 x (List.mem_cons_of_mem _ hx)) c hc

theorem newGame_explodingDestroyed (inp : Input) (g : Game) :
    explodingDestroyed (newGame inp g).blocks := by
  intro b hb k
  have := (newBlocks_isFresh _ _ _ _ _ _ _ b hb).2.2.2.1
  rw [this] at k; cases k

/-- In every state the game loop reaches, a block whose explosion animation runs has health
0. -/
theorem reachable_explodingDestroyed (g : Game) (h : Reachable g) : explodingDestroyed g.blocks := by
  induction h with
  | initial menu => intro b hb; cases hb
  | tick g events inp _ ih =>
    have ih' : explodingDestroyed (pollEvents g events).blocks := by
      rw [(pollEvents_session events g).1]; exact ih
    unfold tick
    rcases GameUpdate_blocks_cases TIME_STEP inp (pollEvents g events) with e | e | ⟨h, -, e⟩
    · rw [e]; exact ih'
    · rw [e]; exact playPhase_explodingDestroyed _ _ _ ih'
    · rw [e]; exact newGame_explodingDestroyed inp h

/-! ### The last block of the array is the lowest -/

theorem getLastD_map {α β : Type} (f : α → β) (l : List α) (d : α) :
    (l.map f).getLastD (f d) = f (l.getLastD d) := by
  induction l generalizing d with
  | nil => rfl
  | cons a l ih => simp only [List.map_cons, List.getLastD_cons]; exact ih a

theorem getLastD_irrel {α : Type} (l : List α) (a : α) (h : a ∈ l) (d d' : α) :
    l.getLastD d = l.getLastD d' := by
  cases l with
  | nil => cases h
  | cons x l => simp only [List.getLastD_cons]

theorem lastLowest_lowered (ps : List Vec2) (h : lastLowest ps) : lastLowest (ps.map lowered) := by
  intro p hp d
  obtain ⟨q, hq, rfl⟩ := List.mem_map.mp hp
  have e : (ps.map lowered).getLastD d = (ps.map lowered).getLastD (lowered d) :=
    getLastD_irrel _ _ hp _ _
  rw [e, getLastD_map]
  have := h q hq d
  simp only [lowered]
  linarith

theorem levelRules_positions_cases (delta : ℚ) (stray : Block) (g : Game) :
    (levelRules delta stray g).blocks.map (fun b => b.pos) = g.blocks.map (fun b => b.pos) ∨
      (levelRules delta stray g).blocks.map (fun b => b.pos) = g.blocks.map (fun b => lowered b.pos) := by
  have hl : (lowerBlocks delta stray g).blocks.map (fun b => b.pos) = g.blocks.map (fun b => b.pos) ∨
      (lowerBlocks delta stray g).blocks.map (fun b => b.pos) =
        g.blocks.map (fun b => lowered b.pos) := by
    rw [lowerBlocks_positions]
    split_ifs
    · right; rfl
    · left; rfl
  unfold levelRules; simp only []
  split_ifs
  · left; rfl
  · exact hl
  · exact hl
  · exact hl
  · left; rfl

theorem playPhase_lastLowest (delta : ℚ) (inp : Input) (g : Game)
    (h : lastLowest (g.blocks.map (fun b => b.pos))) :
    lastLowest ((playPhase delta inp g).blocks.map (fun b => b.pos)) := by
  have hp := beforeLevelRules_positions delta g
  have e : playPhase delta inp g = levelRules delta inp.strayBlock (beforeLevelRules delta g) := rfl
  rw [e]
  rcases levelRules_positions_cases delta inp.strayBlock (beforeLevelRules delta g) with k | k
  · rw [k, hp]; exact h
  · rw [k]
    have : (beforeLevelRules delta g).blocks.map (fun b => lowered b.pos) =
        (g.blocks.map (fun b => b.pos)).map lowered := by
      rw [← hp, List.map_map]; rfl
    rw [this]
    exact lastLowest_lowered _ h

theorem newBlocks_pos_y_ge (rand : Nat → Nat) (c o : Int) (n i : Nat) (x y : Int) :
    ∀ b ∈ newBlocks rand c o n i x y, (y : ℚ) * BLOCK_HEIGHT ≤ b.pos.y := by
  have hK : (0 : ℚ) ≤ BLOCK_HEIGHT := by norm_num [BLOCK_HEIGHT]
  induction n generalizing i x y with
  | zero => intro b hb; simp [newBlocks] at hb
  | succ n ih =>
    intro b hb
    simp only [newBlocks, List.mem_cons] at hb
    have hy : (y : ℚ) ≤ ((if x = c then y + 1 else y : Int) : ℚ) := by
      split_ifs
      · push_cast; linarith
      · exact le_refl _
    rcases hb with hb | hb
    · rw [hb]
      simp only [newBlock]
      exact mul_le_mul_of_nonneg_right hy hK
    · exact le_trans (mul_le_mul_of_nonneg_right hy hK) (ih _ _ _ b hb)

theorem newBlocks_lastLowest (rand : Nat → Nat) (c o : Int) (n i : Nat) (x y : Int) :
    lastLowest ((newBlocks rand c o n i x y).map (fun b => b.pos)) := by
  induction n generalizing i x y with
  | zero => intro p hp; simp [newBlocks] at hp
  | succ n ih =>
    intro p hp d
    simp only [newBlocks, List.map_cons, List.getLastD_cons] at hp ⊢
    rcases List.mem_cons.mp hp with hp | hp
    · rw [hp]
      cases n with
      | zero => simp [newBlocks]
      | succ m =>
        have hmem : (newBlocks rand c o (m + 1) (i + 1)
            ((if x = c then o else x) + 1) (if x = c then y + 1 else y)).getLastD
              (newBlock rand i (if x = c then o else x) (if x = c then y + 1 else y)) ∈
            newBlocks rand c o (m + 1) (i + 1)
              ((if x = c then o else x) + 1) (if x = c then y + 1 else y) := by
          simp only [newBlocks, List.getLastD_cons]
          rw [← List.getLast_eq_getLastD _ _ (List.cons_ne_nil _ _)]
          exact List.getLast_mem _
        have hge := newBlocks_pos_y_ge rand c o (m + 1) (i + 1)
          ((if x = c then o else x) + 1) (if x = c then y + 1 else y) _ hmem
        have e := getLastD_map (fun b : Block => b.pos) (newBlocks rand c o (m + 1) (i + 1)
          ((if x = c then o else x) + 1) (if x = c then y + 1 else y))
          (newBlock rand i (if x = c then o else x) (if x = c then y + 1 else y))
        rw [e]
        simpa [newBlock] using hge
    · have := ih (i + 1) ((if x = c then o else x) + 1) (if x = c then y + 1 else y) p hp d
      rw [getLastD_irrel _ p hp _ d]
      exact this


theorem newBlocks_positions_rand (rand rand' : Nat → Nat) (c o : Int) (n i : Nat) (x y : Int) :
    (newBlocks rand c o n i x y).map (fun b => b.pos) =
      (newBlocks rand' c o n i x y).map (fun b => b.pos) := by
  induction n generalizing i x y with
  | zero => rfl
  | succ n ih =>
    simp only [newBlocks, List.map_cons]
    rw [ih]
    rfl

theorem newBlocks_layout :
    (newBlocks (fun _ => 0) 24 10 84 0 10 3).map (fun b => b.pos) = newGameLayout := by
  decide!

/-- A new game on the grid of `main` places block `i` at
`((10 + i mod 14) * 32, (3 + i div 14) * 16)`. -/
theorem newGame_layout (inp : Input) (g : Game) (h : g.grid = (24, 4, 10, 3)) :
    (newGame inp g).blocks.map (fun b => b.pos) = newGameLayout := by
  simp only [Game.grid, Prod.mk.injEq] at h
  obtain ⟨h1, h2, h3, h4⟩ := h
  have hn : newNumberOfBlocks g = 84 := by
    unfold newNumberOfBlocks; rw [h1, h2, h3]; decide
  have e : (newGame inp g).blocks =
      newBlocks inp.rand g.blockMaxColumns g.blockOffsetX (newNumberOfBlocks g).toNat 0
        g.blockOffsetX g.blockOffsetY := rfl
  rw [e, hn, h1, h3, h4, newBlocks_positions_rand inp.rand (fun _ => 0)]
  exact newBlocks_layout

theorem newGame_lastLowest (inp : Input) (g : Game) :
    lastLowest ((newGame inp g).blocks.map (fun b => b.pos)) :=
  newBlocks_lastLowest _ _ _ _ _ _ _

theorem GameUpdate_lastLowest (delta : ℚ) (inp : Input) (g : Game)
    (h : lastLowest (g.blocks.map (fun b => b.pos))) :
    lastLowest ((GameUpdate delta inp g).blocks.map (fun b => b.pos)) := by
  rcases GameUpdate_blocks_cases delta inp g with e | e | ⟨k, -, e⟩
  · rw [e]; exact h
  · rw [e]; exact playPhase_lastLowest delta inp g h
  · rw [e]; exact newGame_lastLowest inp k

theorem tick_lastLowest (g : Game) (events : List Event) (inp : Input)
    (h : lastLowest (g.blocks.map (fun b => b.pos))) :
    lastLowest ((tick g (events, inp)).blocks.map (fun b => b.pos)) := by
  unfold tick
  apply GameUpdate_lastLowest
  rw [(pollEvents_session events g).1]
  exact h

theorem playReachable_lastLowest (g : Game) (h : PlayReachable g) :
    lastLowest (g.blocks.map (fun b => b.pos)) := by
  induction h with
  | newGame inp g _ => exact newGame_lastLowest inp g
  | tick g events inp _ _ ih => exact tick_lastLowest g events inp ih

theorem reachable_lastLowest (g : Game) (h : Reachable g) :
    lastLowest (g.blocks.map (fun b => b.pos)) := by
  induction h with
  | initial menu => intro p hp; cases hp
  | tick g events inp _ ih => exact tick_lastLowest g events inp ih

theorem reachable_run (g : Game) (steps : List (List Event × Input)) (h : Reachable g) :
    Reachable (run g steps) := by
  unfold run
  induction steps generalizing g with
  | nil => exact h
  | cons s steps ih => exact ih _ (Reachable.tick g s.1 s.2 h)

/-! ### Binary32 rounding in the paddle bounce -/

theorem round32_zero : round32 0 = 0 := by
  unfold round32
  rw [if_pos rfl]

/-- At the lower end of the claimed interval the stored value is inside the dead zone: with the
ball of `ballAtDeadZoneEdge` at x = 544 the claim's `raw` is exactly -0.1, `w / 80 = 0.4` is
stored as 0.40000001, line 761 stores -0.09999999, and the angle is 0. -/
theorem bounce_lower_endpoint :
    bounceRaw { ballAtDeadZoneEdge with
        ball := { ballAtDeadZoneEdge.ball with pos := ⟨544, 697⟩ } } = -(1 / 10) ∧
      bounceRaw32 { ballAtDeadZoneEdge with
        ball := { ballAtDeadZoneEdge.ball with pos := ⟨544, 697⟩ } } = -(3355443 / 33554432) ∧
      (ballVsPaddle32 { ballAtDeadZoneEdge with
        ball := { ballAtDeadZoneEdge.ball with pos := ⟨544, 697⟩ } }).paddle.angle = 0 := by
  decide!

/-! ### Blocks stay clear of the bottom of the window -/

theorem faceTest_miss_above (ball : Ball) (b : Block) (h : b.pos.y + BLOCK_HEIGHT ≤ ball.pos.y) :
    (faceTest ball b).2 = false := by
  cases hc : (faceTest ball b).2
  · rfl
  · obtain ⟨⟨-, -, h3, -⟩, -⟩ := (faceTest_hit_iff ball b).mp hc
    linarith

theorem descentInv_congr (g g' : Game) (hb : g'.blocks = g.blocks)
    (hy : g'.paddle.pos.y = g.paddle.pos.y) (hs : g'.paddle.size.y = g.paddle.size.y)
    (h : DescentInv g) : DescentInv g' := by
  unfold DescentInv at h ⊢
  rw [hb, hy, hs]
  exact h

theorem menuChain_blocks_paddle_cases (delta : ℚ) (inp : Input) (g : Game) :
    ((menuChain delta inp g).blocks = g.blocks ∧ (menuChain delta inp g).paddle = g.paddle) ∨
      menuChain delta inp g = newGame inp g := by
  unfold menuChain
  split_ifs
  · left; simp
  · left; simp
  · right; rfl
  · left; exact ⟨rfl, rfl⟩
  · left; simp
  · left; exact ⟨rfl, rfl⟩
  · left; exact ⟨rfl, rfl⟩

theorem beforeMenuChain_paddle_eq (delta : ℚ) (inp : Input) (g : Game) :
    (beforeMenuChain delta inp g).paddle =
      (if g.currentGameState = GAMESTATE_PLAY then playPhase delta inp g else g).paddle := by
  unfold beforeMenuChain
  simp only []
  split_ifs <;> simp

theorem playPhase_paddle_y (delta : ℚ) (inp : Input) (g : Game) :
    (playPhase delta inp g).paddle.pos.y = g.paddle.pos.y ∧
      (playPhase delta inp g).paddle.size.y = g.paddle.size.y := by
  obtain ⟨-, -, f3, f4, -⟩ := beforeLevelRules_frame delta inp g
  have e : playPhase delta inp g = levelRules delta inp.strayBlock (beforeLevelRules delta g) := rfl
  rw [e, levelRules_paddle]
  exact ⟨f3, f4⟩

/-- The level rules lower the blocks only while the last block is not below the danger line. -/
theorem levelRules_positions_cond (delta : ℚ) (stray : Block) (g : Game) :
    (levelRules delta stray g).blocks.map (fun b => b.pos) = g.blocks.map (fun b => b.pos) ∨
      ((levelRules delta stray g).blocks.map (fun b => b.pos) = g.blocks.map (fun b => lowered b.pos) ∧
        ¬ (g.blocks.getLastD stray).pos.y > g.paddle.pos.y - (g.paddle.size.y * 6)) := by
  have hl : (lowerBlocks delta stray g).blocks.map (fun b => b.pos) = g.blocks.map (fun b => b.pos) ∨
      ((lowerBlocks delta stray g).blocks.map (fun b => b.pos) = g.blocks.map (fun b => lowered b.pos) ∧
        ¬ (g.blocks.getLastD stray).pos.y > g.paddle.pos.y - (g.paddle.size.y * 6)) := by
    rw [lowerBlocks_positions]
    split_ifs with k
    · right; exact ⟨rfl, k.2⟩
    · left; rfl
  unfold levelRules; simp only []
  split_ifs
  · left; rfl
  · exact hl
  · exact hl
  · exact hl
  · left; rfl

theorem playPhase_descentInv (delta : ℚ) (inp : Input) (g : Game)
    (hl : lastLowest (g.blocks.map (fun b => b.pos))) (h : DescentInv g) :
    DescentInv (playPhase delta inp g) := by
  obtain ⟨-, -, f3, f4, f5⟩ := beforeLevelRules_frame delta inp g
  have hp := beforeLevelRules_positions delta g
  have e : playPhase delta inp g = levelRules delta inp.strayBlock (beforeLevelRules delta g) := rfl
  obtain ⟨hy, hs⟩ := playPhase_paddle_y delta inp g
  obtain ⟨h1, h2⟩ := h
  have hpos : (playPhase delta inp g).blocks.map (fun b => b.pos) = g.blocks.map (fun b => b.pos) ∨
      ((playPhase delta inp g).blocks.map (fun b => b.pos) =
          (g.blocks.map (fun b => b.pos)).map lowered ∧
        ¬ (g.blocks.getLastD inp.strayBlock).pos.y > g.paddle.pos.y - (g.paddle.size.y * 6)) := by
    rw [e]
    rcases levelRules_positions_cond delta inp.strayBlock (beforeLevelRules delta g) with k | ⟨k, k'⟩
    · left; rw [k, hp]
    · right
      rw [f3, f4, f5] at k'
      refine ⟨?_, k'⟩
      rw [k, ← hp, List.map_map]; rfl
  constructor
  · rcases h1 with h1 | h1
    · left
      have hn : (playPhase delta inp g).blocks.map (fun b => b.pos) = [] := by
        rcases hpos with k | ⟨k, -⟩ <;> rw [k, h1] <;> rfl
      exact List.map_eq_nil_iff.mp hn
    · right; rw [hy, hs]; exact h1
  · rcases hpos with k | ⟨k, k'⟩
    · rw [k]; exact h2
    · rw [k]
      intro p hp'
      obtain ⟨q, hq, rfl⟩ := List.mem_map.mp hp'
      rcases h1 with h1 | ⟨a1, a2⟩
      · rw [h1] at hq; cases hq
      · have hlast := hl q hq inp.strayBlock.pos
        have em : (g.blocks.map (fun b => b.pos)).getLastD inp.strayBlock.pos =
            (g.blocks.getLastD inp.strayBlock).pos :=
          getLastD_map (fun b : Block => b.pos) g.blocks inp.strayBlock
        rw [em] at hlast
        rw [a1, a2] at k'
        have hW : WINDOW_HEIGHT = 720 := rfl
        have hF : PADDLE_FRAME_SIZE = 16 := rfl
        have hS : PADDLE_START_HEIGHT = 16 := rfl
        rw [hW, hF, hS] at k'
        simp only [lowered]
        linarith [not_lt.mp k']

theorem newGameLayout_high : ∀ p ∈ newGameLayout, p.y ≤ 618 := by decide!

theorem newGame_descentInv (inp : Input) (g : Game) (h : g.grid = (24, 4, 10, 3)) :
    DescentInv (newGame inp g) := by
  refine ⟨Or.inr ⟨rfl, rfl⟩, ?_⟩
  rw [newGame_layout inp g h]
  exact newGameLayout_high

theorem GameUpdate_descentInv (delta : ℚ) (inp : Input) (g : Game) (hg : g.grid = (24, 4, 10, 3))
    (hl : lastLowest (g.blocks.map (fun b => b.pos))) (h : DescentInv g) :
    DescentInv (GameUpdate delta inp g) := by
  rw [GameUpdate_eq]
  rcases menuChain_blocks_paddle_cases delta inp (beforeMenuChain delta inp g) with ⟨k1, k2⟩ | k
  · have hb := beforeMenuChain_blocks delta inp g
    have hq := beforeMenuChain_paddle_eq delta inp g
    by_cases hs : g.currentGameState = GAMESTATE_PLAY
    · rw [if_pos hs] at hb hq
      exact descentInv_congr (playPhase delta inp g) _ (by rw [k1, hb]) (by rw [k2, hq])
        (by rw [k2, hq]) (playPhase_descentInv delta inp g hl h)
    · rw [if_neg hs] at hb hq
      exact descentInv_congr g _ (by rw [k1, hb]) (by rw [k2, hq]) (by rw [k2, hq]) h
  · rw [k]
    exact newGame_descentInv inp _ (by rw [beforeMenuChain_grid]; exact hg)

theorem handleEvent_paddle_y (g : Game) (e : Event) :
    (handleEvent g e).paddle.pos.y = g.paddle.pos.y ∧
      (handleEvent g e).paddle.size.y = g.paddle.size.y := by
  cases e <;> simp only [handleEvent] <;> (try split_ifs) <;>
    first | exact ⟨rfl, rfl⟩ | exact ⟨trivial, trivial⟩

theorem pollEvents_paddle_y (events : List Event) (g : Game) :
    (pollEvents g events).paddle.pos.y = g.paddle.pos.y ∧
      (pollEvents g events).paddle.size.y = g.paddle.size.y := by
  unfold pollEvents
  induction events generalizing g with
  | nil => exact ⟨rfl, rfl⟩
  | cons e es ih =>
    obtain ⟨h1, h2⟩ := ih (handleEvent g e)
    obtain ⟨k1, k2⟩ := handleEvent_paddle_y g e
    simp only [List.foldl_cons]
    exact ⟨h1.trans k1, h2.trans k2⟩

theorem reachable_descentInv (g : Game) (h : Reachable g) : DescentInv g := by
  induction h with
  | initial menu => exact ⟨Or.inl rfl, fun p hp => by cases hp⟩
  | tick g events inp hr ih =>
    unfold tick
    apply GameUpdate_descentInv
    · rw [pollEvents_grid]; exact (reachable_grid g hr).1
    · rw [(pollEvents_session events g).1]; exact reachable_lastLowest g hr
    · exact descentInv_congr g _ (pollEvents_session events g).1 (pollEvents_paddle_y events g).1
        (pollEvents_paddle_y events g).2 ih

/-- In every state the game loop hands to `GameUpdate`, each block lies above the line
`y = WINDOW_HEIGHT - BALL_HEIGHT = 712`: the descent rule stops lowering the blocks once the last
one is past `pos.y = 608`. -/
theorem reachable_blocks_high (g : Game) (events : List Event) (h : Reachable g) :
    ∀ b ∈ (pollEvents g events).blocks, b.pos.y + BLOCK_HEIGHT ≤ WINDOW_HEIGHT - BALL_HEIGHT := by
  intro b hb
  rw [(pollEvents_session events g).1] at hb
  have := (reachable_descentInv g h).2 b.pos (List.mem_map.mpr ⟨b, hb, rfl⟩)
  have hW : WINDOW_HEIGHT = 720 := rfl
  have hB : BALL_HEIGHT = 8 := rfl
  have hK : BLOCK_HEIGHT = 16 := rfl
  rw [hW, hB, hK]
  linarith

/-! ### A lost ball moves on when play is continued -/

/-- A sequence of states that follows the game loop tick by tick is the run of the loop. -/
theorem run_range (T : Nat → Game) (s : Nat → List Event × Input) (n : Nat)
    (h : ∀ i < n, tick (T i) (s i) = T (i + 1)) :
    run (T 0) ((List.range n).map s) = T n := by
  induction n with
  | zero => rfl
  | succ n ih =>
    have h1 := ih (fun i hi => h i (Nat.lt_succ_of_lt hi))
    unfold run at h1 ⊢
    rw [List.range_succ, List.map_append, List.foldl_append, h1]
    exact h n (Nat.lt_succ_self n)

/-- A property of the ticks below `a` and of the `n` ticks from `a` on holds of the ticks below
`a + n`. -/
theorem forall_lt_add (P : Nat → Prop) (a n : Nat) (h1 : ∀ i < a, P i)
    (h2 : ∀ k < n, P (a + k)) : ∀ i < a + n, P i := by
  intro i hi
  by_cases h : i < a
  · exact h1 i h
  · have e : a + (i - a) = i := by omega
    have := h2 (i - a) (by omega)
    rw [e] at this
    exact this

/-- The debris of the damaged block has left the window eight ticks after the hit. -/
theorem damagedBlock_spent : damagedBlock 8 = spentBlock := by decide!

/-! The run is checked against the closed form in stretches of 128 ticks. -/

theorem lostBallTrajectory_step_0 :
    ∀ k < 128, tick (lostBallTrajectory (0 + k)) (lostBallStep (0 + k)) =
      lostBallTrajectory (0 + k + 1) := by
  decide!

theorem lostBallTrajectory_step_128 :
    ∀ k < 128, tick (lostBallTrajectory (128 + k)) (lostBallStep (128 + k)) =
      lostBallTrajectory (128 + k + 1) := by
  decide!

theorem lostBallTrajectory_step_256 :
    ∀ k < 128, tick (lostBallTrajectory (256 + k)) (lostBallStep (256 + k)) =
      lostBallTrajectory (256 + k + 1) := by
  decide!

theorem lostBallTrajectory_step_384 :
    ∀ k < 128, tick (lostBallTrajectory (384 + k)) (lostBallStep (384 + k)) =
      lostBallTrajectory (384 + k + 1) := by
  decide!

theorem lostBallTrajectory_step_512 :
    ∀ k < 128, tick (lostBallTrajectory (512 + k)) (lostBallStep (512 + k)) =
      lostBallTrajectory (512 + k + 1) := by
  decide!

theorem lostBallTrajectory_step_640 :
    ∀ k < 128, tick (lostBallTrajectory (640 + k)) (lostBallStep (640 + k)) =
      lostBallTrajectory (640 + k + 1) := by
  decide!

theorem lostBallTrajectory_step_768 :
    ∀ k < 128, tick (lostBallTrajectory (768 + k)) (lostBallStep (768 + k)) =
      lostBallTrajectory (768 + k + 1) := by
  decide!

theorem lostBallTrajectory_step_896 :
    ∀ k < 128, tick (lostBallTrajectory (896 + k)) (lostBallStep (896 + k)) =
      lostBallTrajectory (896 + k + 1) := by
  decide!

theorem lostBallTrajectory_step_1024 :
    ∀ k < 128, tick (lostBallTrajectory (1024 + k)) (lostBallStep (1024 + k)) =
      lostBallTrajectory (1024 + k + 1) := by
  decide!

theorem lostBallTrajectory_step_1152 :
    ∀ k < 76, tick (lostBallTrajectory (1152 + k)) (lostBallStep (1152 + k)) =
      lostBallTrajectory (1152 + k + 1) := by
  decide!

/-- Each tick of `lostBallRun` takes the closed form `lostBallTrajectory` one step on. -/
theorem lostBallTrajectory_step :
    ∀ i < 1228, tick (lostBallTrajectory i) (lostBallStep i) = lostBallTrajectory (i + 1) := by
  have h0 : ∀ i < 0, tick (lostBallTrajectory i) (lostBallStep i) = lostBallTrajectory (i + 1) :=
    fun i hi => absurd hi (Nat.not_lt_zero i)
  have h1 : ∀ i < 128, tick (lostBallTrajectory i) (lostBallStep i) = lostBallTrajectory (i + 1) :=
    forall_lt_add (fun i => tick (lostBallTrajectory i) (lostBallStep i) = lostBallTrajectory (i + 1))
      0 128 h0 lostBallTrajectory_step_0
  have h2 : ∀ i < 256, tick (lostBallTrajectory i) (lostBallStep i) = lostBallTrajectory (i + 1) :=
    forall_lt_add (fun i => tick (lostBallTrajectory i) (lostBallStep i) = lostBallTrajectory (i + 1))
      128 128 h1 lostBallTrajectory_step_128
  have h3 : ∀ i < 384, tick (lostBallTrajectory i) (lostBallStep i) = lostBallTrajectory (i + 1) :=
    forall_lt_add (fun i => tick (lostBallTrajectory i) (lostBallStep i) = lostBallTrajectory (i + 1))
      256 128 h2 lostBallTrajectory_step_256
  have h4 : ∀ i < 512, tick (lostBallTrajectory i) (lostBallStep i) = lostBallTrajectory (i + 1) :=
    forall_lt_add (fun i => tick (lostBallTrajectory i) (lostBallStep i) = lostBallTrajectory (i + 1))
      384 128 h3 lostBallTrajectory_step_384
  have h5 : ∀ i < 640, tick (lostBallTrajectory i) (lostBallStep i) = lostBallTrajectory (i + 1) :=
    forall_lt_add (fun i => tick (lostBallTrajectory i) (lostBallStep i) = lostBallTrajectory (i + 1))
      512 128 h4 lostBallTrajectory_step_512
  have h6 : ∀ i < 768, tick (lostBallTrajectory i) (lostBallStep i) = lostBallTrajectory (i + 1) :=
    forall_lt_add (fun i => tick (lostBallTrajectory i) (lostBallStep i) = lostBallTrajectory (i + 1))
      640 128 h5 lostBallTrajectory_step_640
  have h7 : ∀ i < 896, tick (lostBallTrajectory i) (lostBallStep i) = lostBallTrajectory (i + 1) :=
    forall_lt_add (fun i => tick (lostBallTrajectory i) (lostBallStep i) = lostBallTrajectory (i + 1))
      768 128 h6 lostBallTrajectory_step_768
  have h8 : ∀ i < 1024, tick (lostBallTrajectory i) (lostBallStep i) = lostBallTrajectory (i + 1) :=
    forall_lt_add (fun i => tick (lostBallTrajectory i) (lostBallStep i) = lostBallTrajectory (i + 1))
      896 128 h7 lostBallTrajectory_step_896
  have h9 : ∀ i < 1152, tick (lostBallTrajectory i) (lostBallStep i) = lostBallTrajectory (i + 1) :=
    forall_lt_add (fun i => tick (lostBallTrajectory i) (lostBallStep i) = lostBallTrajectory (i + 1))
      1024 128 h8 lostBallTrajectory_step_1024
  have h10 : ∀ i < 1228, tick (lostBallTrajectory i) (lostBallStep i) = lostBallTrajectory (i + 1) :=
    forall_lt_add (fun i => tick (lostBallTrajectory i) (lostBallStep i) = lostBallTrajectory (i + 1))
      1152 76 h9 lostBallTrajectory_step_1152
  exact h10

/-- The game loop takes `ballOverPaddle` to `ballBeyondLeftWall` in the 1228 ticks of
`lostBallRun`. -/
theorem lostBallRun_end : run ballOverPaddle lostBallRun = ballBeyondLeftWall := by
  have h := run_range lostBallTrajectory lostBallStep 1228 lostBallTrajectory_step
  have e0 : lostBallTrajectory 0 = ballOverPaddle := rfl
  have e1 : lostBallTrajectory 1228 = ballBeyondLeftWall := by decide!
  rw [e0, e1] at h
  exact h

/-- What the left-edge rule assigns: `pos.x = 0` and `vel.x = maxVel.x * -paddle.angle`, whose
sign is that of `-paddle.angle`. -/
theorem ballVsWindow_left (g : Game) (h1 : ¬ g.ball.pos.y + BALL_HEIGHT > WINDOW_HEIGHT)
    (h2 : ¬ g.ball.pos.y < 0) (h3 : ¬ g.ball.pos.x + BALL_WIDTH > WINDOW_WIDTH)
    (h4 : g.ball.pos.x < 0) :
    (ballVsWindow g).ball.pos.x = 0 ∧
      (ballVsWindow g).ball.vel.x = g.ball.maxVel.x * -g.paddle.angle := by
  unfold ballVsWindow
  rw [if_neg h1, if_neg h2, if_neg h3, if_pos h4]
  exact ⟨rfl, rfl⟩

/-- What the right-edge rule assigns: `pos.x = WINDOW_WIDTH - BALL_WIDTH` and
`vel.x = -maxVel.x * paddle.angle`, the same value as at the left edge. -/
theorem ballVsWindow_right (g : Game) (h1 : ¬ g.ball.pos.y + BALL_HEIGHT > WINDOW_HEIGHT)
    (h2 : ¬ g.ball.pos.y < 0) (h3 : g.ball.pos.x + BALL_WIDTH > WINDOW_WIDTH) :
    (ballVsWindow g).ball.pos.x = WINDOW_WIDTH - BALL_WIDTH ∧
      (ballVsWindow g).ball.vel.x = -g.ball.maxVel.x * g.paddle.angle := by
  unfold ballVsWindow
  rw [if_neg h1, if_neg h2, if_pos h3]
  exact ⟨rfl, rfl⟩

/-! ## The properties of the specification -/

/-! ### C1 -/

/-- C1 (amended): a tick that starts in PLAY with the paddle inside `[0, WINDOW_WIDTH - size.x]`
(and a non-negative width) leaves it inside that interval widened by the distance moved in the
tick, at most `|vel|` for the velocity after the tick's velocity update, plus the 8 pixels by
which a destroyed block shifts the paddle. -/
theorem paddle_bounds_after_tick (delta : ℚ) (inp : Input) (g : Game)
    (hplay : g.currentGameState = GAMESTATE_PLAY)
    (hlo : 0 ≤ g.paddle.pos.x) (hhi : g.paddle.pos.x ≤ WINDOW_WIDTH - g.paddle.size.x)
    (hdir : g.paddle.dir = -1 ∨ g.paddle.dir = 0 ∨ g.paddle.dir = 1)
    (hsize : 0 ≤ g.paddle.size.x) :
    -(|(paddleMovement g).paddle.vel| + 8) ≤ (GameUpdate delta inp g).paddle.pos.x ∧
      (GameUpdate delta inp g).paddle.pos.x ≤
        WINDOW_WIDTH - (GameUpdate delta inp g).paddle.size.x + (|(paddleMovement g).paddle.vel| + 8) := by
  set v := (paddleMovement g).paddle.vel with hv
  -- the paddle after the clamp/move step
  have hq : (paddleVsWindow (paddleMovement g)).paddle.pos.x = g.paddle.pos.x + v * g.paddle.dir ∧
      (paddleVsWindow (paddleMovement g)).paddle.size = g.paddle.size := by
    refine ⟨?_, by simp⟩
    unfold paddleVsWindow
    have h1 : ¬ (paddleMovement g).paddle.pos.x < 0 := by simp; exact hlo
    have h2 : ¬ (paddleMovement g).paddle.pos.x + (paddleMovement g).paddle.size.x > WINDOW_WIDTH := by
      simp; linarith
    simp only [h1, h2, if_false]
    simp [hv]
  have hstep : |v * (g.paddle.dir : ℚ)| ≤ |v| := by
    rcases hdir with h | h | h <;> simp [h, abs_nonneg]
  have hstep' := abs_le.mp hstep
  have hv0 : 0 ≤ |v| := abs_nonneg v
  have hW : WINDOW_WIDTH = 1080 := rfl
  have hF : PADDLE_FRAME_SIZE = 16 := rfl
  have key : ∀ p : Paddle,
      ((p.pos = (paddleVsWindow (paddleMovement g)).paddle.pos ∧
          p.size = (paddleVsWindow (paddleMovement g)).paddle.size) ∨
        (p.pos = (grownPaddle (paddleVsWindow (paddleMovement g)).paddle).pos ∧
          p.size = (grownPaddle (paddleVsWindow (paddleMovement g)).paddle).size)) →
      (-(|v| + 8) ≤ p.pos.x ∧ p.pos.x ≤ WINDOW_WIDTH - p.size.x + (|v| + 8)) ∧
        (0 ≤ p.size.x ∧ p.size.x ≤ WINDOW_WIDTH + 16) := by
    intro p hp
    rcases hp with ⟨h1, h2⟩ | ⟨h1, h2⟩
    · rw [h1, h2, hq.1, hq.2]
      refine ⟨⟨by linarith [hstep'.1], by linarith [hstep'.2]⟩, hsize, by linarith⟩
    · rw [h1, h2]
      simp only [grownPaddle, hq.1, hq.2, hF]
      refine ⟨⟨by linarith [hstep'.1], by linarith [hstep'.2]⟩, by linarith, by linarith⟩
  have hplayP := key (playPhase delta inp g).paddle (by
    rcases playPhase_paddle_cases delta inp g with h | h
    · left; exact h
    · right; exact ⟨h.1, h.2.1⟩)
  rcases GameUpdate_paddle_of_play delta inp g hplay with h | h
  · rw [h]; exact hplayP.1
  · rw [h]
    simp only [newGamePaddle, hW, PADDLE_START_WIDTH, hF]
    obtain ⟨_, h3, h4⟩ := hplayP
    rw [hW] at h4
    constructor <;> linarith

/-- C1 (counterexample): from a PLAY state with the paddle in bounds at `pos.x = 0`, at rest, with
the left key held (`dir = -1`), one tick ends with `pos.x = -7/10`. -/
theorem paddle_bounds_counterexample :
    paddleAtLeftWall.currentGameState = GAMESTATE_PLAY ∧
      0 ≤ paddleAtLeftWall.paddle.pos.x ∧
      paddleAtLeftWall.paddle.pos.x ≤ WINDOW_WIDTH - paddleAtLeftWall.paddle.size.x ∧
      paddleAtLeftWall.paddle.dir = -1 ∧
      (GameUpdate TIME_STEP sampleInput paddleAtLeftWall).paddle.pos.x = -(7 / 10) ∧
      ¬ (0 ≤ (GameUpdate TIME_STEP sampleInput paddleAtLeftWall).paddle.pos.x) := by
  decide!

/-- C1 (witness): the amended bound at the state of the counterexample. -/
theorem paddle_bounds_after_tick_witness :
    (paddleAtLeftWall.currentGameState = GAMESTATE_PLAY ∧
      0 ≤ paddleAtLeftWall.paddle.pos.x ∧
      paddleAtLeftWall.paddle.pos.x ≤ WINDOW_WIDTH - paddleAtLeftWall.paddle.size.x ∧
      0 ≤ paddleAtLeftWall.paddle.size.x) ∧
    (-(|(paddleMovement paddleAtLeftWall).paddle.vel| + 8) ≤
        (GameUpdate TIME_STEP sampleInput paddleAtLeftWall).paddle.pos.x ∧
      (GameUpdate TIME_STEP sampleInput paddleAtLeftWall).paddle.pos.x ≤
        WINDOW_WIDTH - (GameUpdate TIME_STEP sampleInput paddleAtLeftWall).paddle.size.x +
          (|(paddleMovement paddleAtLeftWall).paddle.vel| + 8)) :=
  ⟨by decide!,
    paddle_bounds_after_tick TIME_STEP sampleInput paddleAtLeftWall (by decide!) (by decide!)
      (by decide!) (by decide!) (by decide!)⟩

/-! ### C2 -/

/-- C2: in a tick that starts in PLAY (and does not start a new game: no NEW_GAME request is
pending and the next-level display time has not run out), every block whose health is 0, 1 or 2
ends the tick with a health that is not larger and is again 0, 1 or 2, and a block of health 0
keeps health 0.  Moreover a block of health 0 is never selected by the ball-vs-block scan:
inserting one anywhere in the array leaves the result of the scan as it is, the inserted block
untouched in its place, and the ball, score, paddle and active-block counter the same. -/
theorem block_health_monotone (delta : ℚ) (inp : Input) (g : Game)
    (hplay : g.currentGameState = GAMESTATE_PLAY)
    (hmenu : g.currentMenuState ≠ MENUSTATE_NEW_GAME)
    (hnl : g.nextLevelAccumulator + delta ≤ TIME_TO_SHOW_NEXT_LEVEL) :
    List.Forall₂
        (fun b b' => (b.health = 0 ∨ b.health = 1 ∨ b.health = 2) →
          b'.health ≤ b.health ∧ (b'.health = 0 ∨ b'.health = 1 ∨ b'.health = 2) ∧
            (b.health = 0 → b'.health = 0))
        g.blocks (GameUpdate delta inp g).blocks ∧
      ∀ (pre post : List Block) (b0 : Block), b0.health = 0 →
        ballVsBlocks { g with blocks := pre ++ b0 :: post } =
          { ballVsBlocks { g with blocks := pre ++ post } with
            blocks := (ballVsBlocks { g with blocks := pre ++ post }).blocks.take pre.length ++
              b0 :: (ballVsBlocks { g with blocks := pre ++ post }).blocks.drop pre.length } := by
  refine ⟨?_, fun pre post b0 h0 => ballVsBlocks_insert_dead g pre post b0 h0⟩
  rw [(GameUpdate_session_of_play delta inp g hplay hmenu hnl).1]
  refine List.Forall₂.imp ?_ (playPhase_blocks delta inp g)
  rintro b b' ⟨c, hbc, hc1, -, -⟩ hb
  rw [hc1]
  rcases hbc with rfl | ⟨hne, hc, -, -⟩
  · exact ⟨le_refl _, hb, fun h => h⟩
  · rw [hc]
    unfold toggleHealth
    rcases hb with h | h | h
    · exact absurd h hne
    · simp [h]
    · simp [h]

/-- C2 (witness): a tick in which the ball hits the intact block from below, and the scan with
a destroyed block inserted in front of that block. -/
theorem block_health_monotone_witness :
    (ballBelowBlock.currentGameState = GAMESTATE_PLAY ∧
      ballBelowBlock.currentMenuState ≠ MENUSTATE_NEW_GAME ∧
      ballBelowBlock.nextLevelAccumulator + TIME_STEP ≤ TIME_TO_SHOW_NEXT_LEVEL) ∧
    List.Forall₂
        (fun b b' => (b.health = 0 ∨ b.health = 1 ∨ b.health = 2) →
          b'.health ≤ b.health ∧ (b'.health = 0 ∨ b'.health = 1 ∨ b'.health = 2) ∧
            (b.health = 0 → b'.health = 0))
        ballBelowBlock.blocks (GameUpdate TIME_STEP sampleInput ballBelowBlock).blocks ∧
    ballVsBlocks { ballBelowBlock with
        blocks := [] ++ { sampleBlock 10 3 with health := 0 } :: [sampleBlock 10 3] } =
      { ballVsBlocks { ballBelowBlock with blocks := [] ++ [sampleBlock 10 3] } with
        blocks := (ballVsBlocks { ballBelowBlock with blocks := [] ++ [sampleBlock 10 3] }).blocks.take
            ([] : List Block).length ++
          { sampleBlock 10 3 with health := 0 } ::
            (ballVsBlocks { ballBelowBlock with blocks := [] ++ [sampleBlock 10 3] }).blocks.drop
              ([] : List Block).length } :=
  ⟨by decide!,
    (block_health_monotone TIME_STEP sampleInput ballBelowBlock (by decide!) (by decide!)
      (by decide!)).1,
    (block_health_monotone TIME_STEP sampleInput ballBelowBlock (by decide!) (by decide!)
      (by decide!)).2 [] [sampleBlock 10 3] { sampleBlock 10 3 with health := 0 } rfl⟩

/-! ### C3 -/

/-- C3: starting in game state MENU (the initial state of `main`, whatever the menu state), after
any sequence of ticks of the game loop (each the event poll followed by `GameUpdate(TIME_STEP)`),
with any events and inputs, the game state is one of MENU, PLAY, NEXT_LEVEL, GAME_OVER,
COMPLETED_GAME; it is never GAMESTATE_NONE at a tick boundary. -/
theorem phase_invariant (g : Game) (steps : List (List Event × Input))
    (hgame : g.currentGameState = GAMESTATE_MENU) :
    (run g steps).currentGameState = GAMESTATE_MENU ∨
      (run g steps).currentGameState = GAMESTATE_PLAY ∨
      (run g steps).currentGameState = GAMESTATE_NEXT_LEVEL ∨
      (run g steps).currentGameState = GAMESTATE_GAME_OVER ∨
      (run g steps).currentGameState = GAMESTATE_COMPLETED_GAME := by
  have h := run_phase steps g (by rw [hgame]; decide)
  cases hs : (run g steps).currentGameState <;> simp_all

/-- C3 (witness): the initial state of `main`, an idle tick, a click on "Play New Game" and the
tick that starts the game. -/
theorem phase_invariant_witness :
    (initialGame sampleMenu).currentGameState = GAMESTATE_MENU ∧
    ((run (initialGame sampleMenu) clickNewGame).currentGameState = GAMESTATE_MENU ∨
      (run (initialGame sampleMenu) clickNewGame).currentGameState = GAMESTATE_PLAY ∨
      (run (initialGame sampleMenu) clickNewGame).currentGameState = GAMESTATE_NEXT_LEVEL ∨
      (run (initialGame sampleMenu) clickNewGame).currentGameState = GAMESTATE_GAME_OVER ∨
      (run (initialGame sampleMenu) clickNewGame).currentGameState = GAMESTATE_COMPLETED_GAME) :=
  ⟨rfl, phase_invariant (initialGame sampleMenu) clickNewGame rfl⟩

/-! ### C4 -/

/-- C4: in every state reached from a new-game initialisation by ticks that start in PLAY,
`numberOfActiveBLocks` is the number of blocks with non-zero health; a further such tick
decreases it by exactly 1 when some block's health goes from non-zero to 0 in the tick, and
leaves it unchanged otherwise. -/
theorem active_block_counter (g : Game) (events : List Event) (inp : Input)
    (hreach : PlayReachable g)
    (hplay : (pollEvents g events).currentGameState = GAMESTATE_PLAY) :
    g.numberOfActiveBLocks = activeBlocks g.blocks ∧
      (reachesZero g.blocks (tick g (events, inp)).blocks →
        (tick g (events, inp)).numberOfActiveBLocks = g.numberOfActiveBLocks - 1) ∧
      (¬ reachesZero g.blocks (tick g (events, inp)).blocks →
        (tick g (events, inp)).numberOfActiveBLocks = g.numberOfActiveBLocks) := by
  have hinv := playReachable_inv g hreach
  obtain ⟨t1, t2, t3, t4, -, -⟩ := tick_of_playInv g events inp hinv hplay
  have := playPhase_counter TIME_STEP inp (pollEvents g events)
  rw [t3, t4] at this
  rw [t1, t2]
  exact ⟨hinv.1, this.2⟩

/-- C4 (witness): the state after a new game started from the initial state of `main` (84 blocks),
and an idle tick from it. -/
theorem active_block_counter_witness :
    (pollEvents (newGame sampleInput (initialGame sampleMenu)) []).currentGameState = GAMESTATE_PLAY ∧
    ((newGame sampleInput (initialGame sampleMenu)).numberOfActiveBLocks =
        activeBlocks (newGame sampleInput (initialGame sampleMenu)).blocks ∧
      (reachesZero (newGame sampleInput (initialGame sampleMenu)).blocks
          (tick (newGame sampleInput (initialGame sampleMenu)) ([], sampleInput)).blocks →
        (tick (newGame sampleInput (initialGame sampleMenu)) ([], sampleInput)).numberOfActiveBLocks =
          (newGame sampleInput (initialGame sampleMenu)).numberOfActiveBLocks - 1) ∧
      (¬ reachesZero (newGame sampleInput (initialGame sampleMenu)).blocks
          (tick (newGame sampleInput (initialGame sampleMenu)) ([], sampleInput)).blocks →
        (tick (newGame sampleInput (initialGame sampleMenu)) ([], sampleInput)).numberOfActiveBLocks =
          (newGame sampleInput (initialGame sampleMenu)).numberOfActiveBLocks)) :=
  ⟨rfl, active_block_counter (newGame sampleInput (initialGame sampleMenu)) [] sampleInput
    (PlayReachable.newGame sampleInput (initialGame sampleMenu) (by decide!)) rfl⟩

/-! ### C5 -/

/-- C5 (amended): in a tick that starts in PLAY (menu state NONE or EXIT, the three display
timers not running out in this tick) and takes `numberOfActiveBLocks` from 1 to 0, the game
state at the end of the tick is GAME_OVER when the ball-lost rule or the descent rule of levels
2 and 3 fires in the same tick; otherwise it is COMPLETED_GAME when `score.level == 3` and
NEXT_LEVEL when it is not. -/
theorem level_completion (delta : ℚ) (inp : Input) (g : Game)
    (hplay : g.currentGameState = GAMESTATE_PLAY)
    (hmenu : g.currentMenuState = MENUSTATE_NONE ∨ g.currentMenuState = MENUSTATE_EXIT)
    (hnl : g.nextLevelAccumulator + delta ≤ TIME_TO_SHOW_NEXT_LEVEL)
    (hgo : g.gameOverAccumulator + delta ≤ TIME_TO_SHOW_GAME_OVER)
    (hcg : g.completedGameAccumulator + delta ≤ TIME_TO_SHOW_COMPLETED_GAME)
    (hone : g.numberOfActiveBLocks = 1)
    (hzero : (GameUpdate delta inp g).numberOfActiveBLocks = 0) :
    (GameUpdate delta inp g).currentGameState =
      if ballLost g ∨ descentDanger delta inp g then GAMESTATE_GAME_OVER
      else if g.score.level = 3 then GAMESTATE_COMPLETED_GAME
      else GAMESTATE_NEXT_LEVEL := by
  have hmenu' : g.currentMenuState ≠ MENUSTATE_NEW_GAME := by rcases hmenu with h | h <;> simp [h]
  have hs := GameUpdate_session_of_play delta inp g hplay hmenu' hnl
  rw [hs.2.2.2.1, (playPhase_healths delta inp g).2] at hzero
  -- the scan destroyed the last active block
  have hscan : (ballVsBlocks (ballMovement (paddleVsWindow (paddleMovement g)))).currentGameState =
      if g.score.level = 3 then GAMESTATE_COMPLETED_GAME else GAMESTATE_NEXT_LEVEL := by
    rcases ballVsBlocks_counter (ballMovement (paddleVsWindow (paddleMovement g))) with
      ⟨h1, -⟩ | ⟨-, h2⟩
    · simp [hone, hzero] at h1
    · simpa [hone] using h2
  have hp := playPhase_currentGameState_eq delta inp g
  rw [hscan] at hp
  rw [← hp]
  -- after the PLAY phase the state is kept
  have hm := playPhase_currentMenuState delta inp g
  have h1 := playPhase_nextLevelAccumulator delta inp g
  have h2 := playPhase_gameOverAccumulator delta inp g
  have h3 := playPhase_completedGameAccumulator delta inp g
  rw [GameUpdate_of_play delta inp g hplay]
  rw [← hm] at hmenu
  rw [← h1] at hnl
  rw [← h2] at hgo
  rw [← h3] at hcg
  have hcases : (playPhase delta inp g).currentGameState = GAMESTATE_GAME_OVER ∨
      (playPhase delta inp g).currentGameState = GAMESTATE_COMPLETED_GAME ∨
      (playPhase delta inp g).currentGameState = GAMESTATE_NEXT_LEVEL := by
    rw [hp]; split_ifs <;> simp
  generalize playPhase delta inp g = p at hmenu hnl hgo hcg hcases ⊢
  rcases hcases with hs | hs | hs
  · rw [afterPlay_gameOver _ _ _ hs, gameOverPhase_wait _ _ (not_lt.mpr hgo),
      menuChain_idle delta inp { p with gameOverAccumulator := p.gameOverAccumulator + delta }
        (by simp [hs]) (by simp [hs]) hmenu]
  · rw [afterPlay_completedGame _ _ _ hs, completedGamePhase_wait _ _ (not_lt.mpr hcg)]
  · rw [afterPlay_nextLevel _ _ _ hs, nextLevelPhase_wait _ _ (not_lt.mpr hnl),
      menuChain_idle delta inp { p with nextLevelAccumulator := p.nextLevelAccumulator + delta }
        (by simp [hs]) (by simp [hs]) hmenu]

/-- C5 (counterexample): at level 2 the tick destroys the last active block
(`numberOfActiveBLocks` goes from 1 to 0) and the descent rule, which looks at the last block of
the array whatever its health, fires in the same tick: the game state at the end of the tick is
GAME_OVER, not NEXT_LEVEL. -/
theorem level_completion_counterexample :
    lastBlockLow.currentGameState = GAMESTATE_PLAY ∧
      lastBlockLow.numberOfActiveBLocks = 1 ∧
      (GameUpdate TIME_STEP sampleInput lastBlockLow).numberOfActiveBLocks = 0 ∧
      lastBlockLow.score.level < 3 ∧
      (GameUpdate TIME_STEP sampleInput lastBlockLow).currentGameState = GAMESTATE_GAME_OVER ∧
      (GameUpdate TIME_STEP sampleInput lastBlockLow).currentGameState ≠ GAMESTATE_NEXT_LEVEL := by
  decide!

/-- C5 (witness): at level 1 the tick destroys the last active block and ends in NEXT_LEVEL. -/
theorem level_completion_witness :
    (lastBlockHit.currentGameState = GAMESTATE_PLAY ∧
      lastBlockHit.numberOfActiveBLocks = 1 ∧
      (GameUpdate TIME_STEP sampleInput lastBlockHit).numberOfActiveBLocks = 0 ∧
      (GameUpdate TIME_STEP sampleInput lastBlockHit).currentGameState = GAMESTATE_NEXT_LEVEL) ∧
    (GameUpdate TIME_STEP sampleInput lastBlockHit).currentGameState =
      (if ballLost lastBlockHit ∨ descentDanger TIME_STEP sampleInput lastBlockHit then
        GAMESTATE_GAME_OVER
      else if lastBlockHit.score.level = 3 then GAMESTATE_COMPLETED_GAME
      else GAMESTATE_NEXT_LEVEL) :=
  ⟨by decide!,
    level_completion TIME_STEP sampleInput lastBlockHit (by decide!) (by decide!) (by decide!)
      (by decide!) (by decide!) (by decide!) (by decide!)⟩

/-! ### C6 -/

/-- C6 (amended): when the first block matched by the ball-vs-block scan is not destroyed, has
health 2 and is matched by the bottom-face condition, then after the ball-vs-block step the
block (in its place in the array) has health 1 and an active splitter, `ball.pos.y` is
`block.pos.y + BLOCK_HEIGHT`, and `ball.vel.y` is `ball.maxVel.y`, except for a block of type 0
hit while `ball.vel.x` is not positive, where `ball.vel.y` is `2 * ball.maxVel.y`. -/
theorem first_hit_bottom_face (g : Game) (pre post : List Block) (b : Block)
    (hblocks : g.blocks = pre ++ b :: post)
    (hpre : ∀ c ∈ pre, c.health ≠ 0 → (faceTest g.ball c).2 = false)
    (hhealth : b.health = 2) (hbottom : hitsBottom g.ball b) :
    ∃ b' : Block, (ballVsBlocks g).blocks = pre ++ b' :: post ∧
      b'.health = 1 ∧ b'.isSplitterActive = true ∧
      (ballVsBlocks g).ball.pos.y = b.pos.y + BLOCK_HEIGHT ∧
      (ballVsBlocks g).ball.vel.y =
        (if b.type = 0 ∧ ¬ g.ball.vel.x > 0 then 2 * g.ball.maxVel.y else g.ball.maxVel.y) ∧
      (ballVsBlocks g).ball.maxVel = g.ball.maxVel := by
  have hft : faceTest g.ball b =
      ({ g.ball with pos := { g.ball.pos with y := b.pos.y + BLOCK_HEIGHT },
                     vel := { g.ball.vel with y := g.ball.maxVel.y } }, true) := by
    simp [faceTest, hbottom]
  have hb : b.health ≠ 0 := by rw [hhealth]; decide
  rw [ballVsBlocks_first_match g pre post b hblocks hpre hb (by rw [hft])]
  refine ⟨_, rfl, ?_⟩
  rw [hft]
  simp only [evalResult, toggleHealth, hhealth, extraEnergy]
  by_cases ht : b.type = 0 <;> by_cases hx : g.ball.vel.x > 0 <;>
    by_cases hs : b.isSplitterActive = true <;> simp [ht, hx, hs, mul_comm]

/-- C6 (counterexample): an intact block of type 0 hit on its bottom face by a ball with
`vel.x = 0`: after the ball-vs-block step `ball.vel.y` is `10 = 2 * maxVel.y`, not `maxVel.y`. -/
theorem first_hit_bottom_face_counterexample :
    energizedBlockBelow.currentGameState = GAMESTATE_PLAY ∧
      (ballMovement (paddleVsWindow (paddleMovement energizedBlockBelow))).blocks =
        [{ sampleBlock 10 3 with type := 0 }] ∧
      ({ sampleBlock 10 3 with type := 0 } : Block).health = 2 ∧
      hitsBottom (ballMovement (paddleVsWindow (paddleMovement energizedBlockBelow))).ball
        { sampleBlock 10 3 with type := 0 } ∧
      (ballVsBlocks (ballMovement (paddleVsWindow (paddleMovement energizedBlockBelow)))).ball.maxVel.y
        = 5 ∧
      (ballVsBlocks (ballMovement (paddleVsWindow (paddleMovement energizedBlockBelow)))).ball.vel.y
        = 10 ∧
      (GameUpdate TIME_STEP sampleInput energizedBlockBelow).ball.vel.y = 10 := by
  decide!

/-- C6 (witness): the intact block of type 1 of `ballBelowBlock`, hit on its bottom face. -/
theorem first_hit_bottom_face_witness :
    ((ballMovement (paddleVsWindow (paddleMovement ballBelowBlock))).blocks =
        [] ++ sampleBlock 10 3 :: [] ∧
      (sampleBlock 10 3).health = 2 ∧
      hitsBottom (ballMovement (paddleVsWindow (paddleMovement ballBelowBlock))).ball
        (sampleBlock 10 3)) ∧
    ∃ b' : Block,
      (ballVsBlocks (ballMovement (paddleVsWindow (paddleMovement ballBelowBlock)))).blocks =
        [] ++ b' :: [] ∧
      b'.health = 1 ∧ b'.isSplitterActive = true ∧
      (ballVsBlocks (ballMovement (paddleVsWindow (paddleMovement ballBelowBlock)))).ball.pos.y =
        (sampleBlock 10 3).pos.y + BLOCK_HEIGHT ∧
      (ballVsBlocks (ballMovement (paddleVsWindow (paddleMovement ballBelowBlock)))).ball.vel.y =
        (if (sampleBlock 10 3).type = 0 ∧
            ¬ (ballMovement (paddleVsWindow (paddleMovement ballBelowBlock))).ball.vel.x > 0 then
          2 * (ballMovement (paddleVsWindow (paddleMovement ballBelowBlock))).ball.maxVel.y
        else (ballMovement (paddleVsWindow (paddleMovement ballBelowBlock))).ball.maxVel.y) ∧
      (ballVsBlocks (ballMovement (paddleVsWindow (paddleMovement ballBelowBlock)))).ball.maxVel =
        (ballMovement (paddleVsWindow (paddleMovement ballBelowBlock))).ball.maxVel :=
  ⟨by decide!,
    first_hit_bottom_face (ballMovement (paddleVsWindow (paddleMovement ballBelowBlock)))
      [] [] (sampleBlock 10 3) (by decide!) (fun c hc => absurd hc (List.not_mem_nil c))
      (by decide!) (by decide!)⟩

/-! ### C7 -/

/-- C7: in a tick that starts in PLAY (and does not start a new game) in which the first block
matched by the ball-vs-block scan has health 1, the ball-vs-block step sets that block's health
to 0 and its `isExplosinActive` flag to true; at the end of the tick the block's health is 0 and
every other health is as before, `score.points` has grown by exactly 1 and
`numberOfActiveBLocks` has dropped by exactly 1. -/
theorem second_hit_destroys (delta : ℚ) (inp : Input) (g : Game) (pre post : List Block) (b : Block)
    (hplay : g.currentGameState = GAMESTATE_PLAY)
    (hmenu : g.currentMenuState ≠ MENUSTATE_NEW_GAME)
    (hnl : g.nextLevelAccumulator + delta ≤ TIME_TO_SHOW_NEXT_LEVEL)
    (hblocks : g.blocks = pre ++ b :: post)
    (hpre : ∀ c ∈ pre, c.health ≠ 0 →
      (faceTest (ballMovement (paddleVsWindow (paddleMovement g))).ball c).2 = false)
    (hhealth : b.health = 1)
    (hhit : (faceTest (ballMovement (paddleVsWindow (paddleMovement g))).ball b).2 = true) :
    (∃ b' : Block,
        (ballVsBlocks (ballMovement (paddleVsWindow (paddleMovement g)))).blocks = pre ++ b' :: post ∧
        b'.health = 0 ∧ b'.isExplosinActive = true) ∧
      (GameUpdate delta inp g).blocks.map (fun c => c.health) =
        pre.map (fun c => c.health) ++ 0 :: post.map (fun c => c.health) ∧
      (GameUpdate delta inp g).score.points = g.score.points + 1 ∧
      (GameUpdate delta inp g).numberOfActiveBLocks = g.numberOfActiveBLocks - 1 := by
  have hb : b.health ≠ 0 := by rw [hhealth]; decide
  have hG : (ballMovement (paddleVsWindow (paddleMovement g))).blocks = pre ++ b :: post := by
    simpa using hblocks
  have hscan := ballVsBlocks_first_match _ pre post b hG hpre hb hhit
  have hs := GameUpdate_session_of_play delta inp g hplay hmenu hnl
  have hh := playPhase_healths delta inp g
  have hpoints : (playPhase delta inp g).score.points =
      (ballVsBlocks (ballMovement (paddleVsWindow (paddleMovement g)))).score.points := by
    simp [playPhase]
  rw [hs.1, hs.2.2.2.1, hs.2.2.2.2.1, hh.1, hh.2, hpoints, hscan]
  simp only [evalResult, toggleHealth, hhealth, if_true]
  refine ⟨⟨_, rfl, rfl, rfl⟩, by simp, ?_, ?_⟩
  · simp [blockDestroyed]; split_ifs <;> simp
  · simp [blockDestroyed]; split_ifs <;> simp

/-- C7 (witness): the damaged block of `lastBlockHit`, hit by the ball in the next tick. -/
theorem second_hit_destroys_witness :
    (lastBlockHit.currentGameState = GAMESTATE_PLAY ∧
      lastBlockHit.blocks =
        [] ++ { sampleBlock 10 3 with health := 1, isSplitterActive := true } :: [] ∧
      (faceTest (ballMovement (paddleVsWindow (paddleMovement lastBlockHit))).ball
        { sampleBlock 10 3 with health := 1, isSplitterActive := true }).2 = true) ∧
    ((∃ b' : Block,
        (ballVsBlocks (ballMovement (paddleVsWindow (paddleMovement lastBlockHit)))).blocks =
          [] ++ b' :: [] ∧
        b'.health = 0 ∧ b'.isExplosinActive = true) ∧
      (GameUpdate TIME_STEP sampleInput lastBlockHit).blocks.map (fun c => c.health) =
        ([] : List Block).map (fun c => c.health) ++ 0 :: ([] : List Block).map (fun c => c.health) ∧
      (GameUpdate TIME_STEP sampleInput lastBlockHit).score.points = lastBlockHit.score.points + 1 ∧
      (GameUpdate TIME_STEP sampleInput lastBlockHit).numberOfActiveBLocks =
        lastBlockHit.numberOfActiveBLocks - 1) :=
  ⟨by decide!,
    second_hit_destroys TIME_STEP sampleInput lastBlockHit [] []
      { sampleBlock 10 3 with health := 1, isSplitterActive := true }
      (by decide!) (by decide!) (by decide!) (by decide!)
      (fun c hc => absurd hc (List.not_mem_nil c)) (by decide!) (by decide!)⟩

/-! ### C8 -/

/-- C8 (failing input): with `paddle.size.x = paddle.maxWidth = 208` the guard
`paddle.size.x <= paddle.maxWidth` of line 710 still lets the paddle grow: the tick that destroys
a block ends with `paddle.size.x = 224 > 208`.  Likewise eleven block destructions from the
start width 48 of a new game give 224. -/
theorem paddle_width_exceeds_maxWidth :
    paddleAtMaxWidth.currentGameState = GAMESTATE_PLAY ∧
      paddleAtMaxWidth.paddle.size.x ≤ paddleAtMaxWidth.paddle.maxWidth ∧
      (GameUpdate TIME_STEP sampleInput paddleAtMaxWidth).currentGameState = GAMESTATE_PLAY ∧
      (GameUpdate TIME_STEP sampleInput paddleAtMaxWidth).paddle.maxWidth = 208 ∧
      (GameUpdate TIME_STEP sampleInput paddleAtMaxWidth).paddle.size.x = 224 ∧
      (newGame sampleInput (initialGame sampleMenu)).paddle.size.x = 48 ∧
      (newGame sampleInput (initialGame sampleMenu)).paddle.maxWidth = 208 ∧
      (blockDestroyed^[10] (newGame sampleInput (initialGame sampleMenu))).paddle.size.x = 208 ∧
      (blockDestroyed^[11] (newGame sampleInput (initialGame sampleMenu))).paddle.size.x = 224 := by
  decide!

/-! ### C9 -/

/-- C9 (amended): from a PLAY state (menu state NONE or EXIT) in which `ball.pos.y` is
`WINDOW_HEIGHT + 1 = 721` and the ball is in flight (its velocity is not `(0, 0)`), the tick sets
GAME_OVER provided the ball's move leaves it below the bottom edge: either it does not rise by a
pixel or more (`ball.vel.y > -1`), or it rises by less than 9 pixels (`ball.vel.y > -9`, as the
launched ball with `vel.y = -5` does) and no live block reaches below `y = 712`, where a hit on
its top face would lift the ball back into the window (`reachable_blocks_high`: no block of a
game the loop reaches does).  GAME_OVER is then the game state at the end of the tick as long as
the game-over display time does not run out in it. -/
theorem ball_lost (delta : ℚ) (inp : Input) (g : Game)
    (hplay : g.currentGameState = GAMESTATE_PLAY)
    (hmenu : g.currentMenuState = MENUSTATE_NONE ∨ g.currentMenuState = MENUSTATE_EXIT)
    (hgo : g.gameOverAccumulator + delta ≤ TIME_TO_SHOW_GAME_OVER)
    (hy : g.ball.pos.y = WINDOW_HEIGHT + 1)
    (hflight : ¬ (g.ball.vel.y = 0 ∧ g.ball.vel.x = 0))
    (hvel : g.ball.vel.y > -1 ∨
      (g.ball.vel.y > -9 ∧
        ∀ b ∈ g.blocks, b.health ≠ 0 → b.pos.y + BLOCK_HEIGHT ≤ WINDOW_HEIGHT - BALL_HEIGHT)) :
    (GameUpdate delta inp g).currentGameState = GAMESTATE_GAME_OVER := by
  have hW : WINDOW_HEIGHT = 720 := rfl
  have hB : BALL_HEIGHT = 8 := rfl
  have hmv : (ballMovement (paddleVsWindow (paddleMovement g))).ball.pos.y =
      WINDOW_HEIGHT + 1 + g.ball.vel.y := by
    unfold ballMovement
    simp only [paddleVsWindow_ball, paddleMovement_ball, hflight, if_false, Vec2.add, hy]
  have hlost : ballLost g := by
    unfold ballLost
    rcases hvel with hv | ⟨hv, hb⟩
    · have hmove : (ballMovement (paddleVsWindow (paddleMovement g))).ball.pos.y > WINDOW_HEIGHT := by
        rw [hmv]; linarith
      have := ballVsBlocks_ball_pos_y _ hmove
      linarith
    · have hno : ballVsBlocks (ballMovement (paddleVsWindow (paddleMovement g))) =
          ballMovement (paddleVsWindow (paddleMovement g)) := by
        apply ballVsBlocks_no_hit
        intro c hc hh
        rw [ballMovement_blocks, paddleVsWindow_blocks, paddleMovement_blocks] at hc
        apply faceTest_miss_above
        rw [hmv]
        have := hb c hc hh
        rw [hW, hB] at this
        rw [hW]
        linarith
      rw [hno, hmv, hW, hB]
      linarith
  have hp : (playPhase delta inp g).currentGameState = GAMESTATE_GAME_OVER := by
    rw [playPhase_currentGameState_eq]; simp [hlost]
  have hm := playPhase_currentMenuState delta inp g
  have h2 := playPhase_gameOverAccumulator delta inp g
  rw [GameUpdate_of_play delta inp g hplay]
  rw [← hm] at hmenu
  rw [← h2] at hgo
  generalize playPhase delta inp g = p at hmenu hgo hp ⊢
  rw [afterPlay_gameOver _ _ _ hp, gameOverPhase_wait _ _ (not_lt.mpr hgo),
    menuChain_idle delta inp { p with gameOverAccumulator := p.gameOverAccumulator + delta }
      (by simp [hp]) (by simp [hp]) hmenu]
  exact hp

/-- C9 (counterexample): a PLAY state with `ball.pos.y = 721` and the ball held: the tick puts the
ball back on the paddle (`pos.y = 696`) and the game state stays PLAY. -/
theorem ball_lost_counterexample :
    heldBallBelowWindow.currentGameState = GAMESTATE_PLAY ∧
      heldBallBelowWindow.ball.pos.y = WINDOW_HEIGHT + 1 ∧
      (GameUpdate TIME_STEP sampleInput heldBallBelowWindow).ball.pos.y = 696 ∧
      (GameUpdate TIME_STEP sampleInput heldBallBelowWindow).currentGameState = GAMESTATE_PLAY ∧
      (GameUpdate TIME_STEP sampleInput heldBallBelowWindow).currentGameState ≠ GAMESTATE_GAME_OVER := by
  decide!

/-- C9 (witness): the ball launched with the up-arrow key from `pos.y = 721`: it moves to
`pos.y = 716`, still below the bottom edge, and the tick ends in GAME_OVER. -/
theorem ball_lost_witness :
    (launchedBallBelowWindow.currentGameState = GAMESTATE_PLAY ∧
      launchedBallBelowWindow.currentMenuState = MENUSTATE_NONE ∧
      launchedBallBelowWindow.gameOverAccumulator + TIME_STEP ≤ TIME_TO_SHOW_GAME_OVER ∧
      launchedBallBelowWindow.ball.pos.y = WINDOW_HEIGHT + 1 ∧
      launchedBallBelowWindow.ball.vel = ⟨0, -5⟩ ∧
      (∀ b ∈ launchedBallBelowWindow.blocks, b.health ≠ 0 →
        b.pos.y + BLOCK_HEIGHT ≤ WINDOW_HEIGHT - BALL_HEIGHT)) ∧
    (GameUpdate TIME_STEP sampleInput launchedBallBelowWindow).ball.pos.y = 716 ∧
    (GameUpdate TIME_STEP sampleInput launchedBallBelowWindow).currentGameState = GAMESTATE_GAME_OVER :=
  ⟨by decide!, by decide!,
    ball_lost TIME_STEP sampleInput launchedBallBelowWindow (by decide!) (by decide!) (by decide!)
      (by decide!) (by decide!) (Or.inr (by decide!))⟩

/-! ### C10 -/

/-- C10: from a state in GAME_OVER (with menu state NONE or EXIT and the click-debounce timer not
negative, as in every GAME_OVER state the game loop reaches) or in COMPLETED_GAME, a tick of
length `delta` for which that phase's accumulator plus `delta` exceeds 4000 ends in game state
MENU with menu state NONE and `score.level = 1`; otherwise the phase and `score.level` are
unchanged and the accumulator has grown by exactly `delta`. -/
theorem terminal_phase_timeout (delta : ℚ) (inp : Input) (g : Game)
    (hphase : g.currentGameState = GAMESTATE_GAME_OVER ∨
      g.currentGameState = GAMESTATE_COMPLETED_GAME)
    (hmenu : g.currentGameState = GAMESTATE_GAME_OVER →
      g.currentMenuState = MENUSTATE_NONE ∨ g.currentMenuState = MENUSTATE_EXIT)
    (htimer : g.currentGameState = GAMESTATE_GAME_OVER → 0 ≤ g.clickingCoolDownTimer) :
    (phaseAccumulator g + delta > 4000 →
        (GameUpdate delta inp g).currentGameState = GAMESTATE_MENU ∧
        (GameUpdate delta inp g).currentMenuState = MENUSTATE_NONE ∧
        (GameUpdate delta inp g).score.level = 1) ∧
      (¬ phaseAccumulator g + delta > 4000 →
        (GameUpdate delta inp g).currentGameState = g.currentGameState ∧
        (GameUpdate delta inp g).score.level = g.score.level ∧
        phaseAccumulator (GameUpdate delta inp g) = phaseAccumulator g + delta) := by
  rcases hphase with hs | hs
  · have hnp : g.currentGameState ≠ GAMESTATE_PLAY := by rw [hs]; decide
    rw [GameUpdate_of_not_play delta inp g hnp, afterPlay_gameOver _ _ _ hs]
    simp only [phaseAccumulator, hs, if_true]
    constructor
    · intro ht
      rw [gameOverPhase_timeout _ _ ht, menuChain_root _ _ _ rfl rfl]
      refine ⟨by simp [backToMenu], ?_, by simp [backToMenu]⟩
      rw [menuRootPhase_cooling _ _ _ (by simpa [backToMenu] using htimer hs)]
      rfl
    · intro ht
      rw [gameOverPhase_wait _ _ ht, menuChain_idle delta inp
        { g with gameOverAccumulator := g.gameOverAccumulator + delta }
        (by simp [hs]) (by simp [hs]) (hmenu hs)]
      simp [hs]
  · have hnp : g.currentGameState ≠ GAMESTATE_PLAY := by rw [hs]; decide
    have hng : g.currentGameState ≠ GAMESTATE_GAME_OVER := by rw [hs]; decide
    rw [GameUpdate_of_not_play delta inp g hnp, afterPlay_completedGame _ _ _ hs]
    simp only [phaseAccumulator, hng, if_false]
    constructor
    · intro ht
      rw [completedGamePhase_timeout _ _ ht]
      simp [backToMenu]
    · intro ht
      rw [completedGamePhase_wait _ _ ht]
      simp [hs]

/-- C10 (witness): the game-over display running out, from level 2. -/
theorem terminal_phase_timeout_witness :
    (gameOverEnding.currentGameState = GAMESTATE_GAME_OVER ∧
      gameOverEnding.currentMenuState = MENUSTATE_NONE ∧
      0 ≤ gameOverEnding.clickingCoolDownTimer ∧
      phaseAccumulator gameOverEnding + TIME_STEP > 4000) ∧
    ((GameUpdate TIME_STEP sampleInput gameOverEnding).currentGameState = GAMESTATE_MENU ∧
      (GameUpdate TIME_STEP sampleInput gameOverEnding).currentMenuState = MENUSTATE_NONE ∧
      (GameUpdate TIME_STEP sampleInput gameOverEnding).score.level = 1) :=
  ⟨by decide!,
    (terminal_phase_timeout TIME_STEP sampleInput gameOverEnding (Or.inl rfl)
      (fun _ => Or.inl rfl) (fun _ => by decide!)).1 (by decide!)⟩

/-! ### C11 -/

/-- C11 (amended).  In a PLAY tick that starts with the ball held (velocity (0, 0)) and no new
game pending, if the position the ball is slaved to touches no live block and lies inside the
top, left and right edges of the window, then at the end of the tick the ball sits on the
paddle of the end of the tick: `ball.pos.x = paddle.pos.x + paddle.size.x / 2 - 4` and
`ball.pos.y = paddle.pos.y - 8`. -/
theorem held_ball_tracks_paddle (delta : ℚ) (inp : Input) (g : Game)
    (hplay : g.currentGameState = GAMESTATE_PLAY)
    (hmenu : g.currentMenuState ≠ MENUSTATE_NEW_GAME)
    (hheld : g.ball.vel = ⟨0, 0⟩)
    (hblocks : ∀ b ∈ g.blocks, b.health ≠ 0 →
      (faceTest { g.ball with pos := heldBallPos (paddleVsWindow (paddleMovement g)).paddle } b).2
        = false)
    (htop : 0 ≤ (heldBallPos (paddleVsWindow (paddleMovement g)).paddle).y)
    (hleft : 0 ≤ (heldBallPos (paddleVsWindow (paddleMovement g)).paddle).x)
    (hright : (heldBallPos (paddleVsWindow (paddleMovement g)).paddle).x + BALL_WIDTH ≤ WINDOW_WIDTH) :
    (GameUpdate delta inp g).ball.pos.x =
        (GameUpdate delta inp g).paddle.pos.x + (GameUpdate delta inp g).paddle.size.x / 2
          - BALL_WIDTH / 2 ∧
      (GameUpdate delta inp g).ball.pos.y = (GameUpdate delta inp g).paddle.pos.y - BALL_HEIGHT := by
  obtain ⟨hb, hp, hs⟩ := playPhase_held delta inp g hheld hblocks htop hleft hright
  have hs' : (playPhase delta inp g).currentGameState ≠ GAMESTATE_NEXT_LEVEL := by
    rcases hs with h | h <;> rw [h] <;> simp [hplay]
  have hm' : (playPhase delta inp g).currentMenuState ≠ MENUSTATE_NEW_GAME := by
    rw [playPhase_currentMenuState]; exact hmenu
  obtain ⟨h1, h2⟩ := afterPlay_ball_paddle delta inp _ hs' hm'
  rw [GameUpdate_of_play delta inp g hplay, h1, h2, hb, hp]
  constructor
  · simp only [heldBallPos]; ring
  · rfl

/-- C11 fails as stated: three ticks after start-up (a click on the Continue item, which sits at
the window's top-left corner before the first new game) the game is in PLAY with the ball held
and a paddle of size zero at (0, 0); the tick slaves the ball to (-4, -8), where the top edge of
the window launches it, so it ends the tick at y = 0 while the paddle is at y = 0, not 8 below
the ball. -/
theorem held_ball_tracks_paddle_counterexample :
    Reachable continuedAtStart ∧
    continuedAtStart.currentGameState = GAMESTATE_PLAY ∧
    continuedAtStart.ball.vel = ⟨0, 0⟩ ∧
    (GameUpdate TIME_STEP pointerTopLeft continuedAtStart).ball.pos = ⟨-4, 0⟩ ∧
    (GameUpdate TIME_STEP pointerTopLeft continuedAtStart).ball.vel = ⟨0, 5⟩ ∧
    (GameUpdate TIME_STEP pointerTopLeft continuedAtStart).paddle.pos = ⟨0, 0⟩ ∧
    (GameUpdate TIME_STEP pointerTopLeft continuedAtStart).ball.pos.y ≠
      (GameUpdate TIME_STEP pointerTopLeft continuedAtStart).paddle.pos.y - BALL_HEIGHT := by
  refine ⟨?_, by decide!⟩
  exact Reachable.tick _ _ _ (Reachable.tick _ _ _ (Reachable.tick _ _ _ (Reachable.initial _)))

theorem held_ball_tracks_paddle_witness :
    sampleGame.currentGameState = GAMESTATE_PLAY ∧ sampleGame.ball.vel = ⟨0, 0⟩ ∧
      (GameUpdate TIME_STEP sampleInput sampleGame).ball.pos.x =
        (GameUpdate TIME_STEP sampleInput sampleGame).paddle.pos.x +
          (GameUpdate TIME_STEP sampleInput sampleGame).paddle.size.x / 2 - BALL_WIDTH / 2 ∧
      (GameUpdate TIME_STEP sampleInput sampleGame).ball.pos.y =
        (GameUpdate TIME_STEP sampleInput sampleGame).paddle.pos.y - BALL_HEIGHT :=
  ⟨rfl, rfl, held_ball_tracks_paddle TIME_STEP sampleInput sampleGame rfl (by decide) rfl
    (by decide!) (by decide!) (by decide!) (by decide!)⟩

/-! ### C12 -/

/-- C12 does not hold of the code.  The boxes A = (0, 0, 10, 10) and B = (100, 100, 10, 10)
are disjoint on both axes, yet `CollisionDetection` reports an intersection (with normal (1, 0)
and length 5, half the width of A): the corner points of the second box are computed from
`boxA`. -/
theorem resolver_disjoint_boxes :
    (0 : ℚ) + 10 < 100 ∧
      CollisionDetection staleResult ⟨⟨0, 0⟩, ⟨10, 10⟩⟩ ⟨⟨100, 100⟩, ⟨10, 10⟩⟩ = ⟨true, ⟨1, 0⟩, 5⟩ := by
  decide!

/-! ### C13 -/

/-- C13.  For every box A (of any size), `CollisionDetection(A, A)` reports an intersection and
returns a penetration length that is not negative, whatever the uninitialised local `result`
held. -/
theorem resolver_identical_boxes (result : CollisionResult) (boxA : AxisBox) :
    (CollisionDetection result boxA boxA).intersects = true ∧
      0 ≤ (CollisionDetection result boxA boxA).length := by
  obtain ⟨hx, hy⟩ := extentOf_ordered boxA
  rw [CollisionDetection_eq]
  split_ifs
  · exact ⟨rfl, sub_nonneg.mpr hx⟩
  · exact ⟨rfl, sub_nonneg.mpr hy⟩

/-! ### C14 -/

/-- C14.  A tick that starts with the menu state NEW_GAME, outside PLAY, GAME_OVER and
COMPLETED_GAME and with a non-negative size for the block array, ends in PLAY with the menu
state NONE, points and score accumulator 0, the ball at rest, the paddle at rest with size
(48, 16), the three phase accumulators 0, every block fresh (health 2, type among 0..3, both
flags false, explosion frame (0, 0)), as many blocks as lines 1105-1106 compute, and
`numberOfActiveBLocks` equal to that number. -/
theorem new_game_reset (delta : ℚ) (inp : Input) (g : Game)
    (hmenu : g.currentMenuState = MENUSTATE_NEW_GAME)
    (h1 : g.currentGameState ≠ GAMESTATE_PLAY)
    (h2 : g.currentGameState ≠ GAMESTATE_GAME_OVER)
    (h3 : g.currentGameState ≠ GAMESTATE_COMPLETED_GAME)
    (hcount : 0 ≤ newNumberOfBlocks g) :
    (GameUpdate delta inp g).currentGameState = GAMESTATE_PLAY ∧
    (GameUpdate delta inp g).currentMenuState = MENUSTATE_NONE ∧
    (GameUpdate delta inp g).score.points = 0 ∧
    (GameUpdate delta inp g).score.accumulator = 0 ∧
    (GameUpdate delta inp g).ball.vel = ⟨0, 0⟩ ∧
    (GameUpdate delta inp g).paddle.vel = 0 ∧
    (GameUpdate delta inp g).paddle.size = ⟨48, 16⟩ ∧
    (GameUpdate delta inp g).gameOverAccumulator = 0 ∧
    (GameUpdate delta inp g).nextLevelAccumulator = 0 ∧
    (GameUpdate delta inp g).completedGameAccumulator = 0 ∧
    (∀ b ∈ (GameUpdate delta inp g).blocks, b.isFresh) ∧
    (GameUpdate delta inp g).numberOfBlocks = newNumberOfBlocks g ∧
    (GameUpdate delta inp g).numberOfActiveBLocks = (GameUpdate delta inp g).numberOfBlocks := by
  rw [GameUpdate_newGame delta inp g hmenu h1 h2 h3]
  by_cases hn : g.currentGameState = GAMESTATE_NEXT_LEVEL
  · rw [if_pos hn]
    have := newGame_reset inp (nextLevelPhase delta g)
      (by rw [nextLevelPhase_newNumberOfBlocks]; exact hcount)
    rw [nextLevelPhase_newNumberOfBlocks] at this
    exact this
  · rw [if_neg hn]
    exact newGame_reset inp g hcount

/-- C14 (witness): the first new game after start-up, with the 84 blocks of the grid of
`main`. -/
theorem new_game_reset_witness :
    (newGameRequested.currentMenuState = MENUSTATE_NEW_GAME ∧
      newGameRequested.currentGameState = GAMESTATE_MENU ∧
      newNumberOfBlocks newGameRequested = 84) ∧
    ((GameUpdate TIME_STEP pointerOnNewGame newGameRequested).currentGameState = GAMESTATE_PLAY ∧
    (GameUpdate TIME_STEP pointerOnNewGame newGameRequested).currentMenuState = MENUSTATE_NONE ∧
    (GameUpdate TIME_STEP pointerOnNewGame newGameRequested).score.points = 0 ∧
    (GameUpdate TIME_STEP pointerOnNewGame newGameRequested).score.accumulator = 0 ∧
    (GameUpdate TIME_STEP pointerOnNewGame newGameRequested).ball.vel = ⟨0, 0⟩ ∧
    (GameUpdate TIME_STEP pointerOnNewGame newGameRequested).paddle.vel = 0 ∧
    (GameUpdate TIME_STEP pointerOnNewGame newGameRequested).paddle.size = ⟨48, 16⟩ ∧
    (GameUpdate TIME_STEP pointerOnNewGame newGameRequested).gameOverAccumulator = 0 ∧
    (GameUpdate TIME_STEP pointerOnNewGame newGameRequested).nextLevelAccumulator = 0 ∧
    (GameUpdate TIME_STEP pointerOnNewGame newGameRequested).completedGameAccumulator = 0 ∧
    (∀ b ∈ (GameUpdate TIME_STEP pointerOnNewGame newGameRequested).blocks, b.isFresh) ∧
    (GameUpdate TIME_STEP pointerOnNewGame newGameRequested).numberOfBlocks =
      newNumberOfBlocks newGameRequested ∧
    (GameUpdate TIME_STEP pointerOnNewGame newGameRequested).numberOfActiveBLocks =
      (GameUpdate TIME_STEP pointerOnNewGame newGameRequested).numberOfBlocks) :=
  ⟨by decide!,
    new_game_reset TIME_STEP pointerOnNewGame newGameRequested (by decide!) (by decide!)
      (by decide!) (by decide!) (by decide!)⟩

/-! ### C15 -/

/-- C15 does not hold of the code.  The first new game after start-up (paddle size still
(0, 0)) leaves the paddle at `pos = (540, 704)` with size (48, 16), so its centre is at
x = 564, not 540; a new game that finds a grown paddle of width 208 leaves it at
`pos.x = 436`, centre 460.  Line 1089 centres the paddle with the width it had before line 1090
resets the width. -/
theorem paddle_start_position :
    newGameRequested.currentMenuState = MENUSTATE_NEW_GAME ∧
      newGameRequested.paddle.size = ⟨0, 0⟩ ∧
      (GameUpdate TIME_STEP pointerOnNewGame newGameRequested).paddle.pos = ⟨540, 704⟩ ∧
      (GameUpdate TIME_STEP pointerOnNewGame newGameRequested).paddle.size = ⟨48, 16⟩ ∧
      (GameUpdate TIME_STEP pointerOnNewGame newGameRequested).paddle.pos.x +
        (GameUpdate TIME_STEP pointerOnNewGame newGameRequested).paddle.size.x / 2 = 564 ∧
      (GameUpdate TIME_STEP pointerOnNewGame
        { newGameRequested with
          paddle := { newGameRequested.paddle with size := ⟨208, 16⟩ } }).paddle.pos.x = 436 ∧
      (GameUpdate TIME_STEP pointerOnNewGame
        { newGameRequested with
          paddle := { newGameRequested.paddle with size := ⟨208, 16⟩ } }).paddle.size.x = 48 := by
  decide!

/-! ### C16 -/

/-- C16 (amended).  In NEXT_LEVEL, if `nextLevel.accumulator + delta` exceeds 2000 the
NEXT_LEVEL block increments `score.level` and sets the game state to GAMESTATE_NONE (not MENU)
with the menu state NEW_GAME, and the same tick initialises the new game: it ends in PLAY with
the menu state NONE and `score.level` one higher.  Otherwise, with the menu state NONE or EXIT,
the tick ends in NEXT_LEVEL with `score.level` unchanged and the accumulator advanced by
`delta`. -/
theorem next_level_timeout (delta : ℚ) (inp : Input) (g : Game)
    (hstate : g.currentGameState = GAMESTATE_NEXT_LEVEL) :
    (g.nextLevelAccumulator + delta > TIME_TO_SHOW_NEXT_LEVEL →
      (nextLevelPhase delta g).currentGameState = GAMESTATE_NONE ∧
      (nextLevelPhase delta g).currentMenuState = MENUSTATE_NEW_GAME ∧
      GameUpdate delta inp g = newGame inp (nextLevelPhase delta g) ∧
      (GameUpdate delta inp g).score.level = g.score.level + 1 ∧
      (GameUpdate delta inp g).currentGameState = GAMESTATE_PLAY ∧
      (GameUpdate delta inp g).currentMenuState = MENUSTATE_NONE) ∧
    (¬ g.nextLevelAccumulator + delta > TIME_TO_SHOW_NEXT_LEVEL →
      (g.currentMenuState = MENUSTATE_NONE ∨ g.currentMenuState = MENUSTATE_EXIT) →
      (GameUpdate delta inp g).currentGameState = GAMESTATE_NEXT_LEVEL ∧
      (GameUpdate delta inp g).score.level = g.score.level ∧
      (GameUpdate delta inp g).nextLevelAccumulator = g.nextLevelAccumulator + delta) := by
  have hG : GameUpdate delta inp g = menuChain delta inp (nextLevelPhase delta g) := by
    rw [GameUpdate_of_not_play delta inp g (by simp [hstate]), afterPlay_nextLevel delta inp g hstate]
  constructor
  · intro h
    have e := nextLevelPhase_timeout delta g h
    have hN : GameUpdate delta inp g = newGame inp (nextLevelPhase delta g) := by
      rw [hG]
      exact menuChain_newGame delta inp _ (by rw [e]; simp) (by rw [e])
    refine ⟨by rw [e], by rw [e], hN, ?_, ?_, ?_⟩
    · rw [hN, e]; rfl
    · rw [hN]; rfl
    · rw [hN]; rfl
  · intro h hm
    have e := nextLevelPhase_wait delta g h
    have hi := menuChain_idle delta inp (nextLevelPhase delta g) (by rw [e]; simp [hstate])
      (by rw [e]; simp [hstate]) (by rw [e]; exact hm)
    rw [hG, hi, e]
    exact ⟨hstate, rfl, rfl⟩

/-- C16 fails as stated: from `nextLevelEnding` (NEXT_LEVEL, 2000 ms shown) the tick of
`TIME_STEP` ends in PLAY with the menu state NONE, not in MENU with the menu state NEW_GAME;
the level has gone from 1 to 2. -/
theorem next_level_timeout_counterexample :
    nextLevelEnding.currentGameState = GAMESTATE_NEXT_LEVEL ∧
      nextLevelEnding.nextLevelAccumulator + TIME_STEP > TIME_TO_SHOW_NEXT_LEVEL ∧
      (GameUpdate TIME_STEP sampleInput nextLevelEnding).currentGameState = GAMESTATE_PLAY ∧
      (GameUpdate TIME_STEP sampleInput nextLevelEnding).currentGameState ≠ GAMESTATE_MENU ∧
      (GameUpdate TIME_STEP sampleInput nextLevelEnding).currentMenuState = MENUSTATE_NONE ∧
      (GameUpdate TIME_STEP sampleInput nextLevelEnding).currentMenuState ≠ MENUSTATE_NEW_GAME ∧
      (GameUpdate TIME_STEP sampleInput nextLevelEnding).score.level = 2 := by
  decide!

/-- C16 (witness): the timeout tick of `nextLevelEnding`. -/
theorem next_level_timeout_witness :
    nextLevelEnding.currentGameState = GAMESTATE_NEXT_LEVEL ∧
      nextLevelEnding.nextLevelAccumulator + TIME_STEP > TIME_TO_SHOW_NEXT_LEVEL ∧
      (GameUpdate TIME_STEP sampleInput nextLevelEnding).score.level =
        nextLevelEnding.score.level + 1 ∧
      (GameUpdate TIME_STEP sampleInput nextLevelEnding).currentGameState = GAMESTATE_PLAY :=
  ⟨rfl, by decide!,
    ((next_level_timeout TIME_STEP sampleInput nextLevelEnding rfl).1 (by decide!)).2.2.2.1,
    ((next_level_timeout TIME_STEP sampleInput nextLevelEnding rfl).1 (by decide!)).2.2.2.2.1⟩

/-! ### C17 -/

/-- C17 does not hold of the code.  For A = (0, 0, 20, 10) and B = (1, 8, 20, 10), which
overlap, the penetrations of smaller absolute value are px = -19 and py = -2, so the claim asks
for normal (0, 1) and length -2; `CollisionDetection` returns normal (1, 0) and length 10.  The
extremes it compares are those of A alone, x in [0, 10] and y in [0, 5] (half the size), and
even on these the y axis has the smaller penetration: the condition `ABS(X) < ABS(Y)` is no
comparison of absolute values, it is true for X = 10, Y = 5. -/
theorem resolver_minimum_axis :
    specMinPenetration ((1 + 20) - 0) (1 - (0 + 20)) = -19 ∧
      specMinPenetration ((8 + 10) - 0) (8 - (0 + 10)) = -2 ∧
      |(-2 : ℚ)| < |(-19 : ℚ)| ∧
      CollisionDetection staleResult ⟨⟨0, 0⟩, ⟨20, 10⟩⟩ ⟨⟨1, 8⟩, ⟨20, 10⟩⟩ = ⟨true, ⟨1, 0⟩, 10⟩ ∧
      extentOf ⟨⟨0, 0⟩, ⟨20, 10⟩⟩ = ⟨0, 10, 0, 5⟩ ∧
      (ABS_lt_ABS 10 5).1 = true := by
  decide!

/-! ### C18 -/

/-- C18 does not hold of the code.  After a tap on the right-arrow key the paddle has velocity
0.7; the tick after the key is released (no move request) finds the velocity positive and
subtracts 0.9: the tick ends with `paddle.vel = -0.2`, and the paddle has moved 0.2 to the
left while its direction is still "right". -/
theorem paddle_velocity_sign :
    afterKeyPress.currentGameState = GAMESTATE_PLAY ∧
      afterKeyPress.paddle.vel = 7 / 10 ∧
      (pollEvents afterKeyPress [Event.keyUpRight]).requestToMovePaddle = false ∧
      (tick afterKeyPress ([Event.keyUpRight], sampleInput)).currentGameState = GAMESTATE_PLAY ∧
      (tick afterKeyPress ([Event.keyUpRight], sampleInput)).paddle.vel = -(1 / 5) ∧
      (tick afterKeyPress ([Event.keyUpRight], sampleInput)).paddle.dir = 1 ∧
      (tick afterKeyPress ([Event.keyUpRight], sampleInput)).paddle.pos.x =
        afterKeyPress.paddle.pos.x - 1 / 5 := by
  decide!

/-! ### C19 -/

/-- C19 (amended).  When the ball-vs-paddle step fires (on a paddle of non-zero width), with
`raw` the binary32 value that line 761 stores in `paddle.angle` and `0.1f` the binary32 value
nearest to 1/10: for `-0.1f < raw < 0.1f` the angle is exactly 0 and `ball.vel.x` is 0; for
`raw > 0.1f` the angle is `raw - 1` and for `raw < -0.1f` it is `raw + 1`, each rounded to
binary32; in every case `ball.vel.x` is `ball.maxVel.x * paddle.angle` rounded to binary32 and
`ball.vel.y = -ball.maxVel.y`. -/
theorem paddle_bounce_dead_zone (g : Game)
    (hhit : round32 (g.ball.pos.y + BALL_HEIGHT) > g.paddle.pos.y ∧
      g.paddle.pos.x < round32 (g.ball.pos.x + BALL_WIDTH) ∧
      round32 (g.paddle.pos.x + g.paddle.size.x) > g.ball.pos.x)
    (_hsize : g.paddle.size.x ≠ 0) :
    (-round32 (1 / 10) < bounceRaw32 g ∧ bounceRaw32 g < round32 (1 / 10) →
        (ballVsPaddle32 g).paddle.angle = 0 ∧ (ballVsPaddle32 g).ball.vel.x = 0) ∧
      (bounceRaw32 g > round32 (1 / 10) →
        (ballVsPaddle32 g).paddle.angle = round32 (bounceRaw32 g - 1)) ∧
      (bounceRaw32 g < -round32 (1 / 10) →
        (ballVsPaddle32 g).paddle.angle = round32 (bounceRaw32 g + 1)) ∧
      (ballVsPaddle32 g).ball.vel.x =
        round32 ((ballVsPaddle32 g).ball.maxVel.x * (ballVsPaddle32 g).paddle.angle) ∧
      (ballVsPaddle32 g).ball.vel.y = -(ballVsPaddle32 g).ball.maxVel.y := by
  have e : ballVsPaddle32 g =
      { g with
        paddle := { g.paddle with angle :=
          (if (bounceRaw32 g < round32 (1 / 10) ∧ bounceRaw32 g > -round32 (1 / 10)) then 0
           else if (bounceRaw32 g > round32 (1 / 10)) then round32 (bounceRaw32 g - 1)
           else round32 (bounceRaw32 g + 1)) },
        ball := { g.ball with vel :=
          ⟨round32 (g.ball.maxVel.x *
            (if (bounceRaw32 g < round32 (1 / 10) ∧ bounceRaw32 g > -round32 (1 / 10)) then 0
             else if (bounceRaw32 g > round32 (1 / 10)) then round32 (bounceRaw32 g - 1)
             else round32 (bounceRaw32 g + 1))),
           -g.ball.maxVel.y⟩ } } := by
    unfold ballVsPaddle32 bounceRaw32
    rw [if_pos hhit]
  have hc : (0 : ℚ) < round32 (1 / 10) := by decide!
  rw [e]
  refine ⟨?_, ?_, ?_, rfl, rfl⟩
  · rintro ⟨h1, h2⟩
    have h' : bounceRaw32 g < round32 (1 / 10) ∧ bounceRaw32 g > -round32 (1 / 10) := ⟨h2, h1⟩
    simp only [if_pos h', mul_zero, round32_zero]
    exact ⟨trivial, trivial⟩
  · intro h
    have h' : ¬ (bounceRaw32 g < round32 (1 / 10) ∧ bounceRaw32 g > -round32 (1 / 10)) :=
      fun k => absurd k.1 (not_lt.mpr (le_of_lt h))
    simp only [if_neg h', if_pos h]
  · intro h
    have h' : ¬ (bounceRaw32 g < round32 (1 / 10) ∧ bounceRaw32 g > -round32 (1 / 10)) :=
      fun k => absurd k.2 (not_lt.mpr (le_of_lt h))
    have h'' : ¬ bounceRaw32 g > round32 (1 / 10) := by
      intro k; linarith
    simp only [if_neg h', if_neg h'']

/-- C19 fails as stated: in `ballAtDeadZoneEdge` the claim's `raw` is exactly 0.1, inside the
closed interval [-0.1, 0.1], yet the step leaves `paddle.angle` and `ball.vel.x` at
-0.89999998 (the binary32 value -7549747 / 2^23), not 0.  In binary32 the quotient 48 / 80 is
stored as 0.60000002, so line 761 stores 0.10000002, which is above `0.1f` = 0.100000001: the
`-= 1.0` arm is taken. -/
theorem paddle_bounce_dead_zone_counterexample :
    bounceRaw ballAtDeadZoneEdge = 1 / 10 ∧
      round32 (1 / 10) = 13421773 / 134217728 ∧
      bounceRaw32 ballAtDeadZoneEdge = 1677722 / 16777216 ∧
      (ballVsPaddle32 ballAtDeadZoneEdge).paddle.angle = -(7549747 / 8388608) ∧
      (ballVsPaddle32 ballAtDeadZoneEdge).ball.vel = ⟨-(7549747 / 8388608), -5⟩ := by
  decide!

/-- C19 (witness): a hit on the middle of the paddle, `raw = 0`. -/
theorem paddle_bounce_dead_zone_witness :
    bounceRaw32 { ballAtDeadZoneEdge with ball := { ballAtDeadZoneEdge.ball with pos := ⟨536, 697⟩ } } = 0 ∧
      (ballVsPaddle32
        { ballAtDeadZoneEdge with ball := { ballAtDeadZoneEdge.ball with pos := ⟨536, 697⟩ } }).paddle.angle = 0 ∧
      (ballVsPaddle32
        { ballAtDeadZoneEdge with ball := { ballAtDeadZoneEdge.ball with pos := ⟨536, 697⟩ } }).ball.vel.x = 0 :=
  ⟨by decide!,
    (paddle_bounce_dead_zone
      { ballAtDeadZoneEdge with ball := { ballAtDeadZoneEdge.ball with pos := ⟨536, 697⟩ } }
      (by decide!) (by decide!)).1 (by decide!)⟩

/-! ### C20 -/

/-- C20 (amended).  When the ball-vs-block scan hits the block `b` (its first match), with `v`
the ball's velocity right after the face snap: if `b.type = 0` exactly one component is
doubled, `v.x` when `v.x > 0` and otherwise `v.y`, whatever the sign of `v.y`; if
`b.type ≠ 0` the velocity stays `v`. -/
theorem energized_block_doubling (s : Game) (pre post : List Block) (b : Block)
    (hblocks : s.blocks = pre ++ b :: post)
    (hpre : ∀ c ∈ pre, c.health ≠ 0 → (faceTest s.ball c).2 = false)
    (hb : b.health ≠ 0) (hhit : (faceTest s.ball b).2 = true) :
    (b.type = 0 → (faceTest s.ball b).1.vel.x > 0 →
        (ballVsBlocks s).ball.vel =
          ⟨(faceTest s.ball b).1.vel.x * 2, (faceTest s.ball b).1.vel.y⟩) ∧
      (b.type = 0 → ¬ (faceTest s.ball b).1.vel.x > 0 →
        (ballVsBlocks s).ball.vel =
          ⟨(faceTest s.ball b).1.vel.x, (faceTest s.ball b).1.vel.y * 2⟩) ∧
      (b.type ≠ 0 → (ballVsBlocks s).ball.vel = (faceTest s.ball b).1.vel) := by
  rw [ballVsBlocks_first_match s pre post b hblocks hpre hb hhit]
  have h := evalResult_ball_vel { s with ball := (faceTest s.ball b).1 } b
  refine ⟨?_, ?_, ?_⟩
  · intro h0 hx; show (evalResult _ b).1.ball.vel = _; rw [h]; simp only [h0, hx, if_true]
  · intro h0 hx; show (evalResult _ b).1.ball.vel = _; rw [h]; simp only [h0, hx, if_true, if_false]
  · intro h0; show (evalResult _ b).1.ball.vel = _; rw [h]; simp only [h0, if_false]

/-- C20 fails as stated: in `energizedBlockAbove` the ball comes down on the top face of a
type-0 block; the face snap sets `vel = (0, -5)`, and the doubling then makes it `(0, -10)`: the
doubled component was negative. -/
theorem energized_block_doubling_counterexample :
    energizedBlockAbove.currentGameState = GAMESTATE_PLAY ∧
      energizedBlockAbove.blocks.map (fun b => b.type) = [0] ∧
      (faceTest (ballMovement (paddleVsWindow (paddleMovement energizedBlockAbove))).ball
        { sampleBlock 10 3 with type := 0 }) =
        ({ pos := ⟨330, 40⟩, vel := ⟨0, -5⟩, maxVel := ⟨1, 5⟩ }, true) ∧
      (ballVsBlocks (ballMovement (paddleVsWindow (paddleMovement energizedBlockAbove)))).ball.vel
        = ⟨0, -10⟩ ∧
      (GameUpdate TIME_STEP sampleInput energizedBlockAbove).ball.vel = ⟨0, -10⟩ := by
  decide!

/-- C20 (witness): the top-face hit of `energizedBlockAbove`, where `vel.x = 0` is not positive
and `vel.y` is doubled. -/
theorem energized_block_doubling_witness :
    (faceTest (ballMovement (paddleVsWindow (paddleMovement energizedBlockAbove))).ball
        { sampleBlock 10 3 with type := 0 }).2 = true ∧
      (ballVsBlocks (ballMovement (paddleVsWindow (paddleMovement energizedBlockAbove)))).ball.vel =
        ⟨(faceTest (ballMovement (paddleVsWindow (paddleMovement energizedBlockAbove))).ball
            { sampleBlock 10 3 with type := 0 }).1.vel.x,
         (faceTest (ballMovement (paddleVsWindow (paddleMovement energizedBlockAbove))).ball
            { sampleBlock 10 3 with type := 0 }).1.vel.y * 2⟩ :=
  ⟨by decide!,
    (energized_block_doubling (ballMovement (paddleVsWindow (paddleMovement energizedBlockAbove)))
      [] [] { sampleBlock 10 3 with type := 0 } (by decide!)
      (fun c hc => absurd hc (List.not_mem_nil c)) (by decide!) (by decide!)).2.1
      (by decide!) (by decide!)⟩

/-! ### C21 -/

/-- C21 does not hold of the code.  The game loop takes `ballOverPaddle` (a continued game, the
ball falling onto the right part of the paddle) through `lostBallRun` to `ballBeyondLeftWall`:
the ball bounces off the paddle with `paddle.angle = 3/4`, turns left on the left face of a
block (`vel.x = -1`), is lost at x = 156, and keeps moving left below the window in the PLAY
ticks that "Continue Game" grants, where the bottom rule masks the side rules and nothing
clamps `pos.x`; the up-arrow key then lifts it back.  In the PLAY tick that follows, the ball is
at (-1, 710) when the window rules are reached, the left-edge rule fires, and the tick leaves
`ball.pos.x = 0` and `ball.vel.x = -3/4`: the velocity still points out of the window.  The rule
assigns `maxVel.x * -paddle.angle` (`ballVsWindow_left`), whose sign is that of the last paddle
bounce, not of the wall. -/
theorem side_walls_reflect :
    run ballOverPaddle lostBallRun = ballBeyondLeftWall ∧
      ballBeyondLeftWall.currentGameState = GAMESTATE_PLAY ∧
      ballBeyondLeftWall.paddle.angle = 3 / 4 ∧
      (beforeWindowRules ballBeyondLeftWall).ball.pos = ⟨-1, 710⟩ ∧
      leftEdgeRuleFires ballBeyondLeftWall ∧
      (GameUpdate TIME_STEP pointerOnContinue ballBeyondLeftWall).currentGameState = GAMESTATE_PLAY ∧
      (GameUpdate TIME_STEP pointerOnContinue ballBeyondLeftWall).ball.pos = ⟨0, 710⟩ ∧
      (GameUpdate TIME_STEP pointerOnContinue ballBeyondLeftWall).ball.vel = ⟨-(3 / 4), -5⟩ :=
  ⟨lostBallRun_end, by decide!⟩

/-! ### C22 -/

/-- C22.  In a PLAY tick with no new game pending (menu state NONE or EXIT), with `last` the
block `blocks[numberOfBlocks - 1]`: at level 2, if `score.accumulator + delta > 2000` the
accumulator ends at 0 and either `last.pos.y > paddle.pos.y - 6 * paddle.size.y`, in which case
the PLAY block sets GAME_OVER (the game state at the end of the tick unless the game-over
display time runs out in it) and no block moves, or every block's `pos.y` grows by exactly 10
with `pos.x` unchanged; if `score.accumulator + delta <= 2000` no block moves and the
accumulator grows by exactly `delta`.  At level 1 no block moves. -/
theorem level_two_descent (delta : ℚ) (inp : Input) (g : Game)
    (hplay : g.currentGameState = GAMESTATE_PLAY)
    (hmenu : g.currentMenuState = MENUSTATE_NONE ∨ g.currentMenuState = MENUSTATE_EXIT)
    (hnl : g.nextLevelAccumulator + delta ≤ TIME_TO_SHOW_NEXT_LEVEL) :
    (g.score.level = 2 → g.score.accumulator + delta > TIME_BETWEEN_LOWERING_BLOCKS →
      (GameUpdate delta inp g).score.accumulator = 0 ∧
      ((g.blocks.getLastD inp.strayBlock).pos.y > g.paddle.pos.y - (g.paddle.size.y * 6) →
        (playPhase delta inp g).currentGameState = GAMESTATE_GAME_OVER ∧
        (g.gameOverAccumulator + delta ≤ TIME_TO_SHOW_GAME_OVER →
          (GameUpdate delta inp g).currentGameState = GAMESTATE_GAME_OVER) ∧
        (GameUpdate delta inp g).blocks.map (fun b => b.pos) = g.blocks.map (fun b => b.pos)) ∧
      (¬ (g.blocks.getLastD inp.strayBlock).pos.y > g.paddle.pos.y - (g.paddle.size.y * 6) →
        (GameUpdate delta inp g).blocks.map (fun b => b.pos) =
          g.blocks.map (fun b => (⟨b.pos.x, b.pos.y + 10⟩ : Vec2)))) ∧
    (g.score.level = 2 → ¬ g.score.accumulator + delta > TIME_BETWEEN_LOWERING_BLOCKS →
      (GameUpdate delta inp g).blocks.map (fun b => b.pos) = g.blocks.map (fun b => b.pos) ∧
      (GameUpdate delta inp g).score.accumulator = g.score.accumulator + delta) ∧
    (g.score.level = 1 →
      (GameUpdate delta inp g).blocks.map (fun b => b.pos) = g.blocks.map (fun b => b.pos)) := by
  have hmenu' : g.currentMenuState ≠ MENUSTATE_NEW_GAME := by
    rcases hmenu with k | k <;> simp [k]
  obtain ⟨hb, -, -, -, -, ha⟩ := GameUpdate_session_of_play delta inp g hplay hmenu' hnl
  rw [hb, ha]
  refine ⟨?_, ?_, ?_⟩
  · intro hl hacc
    rw [playPhase_score_accumulator_level2 delta inp g hl, playPhase_positions delta inp g (Or.inr hl)]
    refine ⟨by simp [hacc], ?_, ?_⟩
    · intro hd
      have hp : (playPhase delta inp g).currentGameState = GAMESTATE_GAME_OVER := by
        rw [playPhase_currentGameState_eq]
        have : descentDanger delta inp g := ⟨Or.inl hl, hacc, hd⟩
        simp [this]
      refine ⟨hp, ?_, by rw [if_neg (fun k => k.2.2 hd)]⟩
      intro hgo
      have hm := playPhase_currentMenuState delta inp g
      have h2 := playPhase_gameOverAccumulator delta inp g
      rw [GameUpdate_of_play delta inp g hplay]
      rw [← hm] at hmenu
      rw [← h2] at hgo
      generalize playPhase delta inp g = p at hmenu hgo hp ⊢
      rw [afterPlay_gameOver _ _ _ hp, gameOverPhase_wait _ _ (not_lt.mpr hgo),
        menuChain_idle delta inp { p with gameOverAccumulator := p.gameOverAccumulator + delta }
          (by simp [hp]) (by simp [hp]) hmenu]
      exact hp
    · intro hd
      simp only [hl, hacc, hd, not_false_eq_true, and_self, if_true]
      rfl
  · intro hl hacc
    rw [playPhase_score_accumulator_level2 delta inp g hl, playPhase_positions delta inp g (Or.inr hl)]
    simp [hacc]
  · intro hl
    rw [playPhase_positions delta inp g (Or.inl hl)]
    have h2 : ¬ g.score.level = 2 := by rw [hl]; decide
    simp [h2]

/-- C22 (witness): the level-2 state `lastBlockLow`, whose lowering interval runs out with the
last block (at `pos.y = 618`) below the danger line 608. -/
theorem level_two_descent_witness :
    (lastBlockLow.currentGameState = GAMESTATE_PLAY ∧ lastBlockLow.score.level = 2 ∧
      lastBlockLow.score.accumulator + TIME_STEP > TIME_BETWEEN_LOWERING_BLOCKS ∧
      (lastBlockLow.blocks.getLastD sampleInput.strayBlock).pos.y >
        lastBlockLow.paddle.pos.y - (lastBlockLow.paddle.size.y * 6)) ∧
    ((GameUpdate TIME_STEP sampleInput lastBlockLow).score.accumulator = 0 ∧
      (GameUpdate TIME_STEP sampleInput lastBlockLow).currentGameState = GAMESTATE_GAME_OVER ∧
      (GameUpdate TIME_STEP sampleInput lastBlockLow).blocks.map (fun b => b.pos) =
        lastBlockLow.blocks.map (fun b => b.pos)) :=
  ⟨by decide!,
    ((level_two_descent TIME_STEP sampleInput lastBlockLow (by decide!) (by decide!) (by decide!)).1
      (by decide!) (by decide!)).1,
    (((level_two_descent TIME_STEP sampleInput lastBlockLow (by decide!) (by decide!) (by decide!)).1
      (by decide!) (by decide!)).2.1 (by decide!)).2.1 (by decide!),
    (((level_two_descent TIME_STEP sampleInput lastBlockLow (by decide!) (by decide!) (by decide!)).1
      (by decide!) (by decide!)).2.1 (by decide!)).2.2⟩

/-! ### C23 -/

/-- C23 (amended).  In the game state MENU with the menu state NONE: when
`clickingCoolDownTimer < 0`, a tick with the left button pressed sets the menu state in that
same tick to NEW_GAME if the pointer is strictly inside the New Game rectangle, and otherwise to
CONTINUE, EXIT or INSTRUCTION for the first of these rectangles that contains the pointer, and
resets the timer to 0; when the timer is not negative (in particular at 0, its initial value)
the tick handles no click: the menu state stays NONE and the timer drops by `delta`. -/
theorem root_menu_click (delta : ℚ) (inp : Input) (g : Game)
    (hs : g.currentGameState = GAMESTATE_MENU) (hm : g.currentMenuState = MENUSTATE_NONE) :
    (g.clickingCoolDownTimer < 0 → g.isLeftMouseBtnClicked = true →
      (GameUpdate delta inp g).clickingCoolDownTimer = 0 ∧
      (pointerInside inp.mouseX inp.mouseY g.menu.newGame →
        (GameUpdate delta inp g).currentMenuState = MENUSTATE_NEW_GAME) ∧
      (¬ pointerInside inp.mouseX inp.mouseY g.menu.newGame →
        pointerInside inp.mouseX inp.mouseY g.menu.continueGame →
        (GameUpdate delta inp g).currentMenuState = MENUSTATE_CONTINUE) ∧
      (¬ pointerInside inp.mouseX inp.mouseY g.menu.newGame →
        ¬ pointerInside inp.mouseX inp.mouseY g.menu.continueGame →
        pointerInside inp.mouseX inp.mouseY g.menu.exitGame →
        (GameUpdate delta inp g).currentMenuState = MENUSTATE_EXIT) ∧
      (¬ pointerInside inp.mouseX inp.mouseY g.menu.newGame →
        ¬ pointerInside inp.mouseX inp.mouseY g.menu.continueGame →
        ¬ pointerInside inp.mouseX inp.mouseY g.menu.exitGame →
        pointerInside inp.mouseX inp.mouseY g.menu.instruction →
        (GameUpdate delta inp g).currentMenuState = MENUSTATE_INSTRUCTION)) ∧
    (¬ g.clickingCoolDownTimer < 0 →
      (GameUpdate delta inp g).currentMenuState = MENUSTATE_NONE ∧
      (GameUpdate delta inp g).clickingCoolDownTimer = g.clickingCoolDownTimer - delta) := by
  obtain ⟨i1, i2, i3, i4⟩ := UpdateMenuBackground_items delta g
  rw [GameUpdate_root delta inp g hs hm]
  constructor
  · intro ht hc
    unfold menuRootPhase
    simp only [UpdateMenuBackground_clickingCoolDownTimer, ht, if_true, i1, i2, i3, i4,
      UpdateMenuBackground_isLeftMouseBtnClicked, hc]
    refine ⟨?_, ?_, ?_, ?_, ?_⟩
    · split_ifs <;> rfl
    · intro h1; simp only [h1, if_true]
    · intro h1 h2; simp only [h1, h2, if_true, if_false]
    · intro h1 h2 h3; simp only [h1, h2, h3, if_true, if_false]
    · intro h1 h2 h3 h4; simp only [h1, h2, h3, h4, if_true, if_false]
  · intro ht
    refine ⟨by rw [menuRootPhase_cooling delta inp g ht, hm], ?_⟩
    unfold menuRootPhase
    simp only [UpdateMenuBackground_clickingCoolDownTimer, ht, if_false]

/-- C23 fails as stated: in the first tick of the program (game state MENU, menu state NONE,
`clickingCoolDownTimer = 0`) with the left button pressed inside the New Game rectangle the menu
state stays NONE and the timer goes to `-TIME_STEP`; the click is taken by the tick after it. -/
theorem root_menu_click_counterexample :
    (pollEvents (initialGame sampleLayout) [Event.mouseButtonDown 1]).currentGameState = GAMESTATE_MENU ∧
      (pollEvents (initialGame sampleLayout) [Event.mouseButtonDown 1]).currentMenuState = MENUSTATE_NONE ∧
      (pollEvents (initialGame sampleLayout) [Event.mouseButtonDown 1]).clickingCoolDownTimer = 0 ∧
      (pollEvents (initialGame sampleLayout) [Event.mouseButtonDown 1]).isLeftMouseBtnClicked = true ∧
      pointerInside pointerOnNewGame.mouseX pointerOnNewGame.mouseY
        (initialGame sampleLayout).menu.newGame ∧
      (tick (initialGame sampleLayout) ([Event.mouseButtonDown 1], pointerOnNewGame)).currentMenuState
        = MENUSTATE_NONE ∧
      (tick (initialGame sampleLayout) ([Event.mouseButtonDown 1], pointerOnNewGame)).clickingCoolDownTimer
        = -TIME_STEP ∧
      (run (initialGame sampleLayout)
        [([Event.mouseButtonDown 1], pointerOnNewGame), ([], pointerOnNewGame)]).currentMenuState
        = MENUSTATE_NEW_GAME := by
  decide!

/-- C23 (witness): the second tick of the program, with the timer at `-TIME_STEP` and the left
button pressed inside the New Game rectangle. -/
theorem root_menu_click_witness :
    ((pollEvents idleAtStart [Event.mouseButtonDown 1]).clickingCoolDownTimer < 0 ∧
      pointerInside pointerOnNewGame.mouseX pointerOnNewGame.mouseY
        (pollEvents idleAtStart [Event.mouseButtonDown 1]).menu.newGame) ∧
    (GameUpdate TIME_STEP pointerOnNewGame
      (pollEvents idleAtStart [Event.mouseButtonDown 1])).currentMenuState = MENUSTATE_NEW_GAME :=
  ⟨by decide!,
    ((root_menu_click TIME_STEP pointerOnNewGame (pollEvents idleAtStart [Event.mouseButtonDown 1])
      (by decide!) (by decide!)).1 (by decide!) (by decide!)).2.1 (by decide!)⟩

/-! ### C24 -/

/-- C24.  Along any run of `n` PLAY ticks of length `TIME_STEP`, a destroyed block whose
explosion starts the run active with frame (0, 0) and `timeToNextFrame = 3 * TIME_STEP` has,
after the run, the frame `((n / 3) mod 4, (n / 3) / 4)` for `n <= 60` (one advance every three
ticks, in row-major order) and the frame (0, 5) of tick 60 for every later `n`; its
`isExplosinActive` flag is true exactly for `n < 60`; and while the flag is true `frame.x` is
among 0..3 and `frame.y` among 0..4. -/
theorem explosion_animation (g g' : Game) (n : Nat) (h : PlayRun g n g') :
    List.Forall₂ (fun b b' =>
        b.health = 0 →
        explosionState b = (true, ⟨0, 0⟩, EXPLOSION_TIME_BETWEEN_FRAMES) →
          b'.isExplosinActive = decide (n < 60) ∧
          b'.explosion.frame = sheetFrame (min n 60) ∧
          (b'.isExplosinActive = true →
            (b'.explosion.frame.x = 0 ∨ b'.explosion.frame.x = 1 ∨ b'.explosion.frame.x = 2 ∨
              b'.explosion.frame.x = 3) ∧
            (b'.explosion.frame.y = 0 ∨ b'.explosion.frame.y = 1 ∨ b'.explosion.frame.y = 2 ∨
              b'.explosion.frame.y = 3 ∨ b'.explosion.frame.y = 4)))
      g.blocks g'.blocks := by
  refine List.Forall₂.imp ?_ (playRun_explosion g g' n h)
  intro b b' hb h0 hstart
  obtain ⟨-, hs⟩ := hb h0
  rw [hstart, explosionTick_iterate] at hs
  simp only [explosionState, Prod.mk.injEq] at hs
  obtain ⟨k1, k2, -⟩ := hs
  refine ⟨k1, k2, ?_⟩
  intro ha
  rw [k1, decide_eq_true_iff] at ha
  rw [k2, min_eq_left (le_of_lt ha)]
  exact sheetFrame_range n ha

/-- C24 (witness): three PLAY ticks from `blockExploding` bring the first frame advance; tick by
tick evaluation of the same state gives frame (3, 4), still active, after 59 ticks and frame
(0, 5), inactive, after 60 and after 61. -/
theorem explosion_animation_witness :
    List.Forall₂ (fun b b' =>
        b.health = 0 →
        explosionState b = (true, ⟨0, 0⟩, EXPLOSION_TIME_BETWEEN_FRAMES) →
          b'.isExplosinActive = decide (3 < 60) ∧
          b'.explosion.frame = sheetFrame (min 3 60) ∧
          (b'.isExplosinActive = true →
            (b'.explosion.frame.x = 0 ∨ b'.explosion.frame.x = 1 ∨ b'.explosion.frame.x = 2 ∨
              b'.explosion.frame.x = 3) ∧
            (b'.explosion.frame.y = 0 ∨ b'.explosion.frame.y = 1 ∨ b'.explosion.frame.y = 2 ∨
              b'.explosion.frame.y = 3 ∨ b'.explosion.frame.y = 4)))
      blockExploding.blocks
      (tick (tick (tick blockExploding ([], sampleInput)) ([], sampleInput)) ([], sampleInput)).blocks ∧
    blockExploding.blocks.map (fun b => (b.health, explosionState b)) =
      [(0, true, ⟨0, 0⟩, EXPLOSION_TIME_BETWEEN_FRAMES)] ∧
    (run blockExploding (List.replicate 3 ([], sampleInput))).blocks.map explosionState
      = [(true, ⟨1, 0⟩, EXPLOSION_TIME_BETWEEN_FRAMES)] ∧
    (run blockExploding (List.replicate 59 ([], sampleInput))).blocks.map explosionState
      = [(true, ⟨3, 4⟩, TIME_STEP)] ∧
    (run blockExploding (List.replicate 60 ([], sampleInput))).blocks.map explosionState
      = [(false, ⟨0, 5⟩, EXPLOSION_TIME_BETWEEN_FRAMES)] ∧
    (run blockExploding (List.replicate 61 ([], sampleInput))).blocks.map explosionState
      = [(false, ⟨0, 5⟩, EXPLOSION_TIME_BETWEEN_FRAMES)] :=
  ⟨explosion_animation blockExploding _ 3
      (PlayRun.tick _ _ _ [] sampleInput
        (PlayRun.tick _ _ _ [] sampleInput
          (PlayRun.tick _ _ _ [] sampleInput (PlayRun.start _) (by decide!) (by decide!) (by decide!))
          (by decide!) (by decide!) (by decide!))
        (by decide!) (by decide!) (by decide!)),
    by decide!⟩

/-! ### C25 -/

/-- C25.  For all boxes A, B and B', `CollisionDetection(A, B)` and `CollisionDetection(A, B')`
have the same `intersects` flag, normal and length, whatever the uninitialised local `result`
held in the two calls. -/
theorem resolver_ignores_second_box (result result' : CollisionResult) (boxA boxB boxB' : AxisBox) :
    (CollisionDetection result boxA boxB).intersects =
        (CollisionDetection result' boxA boxB').intersects ∧
      (CollisionDetection result boxA boxB).normal = (CollisionDetection result' boxA boxB').normal ∧
      (CollisionDetection result boxA boxB).length = (CollisionDetection result' boxA boxB').length := by
  rw [CollisionDetection_eq result boxA boxB, CollisionDetection_eq result' boxA boxB']
  exact ⟨rfl, rfl, rfl⟩

/-! ### C26 -/

/-- C26.  For every ball and block the right-face condition of line 693 is equivalent to the
bottom-face condition of line 669, which is tested first; a registered hit never leaves
`ball.pos.x` at `block.pos.x + BLOCK_WIDTH` (the snap of the right-face case), neither in the
face test nor at the end of the ball-vs-block scan that hits the block. -/
theorem right_face_never_selected (ball : Ball) (b : Block) :
    (hitsRight ball b ↔ hitsBottom ball b) ∧
      ((faceTest ball b).2 = true → (faceTest ball b).1.pos.x ≠ b.pos.x + BLOCK_WIDTH) ∧
      (∀ (s : Game) (pre post : List Block), s.ball = ball → s.blocks = pre ++ b :: post →
        (∀ c ∈ pre, c.health ≠ 0 → (faceTest s.ball c).2 = false) → b.health ≠ 0 →
        (faceTest s.ball b).2 = true → (ballVsBlocks s).ball.pos.x ≠ b.pos.x + BLOCK_WIDTH) := by
  refine ⟨hitsRight_iff_hitsBottom ball b, faceTest_not_right ball b, ?_⟩
  intro s pre post hball hblocks hpre hb hhit
  rw [ballVsBlocks_first_match s pre post b hblocks hpre hb hhit]
  show (evalResult _ b).1.ball.pos.x ≠ _
  rw [evalResult_ball_pos]
  exact faceTest_not_right s.ball b hhit

/-- C26 (witness): the bottom-face hit of `ballBelowBlock`, which also meets the right-face
condition. -/
theorem right_face_never_selected_witness :
    (hitsRight (ballMovement (paddleVsWindow (paddleMovement ballBelowBlock))).ball (sampleBlock 10 3) ∧
      (faceTest (ballMovement (paddleVsWindow (paddleMovement ballBelowBlock))).ball
        (sampleBlock 10 3)).2 = true) ∧
    (faceTest (ballMovement (paddleVsWindow (paddleMovement ballBelowBlock))).ball
        (sampleBlock 10 3)).1.pos.x ≠ (sampleBlock 10 3).pos.x + BLOCK_WIDTH :=
  ⟨by decide!,
    (right_face_never_selected (ballMovement (paddleVsWindow (paddleMovement ballBelowBlock))).ball
      (sampleBlock 10 3)).2.1 (by decide!)⟩

/-! ### C27 -/

/-- C27 (amended).  When the scan reaches the non-destroyed block `b` (no earlier block is hit)
and the ball's rectangle overlaps the block's with positive area, a hit on `b` is registered
provided the ball's top-left corner is to the right of the block's left edge or below its top
edge (`ball.pos.x > b.pos.x` or `ball.pos.y > b.pos.y`): the block's health is toggled.  In the
remaining case, an overlap at the block's top-left corner, no face condition matches. -/
theorem face_test_detects_overlap (s : Game) (pre post : List Block) (b : Block)
    (hblocks : s.blocks = pre ++ b :: post)
    (hpre : ∀ c ∈ pre, c.health ≠ 0 → (faceTest s.ball c).2 = false)
    (hb : b.health ≠ 0)
    (hover : overlaps s.ball b) :
    (s.ball.pos.x > b.pos.x ∨ s.ball.pos.y > b.pos.y →
      (hitsBottom s.ball b ∨ hitsTop s.ball b ∨ hitsLeft s.ball b) ∧
      (faceTest s.ball b).2 = true ∧
      ∃ b', (ballVsBlocks s).blocks = pre ++ b' :: post ∧ b'.health = toggleHealth b.health) ∧
    (¬ (s.ball.pos.x > b.pos.x ∨ s.ball.pos.y > b.pos.y) →
      ¬ hitsBottom s.ball b ∧ ¬ hitsTop s.ball b ∧ ¬ hitsLeft s.ball b ∧ ¬ hitsRight s.ball b ∧
      (faceTest s.ball b).2 = false) := by
  constructor
  · intro hc
    have hhit : (faceTest s.ball b).2 = true := (faceTest_hit_iff s.ball b).mpr ⟨hover, hc⟩
    refine ⟨?_, hhit, ?_⟩
    · by_contra hn
      push_neg at hn
      have h4 : ¬ hitsRight s.ball b := fun k => hn.1 ((hitsRight_iff_hitsBottom s.ball b).mp k)
      have : (faceTest s.ball b).2 = false := by simp [faceTest, hn.1, hn.2.1, hn.2.2, h4]
      rw [this] at hhit; cases hhit
    · rw [ballVsBlocks_first_match s pre post b hblocks hpre hb hhit]
      exact ⟨_, rfl, (evalResult_block _ b).1⟩
  · intro hc
    have hmiss : ¬ (faceTest s.ball b).2 = true := fun k => hc ((faceTest_hit_iff s.ball b).mp k).2
    push_neg at hc
    refine ⟨fun k => ?_, fun k => ?_, fun k => ?_, fun k => ?_, by simpa using hmiss⟩
    · exact absurd k.1.2 (not_lt.mpr hc.1)
    · exact absurd k.2.2 (not_lt.mpr hc.1)
    · exact absurd k.2.1 (not_lt.mpr hc.2)
    · exact absurd k.1.2 (not_lt.mpr hc.1)

/-- C27 fails as stated: in `ballOnBlockCorner` the ball, moved to (316, 44), overlaps the intact
block at (320, 48) in the square (320, 48) .. (324, 52), yet none of the four face conditions
matches; the tick leaves the block's health at 2 and the ball where the movement put it. -/
theorem face_test_detects_overlap_counterexample :
    ballOnBlockCorner.currentGameState = GAMESTATE_PLAY ∧
      ballOnBlockCorner.blocks = [sampleBlock 10 3] ∧
      (sampleBlock 10 3).pos = ⟨320, 48⟩ ∧
      (ballMovement (paddleVsWindow (paddleMovement ballOnBlockCorner))).ball.pos = ⟨316, 44⟩ ∧
      overlaps (ballMovement (paddleVsWindow (paddleMovement ballOnBlockCorner))).ball (sampleBlock 10 3) ∧
      (faceTest (ballMovement (paddleVsWindow (paddleMovement ballOnBlockCorner))).ball
        (sampleBlock 10 3)).2 = false ∧
      (GameUpdate TIME_STEP sampleInput ballOnBlockCorner).blocks.map (fun b => b.health) = [2] ∧
      (GameUpdate TIME_STEP sampleInput ballOnBlockCorner).ball.pos = ⟨316, 44⟩ := by
  decide!

/-- C27 (witness): the overlap of `ballBelowBlock`, with the ball's corner inside the block. -/
theorem face_test_detects_overlap_witness :
    overlaps (ballMovement (paddleVsWindow (paddleMovement ballBelowBlock))).ball (sampleBlock 10 3) ∧
      (faceTest (ballMovement (paddleVsWindow (paddleMovement ballBelowBlock))).ball
        (sampleBlock 10 3)).2 = true :=
  ⟨by decide!,
    ((face_test_detects_overlap (ballMovement (paddleVsWindow (paddleMovement ballBelowBlock)))
      [] [] (sampleBlock 10 3) (by decide!) (fun c hc => absurd hc (List.not_mem_nil c))
      (by decide!) (by decide!)).1 (by decide!)).2.1⟩

/-! ### C28 -/

/-- C28.  In every state reached from a new-game initialisation by ticks that start in PLAY, and
in every state the game loop of `main` reaches, no block of the array has a larger `pos.y` than
the last one, `blocks[numberOfBlocks - 1]`; and a new game on the grid of `main` (24 columns,
offsets 10 and 3) builds 84 blocks, block `i` at `((10 + i mod 14) * 32, (3 + i div 14) * 16)`. -/
theorem last_block_is_lowest (g : Game) (h : PlayReachable g ∨ Reachable g) :
    (∀ b ∈ g.blocks, ∀ stray : Block, b.pos.y ≤ (g.blocks.getLastD stray).pos.y) ∧
      (g.grid = (24, 4, 10, 3) → ∀ inp : Input,
        (newGame inp g).blocks.map (fun b => b.pos) = newGameLayout ∧
        (newGame inp g).blocks.length = 84) := by
  have hl : lastLowest (g.blocks.map (fun b => b.pos)) := by
    rcases h with h | h
    · exact playReachable_lastLowest g h
    · exact reachable_lastLowest g h
  constructor
  · intro b hb stray
    have := hl b.pos (List.mem_map.mpr ⟨b, hb, rfl⟩) stray.pos
    rw [getLastD_map (fun b : Block => b.pos)] at this
    exact this
  · intro hg inp
    have hlay := newGame_layout inp g hg
    refine ⟨hlay, ?_⟩
    have := congrArg List.length hlay
    simpa [newGameLayout] using this

/-- C28 (witness): ten ticks into the first session of the program. -/
theorem last_block_is_lowest_witness :
    (firstSession.currentGameState = GAMESTATE_PLAY ∧ firstSession.blocks.length = 84) ∧
      ∀ b ∈ firstSession.blocks, ∀ stray : Block,
        b.pos.y ≤ (firstSession.blocks.getLastD stray).pos.y :=
  ⟨by decide!,
    (last_block_is_lowest firstSession
      (Or.inr (reachable_run _ _ (reachable_run _ _ (Reachable.initial sampleLayout))))).1⟩

/-! ### C29 -/

/-- C29 does not hold of the code.  Before the first new game: from `idleAtStart`
(`gameIsStarted = false`) a left click at (5, 5), inside the rectangle of the Continue entry at
its start-up position (0, 0), sets the menu state to CONTINUE, and the next tick sets the game
state to PLAY.  After a game-over timeout: from `firstGameLost` the timeout tick clears
`gameIsStarted` and moves the Exit entry onto the place of the Continue entry; a left click
there in the next tick is taken by the Continue test, which comes first, and the tick after it
resumes PLAY.  The hit test of lines 1017-1022 does not read `gameIsStarted`. -/
theorem continue_needs_started_game :
    Reachable idleAtStart ∧
      idleAtStart.gameIsStarted = false ∧
      (tick idleAtStart ([Event.mouseButtonDown 1], pointerTopLeft)).currentMenuState
        = MENUSTATE_CONTINUE ∧
      (tick idleAtStart ([Event.mouseButtonDown 1], pointerTopLeft)).gameIsStarted = false ∧
      continuedAtStart.currentGameState = GAMESTATE_PLAY ∧
      continuedAtStart.gameIsStarted = false ∧
      firstGameLost.gameIsStarted = true ∧
      (tick firstGameLost ([], pointerOnExit)).currentGameState = GAMESTATE_MENU ∧
      (tick firstGameLost ([], pointerOnExit)).gameIsStarted = false ∧
      pointerInside pointerOnExit.mouseX pointerOnExit.mouseY
        (tick firstGameLost ([], pointerOnExit)).menu.exitGame ∧
      (run firstGameLost [([], pointerOnExit),
        ([Event.mouseButtonDown 1], pointerOnExit)]).currentMenuState = MENUSTATE_CONTINUE ∧
      (run firstGameLost [([], pointerOnExit),
        ([Event.mouseButtonDown 1], pointerOnExit)]).gameIsStarted = false ∧
      (run firstGameLost [([], pointerOnExit), ([Event.mouseButtonDown 1], pointerOnExit),
        ([Event.mouseButtonUp], pointerOnExit)]).currentGameState = GAMESTATE_PLAY := by
  refine ⟨Reachable.tick _ _ _ (Reachable.initial _), by decide!⟩

end Breakout
